import Mathlib

/-!
AnsiColors: the nearest-colour matcher `rgb_to_ansi256`

A shallow embedding of `ansi_colors::rgb_to_ansi256` (src/AnsiColors.hpp, lines 2929-2988)
and the properties of it that the specification states.

Conventions of the embedding:
* a `uint8_t` argument is a `Nat` together with a hypothesis `< 256`;
* the C++ `int` locals are `Int`; every intermediate value is bounded by `3 * 255^2`,
  so no 32-bit wrap-around occurs and unbounded integers are exact;
* C++ `/` on `int` truncates toward zero: it is `Int.tdiv`;
* `static_cast<uint8_t>` is reduction modulo 256 (`narrow`).
-/

namespace ansi_colors

/-- The table `ansi16_rgb[16][3]` of the source. -/
def ansi16_rgb : List (Int × Int × Int) :=
  [ (  0,   0,   0), (128,   0,   0), (  0, 128,   0), (128, 128,   0),
    (  0,   0, 128), (128,   0, 128), (  0, 128, 128), (192, 192, 192),
    (128, 128, 128), (255,   0,   0), (  0, 255,   0), (255, 255,   0),
    (  0,   0, 255), (255,   0, 255), (  0, 255, 255), (255, 255, 255) ]

/-- The lambda `dist2` of the source: squared Euclidean distance. -/
def dist2 (r1 g1 b1 r2 g2 b2 : Int) : Int :=
  let dr := r1 - r2
  let dg := g1 - g2
  let db := b1 - b2
  dr * dr + dg * dg + db * db

/-- The value `std::numeric_limits<int>::max()` for a 32-bit `int`. -/
def INT_MAX : Int := 2147483647

/-- One iteration of the body of `for(int i = 0; i < 16; ++i)`; the state is
`(best16, best16d)`. -/
def scanStep (r g b : Int) (st : Int × Int) (i : Nat) : Int × Int :=
  let e := ansi16_rgb.getD i (0, 0, 0)
  let d := dist2 r g b e.1 e.2.1 e.2.2
  if d < st.2 then ((i : Int), d) else st

/-- The loop run for `i = 0, ..., n-1` from the initial state `best16 = 0`,
`best16d = INT_MAX`. -/
def scanUpTo (n : Nat) (r g b : Int) : Int × Int :=
  (List.range n).foldl (scanStep r g b) (0, INT_MAX)

/-- The local `best16` after the loop. -/
def best16 (r g b : Int) : Int := (scanUpTo 16 r g b).1

/-- The local `best16d` after the loop. -/
def best16d (r g b : Int) : Int := (scanUpTo 16 r g b).2

/-- The table `cube_levels[6]` of the source. -/
def cube_levels : List Int := [0, 95, 135, 175, 215, 255]

/-- The lambda `to_level` of the source. -/
def to_level (v : Int) : Int := if v = 255 then 5 else Int.tdiv v 51

/-- The lookup `cube_levels[l]`. -/
def cubeLevelAt (l : Int) : Int := cube_levels.getD l.toNat 0

/-- The local `cube_index`. -/
def cube_index (r g b : Int) : Int :=
  let lr := to_level r
  let lg := to_level g
  let lb := to_level b
  16 + 36 * lr + 6 * lg + lb

/-- The local `dc`: distance to the cube candidate. -/
def dc (r g b : Int) : Int :=
  let lr := to_level r
  let lg := to_level g
  let lb := to_level b
  dist2 r g b (cubeLevelAt lr) (cubeLevelAt lg) (cubeLevelAt lb)

/-- The local `gray_mean`. -/
def gray_mean (r g b : Int) : Int := Int.tdiv (r + g + b) 3

/-- The local `gray_level`. -/
def gray_level (r g b : Int) : Int :=
  let m := gray_mean r g b
  if m < 8 then 0 else if m > 248 then 23 else Int.tdiv (m - 8) 10

/-- The local `gray_index`. -/
def gray_index (r g b : Int) : Int := 232 + gray_level r g b

/-- The local `gray_val`. -/
def gray_val (r g b : Int) : Int := 8 + gray_level r g b * 10

/-- The local `dg2`: distance to the grayscale candidate. -/
def dg2 (r g b : Int) : Int :=
  let v := gray_val r g b
  dist2 r g b v v v

/-- The conversion `static_cast<uint8_t>(x)` of an `int`. -/
def narrow (x : Int) : Nat := (x % 256).toNat

/-- The function `rgb_to_ansi256` of the source. -/
def rgb_to_ansi256 (R G B : Nat) : Nat :=
  let r : Int := R
  let g : Int := G
  let b : Int := B
  if best16d r g b ≤ dc r g b ∧ best16d r g b ≤ dg2 r g b then
    narrow (best16 r g b)
  else if dc r g b ≤ best16d r g b ∧ dc r g b ≤ dg2 r g b then
    narrow (cube_index r g b)
  else
    narrow (gray_index r g b)

/-- The three candidate generators of the matcher. -/
inductive Candidate
  | standard16
  | cube
  | grayscale
  deriving DecidableEq

/-- Which branch of the final `if / else if / else` chain is taken. -/
def selected (R G B : Nat) : Candidate :=
  let r : Int := R
  let g : Int := G
  let b : Int := B
  if best16d r g b ≤ dc r g b ∧ best16d r g b ≤ dg2 r g b then Candidate.standard16
  else if dc r g b ≤ best16d r g b ∧ dc r g b ≤ dg2 r g b then Candidate.cube
  else Candidate.grayscale

/-- The `int` index of a candidate, before the narrowing cast. -/
def candidateIndex (c : Candidate) (R G B : Nat) : Int :=
  match c with
  | Candidate.standard16 => best16 R G B
  | Candidate.cube => cube_index R G B
  | Candidate.grayscale => gray_index R G B

/-- The squared distance of a candidate from the input colour. -/
def candidateDist (c : Candidate) (R G B : Nat) : Int :=
  match c with
  | Candidate.standard16 => best16d R G B
  | Candidate.cube => dc R G B
  | Candidate.grayscale => dg2 R G B

/-- Squared distance from `(r, g, b)` to entry `i` of `ansi16_rgb`, as computed in the
loop body. -/
def dist16 (r g b : Int) (i : Nat) : Int :=
  let e := ansi16_rgb.getD i (0, 0, 0)
  dist2 r g b e.1 e.2.1 e.2.2

/-- The palette colour of an index as the specification describes it, from the tables of the
matcher: `ansi16_rgb[j]` for `j < 16`, the cube levels for `16 ≤ j ≤ 231`, and the gray
`8 + 10 * (j - 232)` for `j ≥ 232`. -/
def paletteRgb (j : Nat) : Int × Int × Int :=
  if j < 16 then ansi16_rgb.getD j (0, 0, 0)
  else if j ≤ 231 then
    (cube_levels.getD ((j - 16) / 36) 0, cube_levels.getD (((j - 16) / 6) % 6) 0,
      cube_levels.getD ((j - 16) % 6) 0)
  else
    let g : Int := 8 + 10 * ((j : Int) - 232)
    (g, g, g)

/-- Squared distance from the input colour to the palette colour of index `j`. -/
def paletteDist (R G B : Nat) (j : Nat) : Int :=
  let p := paletteRgb j
  dist2 R G B p.1 p.2.1 p.2.2

/-! ## Text styles, resets and escape sequences

The declarations below embed the rest of the header. Names of the two C++ namespaces
(`ansi_colors` and the helper namespace of the colour categories) are flattened into the one
Lean namespace. A `const char*` constant is the `String` it points to. -/

/-- The constant `TextStyle::Bold`. -/
def TextStyle.Bold : String := "\x1b[1m"

/-- The constant `TextStyle::Faint`. -/
def TextStyle.Faint : String := "\x1b[2m"

/-- The constant `TextStyle::Italic`. -/
def TextStyle.Italic : String := "\x1b[3m"

/-- The constant `TextStyle::Underline`. -/
def TextStyle.Underline : String := "\x1b[4m"

/-- The constant `TextStyle::Blink`. -/
def TextStyle.Blink : String := "\x1b[5m"

/-- The constant `TextStyle::Inverse`. -/
def TextStyle.Inverse : String := "\x1b[7m"

/-- The constant `TextStyle::Hidden`. -/
def TextStyle.Hidden : String := "\x1b[8m"

/-- The constant `TextStyle::Strikethrough`. -/
def TextStyle.Strikethrough : String := "\x1b[9m"

/-- The constant `Reset::All`. -/
def Reset.All : String := "\x1b[0m"

/-- The constant `Reset::FgColor`. -/
def Reset.FgColor : String := "\x1b[39m"

/-- The constant `Reset::BgColor`. -/
def Reset.BgColor : String := "\x1b[49m"

/-- The constant `Reset::Bold`. -/
def Reset.Bold : String := "\x1b[22m"

/-- The constant `Reset::Faint`. -/
def Reset.Faint : String := "\x1b[22m"

/-- The constant `Reset::Italic`. -/
def Reset.Italic : String := "\x1b[23m"

/-- The constant `Reset::Underline`. -/
def Reset.Underline : String := "\x1b[24m"

/-- The constant `Reset::Blink`. -/
def Reset.Blink : String := "\x1b[25m"

/-- The constant `Reset::Inverse`. -/
def Reset.Inverse : String := "\x1b[27m"

/-- The constant `Reset::Hidden`. -/
def Reset.Hidden : String := "\x1b[28m"

/-- The constant `Reset::Strikethrough`. -/
def Reset.Strikethrough : String := "\x1b[29m"

/-- The constant `Back_To_Default_Terminal_State`. -/
def Back_To_Default_Terminal_State : String := "\x1b[0m"

/-- The array `fg_color_code[256]` of the source: all the Foreground color codes. -/
def fg_color_code : List String :=
  ["\x1b[38;5;0m", "\x1b[38;5;1m", "\x1b[38;5;2m", "\x1b[38;5;3m", "\x1b[38;5;4m",
    "\x1b[38;5;5m", "\x1b[38;5;6m", "\x1b[38;5;7m", "\x1b[38;5;8m", "\x1b[38;5;9m",
    "\x1b[38;5;10m", "\x1b[38;5;11m", "\x1b[38;5;12m", "\x1b[38;5;13m", "\x1b[38;5;14m",
    "\x1b[38;5;15m", "\x1b[38;5;16m", "\x1b[38;5;17m", "\x1b[38;5;18m", "\x1b[38;5;19m",
    "\x1b[38;5;20m", "\x1b[38;5;21m", "\x1b[38;5;22m", "\x1b[38;5;23m", "\x1b[38;5;24m",
    "\x1b[38;5;25m", "\x1b[38;5;26m", "\x1b[38;5;27m", "\x1b[38;5;28m", "\x1b[38;5;29m",
    "\x1b[38;5;30m", "\x1b[38;5;31m", "\x1b[38;5;32m", "\x1b[38;5;33m", "\x1b[38;5;34m",
    "\x1b[38;5;35m", "\x1b[38;5;36m", "\x1b[38;5;37m", "\x1b[38;5;38m", "\x1b[38;5;39m",
    "\x1b[38;5;40m", "\x1b[38;5;41m", "\x1b[38;5;42m", "\x1b[38;5;43m", "\x1b[38;5;44m",
    "\x1b[38;5;45m", "\x1b[38;5;46m", "\x1b[38;5;47m", "\x1b[38;5;48m", "\x1b[38;5;49m",
    "\x1b[38;5;50m", "\x1b[38;5;51m", "\x1b[38;5;52m", "\x1b[38;5;53m", "\x1b[38;5;54m",
    "\x1b[38;5;55m", "\x1b[38;5;56m", "\x1b[38;5;57m", "\x1b[38;5;58m", "\x1b[38;5;59m",
    "\x1b[38;5;60m", "\x1b[38;5;61m", "\x1b[38;5;62m", "\x1b[38;5;63m", "\x1b[38;5;64m",
    "\x1b[38;5;65m", "\x1b[38;5;66m", "\x1b[38;5;67m", "\x1b[38;5;68m", "\x1b[38;5;69m",
    "\x1b[38;5;70m", "\x1b[38;5;71m", "\x1b[38;5;72m", "\x1b[38;5;73m", "\x1b[38;5;74m",
    "\x1b[38;5;75m", "\x1b[38;5;76m", "\x1b[38;5;77m", "\x1b[38;5;78m", "\x1b[38;5;79m",
    "\x1b[38;5;80m", "\x1b[38;5;81m", "\x1b[38;5;82m", "\x1b[38;5;83m", "\x1b[38;5;84m",
    "\x1b[38;5;85m", "\x1b[38;5;86m", "\x1b[38;5;87m", "\x1b[38;5;88m", "\x1b[38;5;89m",
    "\x1b[38;5;90m", "\x1b[38;5;91m", "\x1b[38;5;92m", "\x1b[38;5;93m", "\x1b[38;5;94m",
    "\x1b[38;5;95m", "\x1b[38;5;96m", "\x1b[38;5;97m", "\x1b[38;5;98m", "\x1b[38;5;99m",
    "\x1b[38;5;100m", "\x1b[38;5;101m", "\x1b[38;5;102m", "\x1b[38;5;103m", "\x1b[38;5;104m",
    "\x1b[38;5;105m", "\x1b[38;5;106m", "\x1b[38;5;107m", "\x1b[38;5;108m", "\x1b[38;5;109m",
    "\x1b[38;5;110m", "\x1b[38;5;111m", "\x1b[38;5;112m", "\x1b[38;5;113m", "\x1b[38;5;114m",
    "\x1b[38;5;115m", "\x1b[38;5;116m", "\x1b[38;5;117m", "\x1b[38;5;118m", "\x1b[38;5;119m",
    "\x1b[38;5;120m", "\x1b[38;5;121m", "\x1b[38;5;122m", "\x1b[38;5;123m", "\x1b[38;5;124m",
    "\x1b[38;5;125m", "\x1b[38;5;126m", "\x1b[38;5;127m", "\x1b[38;5;128m", "\x1b[38;5;129m",
    "\x1b[38;5;130m", "\x1b[38;5;131m", "\x1b[38;5;132m", "\x1b[38;5;133m", "\x1b[38;5;134m",
    "\x1b[38;5;135m", "\x1b[38;5;136m", "\x1b[38;5;137m", "\x1b[38;5;138m", "\x1b[38;5;139m",
    "\x1b[38;5;140m", "\x1b[38;5;141m", "\x1b[38;5;142m", "\x1b[38;5;143m", "\x1b[38;5;144m",
    "\x1b[38;5;145m", "\x1b[38;5;146m", "\x1b[38;5;147m", "\x1b[38;5;148m", "\x1b[38;5;149m",
    "\x1b[38;5;150m", "\x1b[38;5;151m", "\x1b[38;5;152m", "\x1b[38;5;153m", "\x1b[38;5;154m",
    "\x1b[38;5;155m", "\x1b[38;5;156m", "\x1b[38;5;157m", "\x1b[38;5;158m", "\x1b[38;5;159m",
    "\x1b[38;5;160m", "\x1b[38;5;161m", "\x1b[38;5;162m", "\x1b[38;5;163m", "\x1b[38;5;164m",
    "\x1b[38;5;165m", "\x1b[38;5;166m", "\x1b[38;5;167m", "\x1b[38;5;168m", "\x1b[38;5;169m",
    "\x1b[38;5;170m", "\x1b[38;5;171m", "\x1b[38;5;172m", "\x1b[38;5;173m", "\x1b[38;5;174m",
    "\x1b[38;5;175m", "\x1b[38;5;176m", "\x1b[38;5;177m", "\x1b[38;5;178m", "\x1b[38;5;179m",
    "\x1b[38;5;180m", "\x1b[38;5;181m", "\x1b[38;5;182m", "\x1b[38;5;183m", "\x1b[38;5;184m",
    "\x1b[38;5;185m", "\x1b[38;5;186m", "\x1b[38;5;187m", "\x1b[38;5;188m", "\x1b[38;5;189m",
    "\x1b[38;5;190m", "\x1b[38;5;191m", "\x1b[38;5;192m", "\x1b[38;5;193m", "\x1b[38;5;194m",
    "\x1b[38;5;195m", "\x1b[38;5;196m", "\x1b[38;5;197m", "\x1b[38;5;198m", "\x1b[38;5;199m",
    "\x1b[38;5;200m", "\x1b[38;5;201m", "\x1b[38;5;202m", "\x1b[38;5;203m", "\x1b[38;5;204m",
    "\x1b[38;5;205m", "\x1b[38;5;206m", "\x1b[38;5;207m", "\x1b[38;5;208m", "\x1b[38;5;209m",
    "\x1b[38;5;210m", "\x1b[38;5;211m", "\x1b[38;5;212m", "\x1b[38;5;213m", "\x1b[38;5;214m",
    "\x1b[38;5;215m", "\x1b[38;5;216m", "\x1b[38;5;217m", "\x1b[38;5;218m", "\x1b[38;5;219m",
    "\x1b[38;5;220m", "\x1b[38;5;221m", "\x1b[38;5;222m", "\x1b[38;5;223m", "\x1b[38;5;224m",
    "\x1b[38;5;225m", "\x1b[38;5;226m", "\x1b[38;5;227m", "\x1b[38;5;228m", "\x1b[38;5;229m",
    "\x1b[38;5;230m", "\x1b[38;5;231m", "\x1b[38;5;232m", "\x1b[38;5;233m", "\x1b[38;5;234m",
    "\x1b[38;5;235m", "\x1b[38;5;236m", "\x1b[38;5;237m", "\x1b[38;5;238m", "\x1b[38;5;239m",
    "\x1b[38;5;240m", "\x1b[38;5;241m", "\x1b[38;5;242m", "\x1b[38;5;243m", "\x1b[38;5;244m",
    "\x1b[38;5;245m", "\x1b[38;5;246m", "\x1b[38;5;247m", "\x1b[38;5;248m", "\x1b[38;5;249m",
    "\x1b[38;5;250m", "\x1b[38;5;251m", "\x1b[38;5;252m", "\x1b[38;5;253m", "\x1b[38;5;254m",
    "\x1b[38;5;255m"]

/-- The array `bg_color_code[256]` of the source: all the Background color codes. -/
def bg_color_code : List String :=
  ["\x1b[48;5;0m", "\x1b[48;5;1m", "\x1b[48;5;2m", "\x1b[48;5;3m", "\x1b[48;5;4m",
    "\x1b[48;5;5m", "\x1b[48;5;6m", "\x1b[48;5;7m", "\x1b[48;5;8m", "\x1b[48;5;9m",
    "\x1b[48;5;10m", "\x1b[48;5;11m", "\x1b[48;5;12m", "\x1b[48;5;13m", "\x1b[48;5;14m",
    "\x1b[48;5;15m", "\x1b[48;5;16m", "\x1b[48;5;17m", "\x1b[48;5;18m", "\x1b[48;5;19m",
    "\x1b[48;5;20m", "\x1b[48;5;21m", "\x1b[48;5;22m", "\x1b[48;5;23m", "\x1b[48;5;24m",
    "\x1b[48;5;25m", "\x1b[48;5;26m", "\x1b[48;5;27m", "\x1b[48;5;28m", "\x1b[48;5;29m",
    "\x1b[48;5;30m", "\x1b[48;5;31m", "\x1b[48;5;32m", "\x1b[48;5;33m", "\x1b[48;5;34m",
    "\x1b[48;5;35m", "\x1b[48;5;36m", "\x1b[48;5;37m", "\x1b[48;5;38m", "\x1b[48;5;39m",
    "\x1b[48;5;40m", "\x1b[48;5;41m", "\x1b[48;5;42m", "\x1b[48;5;43m", "\x1b[48;5;44m",
    "\x1b[48;5;45m", "\x1b[48;5;46m", "\x1b[48;5;47m", "\x1b[48;5;48m", "\x1b[48;5;49m",
    "\x1b[48;5;50m", "\x1b[48;5;51m", "\x1b[48;5;52m", "\x1b[48;5;53m", "\x1b[48;5;54m",
    "\x1b[48;5;55m", "\x1b[48;5;56m", "\x1b[48;5;57m", "\x1b[48;5;58m", "\x1b[48;5;59m",
    "\x1b[48;5;60m", "\x1b[48;5;61m", "\x1b[48;5;62m", "\x1b[48;5;63m", "\x1b[48;5;64m",
    "\x1b[48;5;65m", "\x1b[48;5;66m", "\x1b[48;5;67m", "\x1b[48;5;68m", "\x1b[48;5;69m",
    "\x1b[48;5;70m", "\x1b[48;5;71m", "\x1b[48;5;72m", "\x1b[48;5;73m", "\x1b[48;5;74m",
    "\x1b[48;5;75m", "\x1b[48;5;76m", "\x1b[48;5;77m", "\x1b[48;5;78m", "\x1b[48;5;79m",
    "\x1b[48;5;80m", "\x1b[48;5;81m", "\x1b[48;5;82m", "\x1b[48;5;83m", "\x1b[48;5;84m",
    "\x1b[48;5;85m", "\x1b[48;5;86m", "\x1b[48;5;87m", "\x1b[48;5;88m", "\x1b[48;5;89m",
    "\x1b[48;5;90m", "\x1b[48;5;91m", "\x1b[48;5;92m", "\x1b[48;5;93m", "\x1b[48;5;94m",
    "\x1b[48;5;95m", "\x1b[48;5;96m", "\x1b[48;5;97m", "\x1b[48;5;98m", "\x1b[48;5;99m",
    "\x1b[48;5;100m", "\x1b[48;5;101m", "\x1b[48;5;102m", "\x1b[48;5;103m", "\x1b[48;5;104m",
    "\x1b[48;5;105m", "\x1b[48;5;106m", "\x1b[48;5;107m", "\x1b[48;5;108m", "\x1b[48;5;109m",
    "\x1b[48;5;110m", "\x1b[48;5;111m", "\x1b[48;5;112m", "\x1b[48;5;113m", "\x1b[48;5;114m",
    "\x1b[48;5;115m", "\x1b[48;5;116m", "\x1b[48;5;117m", "\x1b[48;5;118m", "\x1b[48;5;119m",
    "\x1b[48;5;120m", "\x1b[48;5;121m", "\x1b[48;5;122m", "\x1b[48;5;123m", "\x1b[48;5;124m",
    "\x1b[48;5;125m", "\x1b[48;5;126m", "\x1b[48;5;127m", "\x1b[48;5;128m", "\x1b[48;5;129m",
    "\x1b[48;5;130m", "\x1b[48;5;131m", "\x1b[48;5;132m", "\x1b[48;5;133m", "\x1b[48;5;134m",
    "\x1b[48;5;135m", "\x1b[48;5;136m", "\x1b[48;5;137m", "\x1b[48;5;138m", "\x1b[48;5;139m",
    "\x1b[48;5;140m", "\x1b[48;5;141m", "\x1b[48;5;142m", "\x1b[48;5;143m", "\x1b[48;5;144m",
    "\x1b[48;5;145m", "\x1b[48;5;146m", "\x1b[48;5;147m", "\x1b[48;5;148m", "\x1b[48;5;149m",
    "\x1b[48;5;150m", "\x1b[48;5;151m", "\x1b[48;5;152m", "\x1b[48;5;153m", "\x1b[48;5;154m",
    "\x1b[48;5;155m", "\x1b[48;5;156m", "\x1b[48;5;157m", "\x1b[48;5;158m", "\x1b[48;5;159m",
    "\x1b[48;5;160m", "\x1b[48;5;161m", "\x1b[48;5;162m", "\x1b[48;5;163m", "\x1b[48;5;164m",
    "\x1b[48;5;165m", "\x1b[48;5;166m", "\x1b[48;5;167m", "\x1b[48;5;168m", "\x1b[48;5;169m",
    "\x1b[48;5;170m", "\x1b[48;5;171m", "\x1b[48;5;172m", "\x1b[48;5;173m", "\x1b[48;5;174m",
    "\x1b[48;5;175m", "\x1b[48;5;176m", "\x1b[48;5;177m", "\x1b[48;5;178m", "\x1b[48;5;179m",
    "\x1b[48;5;180m", "\x1b[48;5;181m", "\x1b[48;5;182m", "\x1b[48;5;183m", "\x1b[48;5;184m",
    "\x1b[48;5;185m", "\x1b[48;5;186m", "\x1b[48;5;187m", "\x1b[48;5;188m", "\x1b[48;5;189m",
    "\x1b[48;5;190m", "\x1b[48;5;191m", "\x1b[48;5;192m", "\x1b[48;5;193m", "\x1b[48;5;194m",
    "\x1b[48;5;195m", "\x1b[48;5;196m", "\x1b[48;5;197m", "\x1b[48;5;198m", "\x1b[48;5;199m",
    "\x1b[48;5;200m", "\x1b[48;5;201m", "\x1b[48;5;202m", "\x1b[48;5;203m", "\x1b[48;5;204m",
    "\x1b[48;5;205m", "\x1b[48;5;206m", "\x1b[48;5;207m", "\x1b[48;5;208m", "\x1b[48;5;209m",
    "\x1b[48;5;210m", "\x1b[48;5;211m", "\x1b[48;5;212m", "\x1b[48;5;213m", "\x1b[48;5;214m",
    "\x1b[48;5;215m", "\x1b[48;5;216m", "\x1b[48;5;217m", "\x1b[48;5;218m", "\x1b[48;5;219m",
    "\x1b[48;5;220m", "\x1b[48;5;221m", "\x1b[48;5;222m", "\x1b[48;5;223m", "\x1b[48;5;224m",
    "\x1b[48;5;225m", "\x1b[48;5;226m", "\x1b[48;5;227m", "\x1b[48;5;228m", "\x1b[48;5;229m",
    "\x1b[48;5;230m", "\x1b[48;5;231m", "\x1b[48;5;232m", "\x1b[48;5;233m", "\x1b[48;5;234m",
    "\x1b[48;5;235m", "\x1b[48;5;236m", "\x1b[48;5;237m", "\x1b[48;5;238m", "\x1b[48;5;239m",
    "\x1b[48;5;240m", "\x1b[48;5;241m", "\x1b[48;5;242m", "\x1b[48;5;243m", "\x1b[48;5;244m",
    "\x1b[48;5;245m", "\x1b[48;5;246m", "\x1b[48;5;247m", "\x1b[48;5;248m", "\x1b[48;5;249m",
    "\x1b[48;5;250m", "\x1b[48;5;251m", "\x1b[48;5;252m", "\x1b[48;5;253m", "\x1b[48;5;254m",
    "\x1b[48;5;255m"]

/-- The function `getAnsi256Code` of the source: a lookup in one of the two arrays. An index past
the end of the array, which a `uint8_t` index into 256 entries never is, reads as the empty
string. -/
def getAnsi256Code (code : Nat) (bgColor : Bool) : String :=
  if bgColor then bg_color_code.getD code "" else fg_color_code.getD code ""

/-! ## The class `Color` -/

/-- The data members of the class `Color`: `uint8_t color_code` and `bool bg_color`. -/
structure Color where
  color_code : Nat
  bg_color : Bool
  deriving DecidableEq

/-- An enumeration of `Defined_Colors`, with the numeric value of its enumerators. -/
class ColorEnum (α : Type) where
  val : α → Nat

/-- The member template `Color::getColorCode`: `static_cast<uint8_t>(color)`. -/
def Color.getColorCode {α : Type} [ColorEnum α] (color : α) : Nat :=
  ColorEnum.val color % 256

/-- The constructors `Color(Defined_Colors::X, bool)`, one overload for each enumeration. -/
def Color.ofEnum {α : Type} [ColorEnum α] (color : α) (bg_color : Bool) : Color :=
  { color_code := Color.getColorCode color, bg_color := bg_color }

/-- The constructor `Color(uint8_t color_code, bool bg_color)` called with an integer expression
`n`: the argument is converted to `uint8_t`, the constructor is `noexcept` and checks nothing, so
the outcome is always a `Color`. -/
def Color.fromInt (n : Int) (bg_color : Bool) : Except String Color :=
  Except.ok { color_code := narrow n, bg_color := bg_color }

/-- The method `Color::colorCode`. -/
def Color.colorCode (c : Color) : Nat := c.color_code

/-- The method `Color::isBackgroundColor`. -/
def Color.isBackgroundColor (c : Color) : Bool := c.bg_color

/-- The method `Color::c_str`. -/
def Color.c_str (c : Color) : String := getAnsi256Code c.color_code c.bg_color

/-- The enumeration `Defined_Colors::Red`, with underlying type `uint8_t`. -/
inductive Defined_Colors.Red
  | Red1 | Red9 | Red52 | Red88 | Red124 | Red160 | Red167 | Red196 | Red203 | Red210 | Red217
  deriving DecidableEq

/-- The numeric value of an enumerator of `Defined_Colors::Red`. -/
def Defined_Colors.Red.val : Defined_Colors.Red → Nat
  | .Red1 => 1 | .Red9 => 9 | .Red52 => 52 | .Red88 => 88 | .Red124 => 124 | .Red160 => 160
  | .Red167 => 167 | .Red196 => 196 | .Red203 => 203 | .Red210 => 210 | .Red217 => 217

instance : ColorEnum Defined_Colors.Red := ⟨Defined_Colors.Red.val⟩

/-- The enumeration `Defined_Colors::Orange`, with underlying type `uint8_t`. -/
inductive Defined_Colors.Orange
  | Orange130 | Orange166 | Orange172 | Orange202 | Orange208 | Orange209 | Orange214
  | Orange215 | Orange216 | Orange217
  deriving DecidableEq

/-- The numeric value of an enumerator of `Defined_Colors::Orange`. -/
def Defined_Colors.Orange.val : Defined_Colors.Orange → Nat
  | .Orange130 => 130 | .Orange166 => 166 | .Orange172 => 172 | .Orange202 => 202
  | .Orange208 => 208 | .Orange209 => 209 | .Orange214 => 214 | .Orange215 => 215
  | .Orange216 => 216 | .Orange217 => 217

instance : ColorEnum Defined_Colors.Orange := ⟨Defined_Colors.Orange.val⟩

/-- The enumeration `Defined_Colors::Yellow`, with underlying type `uint8_t`. -/
inductive Defined_Colors.Yellow
  | Yellow3 | Yellow11 | Yellow100 | Yellow142 | Yellow143 | Yellow144 | Yellow178 | Yellow184
  | Yellow185 | Yellow186 | Yellow187 | Yellow190 | Yellow191 | Yellow192 | Yellow220
  | Yellow221 | Yellow222 | Yellow226 | Yellow227 | Yellow228 | Yellow229 | Yellow230
  deriving DecidableEq

/-- The numeric value of an enumerator of `Defined_Colors::Yellow`. -/
def Defined_Colors.Yellow.val : Defined_Colors.Yellow → Nat
  | .Yellow3 => 3 | .Yellow11 => 11 | .Yellow100 => 100 | .Yellow142 => 142 | .Yellow143 => 143
  | .Yellow144 => 144 | .Yellow178 => 178 | .Yellow184 => 184 | .Yellow185 => 185
  | .Yellow186 => 186 | .Yellow187 => 187 | .Yellow190 => 190 | .Yellow191 => 191
  | .Yellow192 => 192 | .Yellow220 => 220 | .Yellow221 => 221 | .Yellow222 => 222
  | .Yellow226 => 226 | .Yellow227 => 227 | .Yellow228 => 228 | .Yellow229 => 229
  | .Yellow230 => 230

instance : ColorEnum Defined_Colors.Yellow := ⟨Defined_Colors.Yellow.val⟩

/-- The enumeration `Defined_Colors::Green`, with underlying type `uint8_t`. -/
inductive Defined_Colors.Green
  | Green2 | Green10 | Green22 | Green28 | Green29 | Green34 | Green35 | Green40 | Green41
  | Green42 | Green46 | Green47 | Green48 | Green49 | Green58 | Green64 | Green65 | Green70
  | Green71 | Green72 | Green76 | Green77 | Green78 | Green82 | Green83 | Green84 | Green85
  | Green101 | Green106 | Green107 | Green108 | Green112 | Green113 | Green114 | Green118
  | Green119 | Green120 | Green121 | Green148 | Green149 | Green150 | Green151 | Green154
  | Green155 | Green156 | Green157 | Green193 | Green194
  deriving DecidableEq

/-- The numeric value of an enumerator of `Defined_Colors::Green`. -/
def Defined_Colors.Green.val : Defined_Colors.Green → Nat
  | .Green2 => 2 | .Green10 => 10 | .Green22 => 22 | .Green28 => 28 | .Green29 => 29
  | .Green34 => 34 | .Green35 => 35 | .Green40 => 40 | .Green41 => 41 | .Green42 => 42
  | .Green46 => 46 | .Green47 => 47 | .Green48 => 48 | .Green49 => 49 | .Green58 => 58
  | .Green64 => 64 | .Green65 => 65 | .Green70 => 70 | .Green71 => 71 | .Green72 => 72
  | .Green76 => 76 | .Green77 => 77 | .Green78 => 78 | .Green82 => 82 | .Green83 => 83
  | .Green84 => 84 | .Green85 => 85 | .Green101 => 101 | .Green106 => 106 | .Green107 => 107
  | .Green108 => 108 | .Green112 => 112 | .Green113 => 113 | .Green114 => 114
  | .Green118 => 118 | .Green119 => 119 | .Green120 => 120 | .Green121 => 121
  | .Green148 => 148 | .Green149 => 149 | .Green150 => 150 | .Green151 => 151
  | .Green154 => 154 | .Green155 => 155 | .Green156 => 156 | .Green157 => 157
  | .Green193 => 193 | .Green194 => 194

instance : ColorEnum Defined_Colors.Green := ⟨Defined_Colors.Green.val⟩

/-- The enumeration `Defined_Colors::Cyan`, with underlying type `uint8_t`. -/
inductive Defined_Colors.Cyan
  | Cyan6 | Cyan14 | Cyan23 | Cyan24 | Cyan30 | Cyan31 | Cyan36 | Cyan37 | Cyan43 | Cyan44
  | Cyan50 | Cyan51 | Cyan66 | Cyan73 | Cyan79 | Cyan80 | Cyan86 | Cyan87 | Cyan109 | Cyan115
  | Cyan116 | Cyan117 | Cyan122 | Cyan123 | Cyan152 | Cyan158 | Cyan159 | Cyan195
  deriving DecidableEq

/-- The numeric value of an enumerator of `Defined_Colors::Cyan`. -/
def Defined_Colors.Cyan.val : Defined_Colors.Cyan → Nat
  | .Cyan6 => 6 | .Cyan14 => 14 | .Cyan23 => 23 | .Cyan24 => 24 | .Cyan30 => 30 | .Cyan31 => 31
  | .Cyan36 => 36 | .Cyan37 => 37 | .Cyan43 => 43 | .Cyan44 => 44 | .Cyan50 => 50
  | .Cyan51 => 51 | .Cyan66 => 66 | .Cyan73 => 73 | .Cyan79 => 79 | .Cyan80 => 80
  | .Cyan86 => 86 | .Cyan87 => 87 | .Cyan109 => 109 | .Cyan115 => 115 | .Cyan116 => 116
  | .Cyan117 => 117 | .Cyan122 => 122 | .Cyan123 => 123 | .Cyan152 => 152 | .Cyan158 => 158
  | .Cyan159 => 159 | .Cyan195 => 195

instance : ColorEnum Defined_Colors.Cyan := ⟨Defined_Colors.Cyan.val⟩

/-- The enumeration `Defined_Colors::Blue`, with underlying type `uint8_t`. -/
inductive Defined_Colors.Blue
  | Blue4 | Blue12 | Blue17 | Blue18 | Blue19 | Blue20 | Blue21 | Blue25 | Blue26 | Blue27
  | Blue32 | Blue33 | Blue38 | Blue39 | Blue45 | Blue60 | Blue61 | Blue62 | Blue63 | Blue67
  | Blue68 | Blue69 | Blue74 | Blue75 | Blue81 | Blue103 | Blue104 | Blue105 | Blue110
  | Blue111 | Blue146 | Blue147 | Blue153 | Blue189
  deriving DecidableEq

/-- The numeric value of an enumerator of `Defined_Colors::Blue`. -/
def Defined_Colors.Blue.val : Defined_Colors.Blue → Nat
  | .Blue4 => 4 | .Blue12 => 12 | .Blue17 => 17 | .Blue18 => 18 | .Blue19 => 19 | .Blue20 => 20
  | .Blue21 => 21 | .Blue25 => 25 | .Blue26 => 26 | .Blue27 => 27 | .Blue32 => 32
  | .Blue33 => 33 | .Blue38 => 38 | .Blue39 => 39 | .Blue45 => 45 | .Blue60 => 60
  | .Blue61 => 61 | .Blue62 => 62 | .Blue63 => 63 | .Blue67 => 67 | .Blue68 => 68
  | .Blue69 => 69 | .Blue74 => 74 | .Blue75 => 75 | .Blue81 => 81 | .Blue103 => 103
  | .Blue104 => 104 | .Blue105 => 105 | .Blue110 => 110 | .Blue111 => 111 | .Blue146 => 146
  | .Blue147 => 147 | .Blue153 => 153 | .Blue189 => 189

instance : ColorEnum Defined_Colors.Blue := ⟨Defined_Colors.Blue.val⟩

/-- The enumeration `Defined_Colors::Violet`, with underlying type `uint8_t`. -/
inductive Defined_Colors.Violet
  | Violet54 | Violet55 | Violet56 | Violet57 | Violet92 | Violet93 | Violet97 | Violet98
  | Violet99 | Violet135 | Violet140 | Violet141 | Violet177 | Violet182 | Violet183
  deriving DecidableEq

/-- The numeric value of an enumerator of `Defined_Colors::Violet`. -/
def Defined_Colors.Violet.val : Defined_Colors.Violet → Nat
  | .Violet54 => 54 | .Violet55 => 55 | .Violet56 => 56 | .Violet57 => 57 | .Violet92 => 92
  | .Violet93 => 93 | .Violet97 => 97 | .Violet98 => 98 | .Violet99 => 99 | .Violet135 => 135
  | .Violet140 => 140 | .Violet141 => 141 | .Violet177 => 177 | .Violet182 => 182
  | .Violet183 => 183

instance : ColorEnum Defined_Colors.Violet := ⟨Defined_Colors.Violet.val⟩

/-- The enumeration `Defined_Colors::Pink`, with underlying type `uint8_t`. -/
inductive Defined_Colors.Pink
  | Pink13 | Pink89 | Pink125 | Pink132 | Pink161 | Pink162 | Pink163 | Pink168 | Pink169
  | Pink174 | Pink175 | Pink197 | Pink198 | Pink199 | Pink200 | Pink204 | Pink205 | Pink206
  | Pink211 | Pink212 | Pink218 | Pink224
  deriving DecidableEq

/-- The numeric value of an enumerator of `Defined_Colors::Pink`. -/
def Defined_Colors.Pink.val : Defined_Colors.Pink → Nat
  | .Pink13 => 13 | .Pink89 => 89 | .Pink125 => 125 | .Pink132 => 132 | .Pink161 => 161
  | .Pink162 => 162 | .Pink163 => 163 | .Pink168 => 168 | .Pink169 => 169 | .Pink174 => 174
  | .Pink175 => 175 | .Pink197 => 197 | .Pink198 => 198 | .Pink199 => 199 | .Pink200 => 200
  | .Pink204 => 204 | .Pink205 => 205 | .Pink206 => 206 | .Pink211 => 211 | .Pink212 => 212
  | .Pink218 => 218 | .Pink224 => 224

instance : ColorEnum Defined_Colors.Pink := ⟨Defined_Colors.Pink.val⟩

/-- The enumeration `Defined_Colors::Purple`, with underlying type `uint8_t`. -/
inductive Defined_Colors.Purple
  | Purple5 | Purple53 | Purple90 | Purple91 | Purple96 | Purple126 | Purple127 | Purple128
  | Purple129 | Purple133 | Purple134 | Purple139 | Purple164 | Purple165 | Purple170
  | Purple171 | Purple176 | Purple201 | Purple207 | Purple213 | Purple219 | Purple225
  deriving DecidableEq

/-- The numeric value of an enumerator of `Defined_Colors::Purple`. -/
def Defined_Colors.Purple.val : Defined_Colors.Purple → Nat
  | .Purple5 => 5 | .Purple53 => 53 | .Purple90 => 90 | .Purple91 => 91 | .Purple96 => 96
  | .Purple126 => 126 | .Purple127 => 127 | .Purple128 => 128 | .Purple129 => 129
  | .Purple133 => 133 | .Purple134 => 134 | .Purple139 => 139 | .Purple164 => 164
  | .Purple165 => 165 | .Purple170 => 170 | .Purple171 => 171 | .Purple176 => 176
  | .Purple201 => 201 | .Purple207 => 207 | .Purple213 => 213 | .Purple219 => 219
  | .Purple225 => 225

instance : ColorEnum Defined_Colors.Purple := ⟨Defined_Colors.Purple.val⟩

/-- The enumeration `Defined_Colors::Brown`, with underlying type `uint8_t`. -/
inductive Defined_Colors.Brown
  | Brown94 | Brown95 | Brown131 | Brown136 | Brown137 | Brown138 | Brown173 | Brown179
  | Brown180 | Brown181 | Brown223
  deriving DecidableEq

/-- The numeric value of an enumerator of `Defined_Colors::Brown`. -/
def Defined_Colors.Brown.val : Defined_Colors.Brown → Nat
  | .Brown94 => 94 | .Brown95 => 95 | .Brown131 => 131 | .Brown136 => 136 | .Brown137 => 137
  | .Brown138 => 138 | .Brown173 => 173 | .Brown179 => 179 | .Brown180 => 180
  | .Brown181 => 181 | .Brown223 => 223

instance : ColorEnum Defined_Colors.Brown := ⟨Defined_Colors.Brown.val⟩

/-- The enumeration `Defined_Colors::GrayScale`, with underlying type `uint8_t`. -/
inductive Defined_Colors.GrayScale
  | Black232 | Black233 | Gray234 | Gray235 | Gray236 | Gray237 | Gray238 | Gray239 | Gray240
  | Gray241 | Gray242 | Gray243 | Gray244 | Gray245 | Gray246 | Gray247 | Gray248 | Gray249
  | Gray250 | Gray251 | Gray252 | Gray253 | Gray254 | White255
  deriving DecidableEq

/-- The numeric value of an enumerator of `Defined_Colors::GrayScale`. -/
def Defined_Colors.GrayScale.val : Defined_Colors.GrayScale → Nat
  | .Black232 => 232 | .Black233 => 233 | .Gray234 => 234 | .Gray235 => 235 | .Gray236 => 236
  | .Gray237 => 237 | .Gray238 => 238 | .Gray239 => 239 | .Gray240 => 240 | .Gray241 => 241
  | .Gray242 => 242 | .Gray243 => 243 | .Gray244 => 244 | .Gray245 => 245 | .Gray246 => 246
  | .Gray247 => 247 | .Gray248 => 248 | .Gray249 => 249 | .Gray250 => 250 | .Gray251 => 251
  | .Gray252 => 252 | .Gray253 => 253 | .Gray254 => 254 | .White255 => 255

instance : ColorEnum Defined_Colors.GrayScale := ⟨Defined_Colors.GrayScale.val⟩

/-- The enumeration `Defined_Colors::Gray`, with underlying type `uint8_t`. -/
inductive Defined_Colors.Gray
  | Gray8 | Gray59 | Gray102 | Gray145 | Gray188 | Gray234 | Gray235 | Gray236 | Gray237
  | Gray238 | Gray239 | Gray240 | Gray241 | Gray242 | Gray243 | Gray244 | Gray245 | Gray246
  | Gray247 | Gray248 | Gray249 | Gray250 | Gray251 | Gray252 | Gray253 | Gray254
  deriving DecidableEq

/-- The numeric value of an enumerator of `Defined_Colors::Gray`. -/
def Defined_Colors.Gray.val : Defined_Colors.Gray → Nat
  | .Gray8 => 8 | .Gray59 => 59 | .Gray102 => 102 | .Gray145 => 145 | .Gray188 => 188
  | .Gray234 => 234 | .Gray235 => 235 | .Gray236 => 236 | .Gray237 => 237 | .Gray238 => 238
  | .Gray239 => 239 | .Gray240 => 240 | .Gray241 => 241 | .Gray242 => 242 | .Gray243 => 243
  | .Gray244 => 244 | .Gray245 => 245 | .Gray246 => 246 | .Gray247 => 247 | .Gray248 => 248
  | .Gray249 => 249 | .Gray250 => 250 | .Gray251 => 251 | .Gray252 => 252 | .Gray253 => 253
  | .Gray254 => 254

instance : ColorEnum Defined_Colors.Gray := ⟨Defined_Colors.Gray.val⟩

/-- The enumeration `Defined_Colors::White`, with underlying type `uint8_t`. -/
inductive Defined_Colors.White
  | White7 | White15 | White231 | White255
  deriving DecidableEq

/-- The numeric value of an enumerator of `Defined_Colors::White`. -/
def Defined_Colors.White.val : Defined_Colors.White → Nat
  | .White7 => 7 | .White15 => 15 | .White231 => 231 | .White255 => 255

instance : ColorEnum Defined_Colors.White := ⟨Defined_Colors.White.val⟩

/-- The enumeration `Defined_Colors::Black`, with underlying type `uint8_t`. -/
inductive Defined_Colors.Black
  | Black0 | Black16 | Black232 | Black233
  deriving DecidableEq

/-- The numeric value of an enumerator of `Defined_Colors::Black`. -/
def Defined_Colors.Black.val : Defined_Colors.Black → Nat
  | .Black0 => 0 | .Black16 => 16 | .Black232 => 232 | .Black233 => 233

instance : ColorEnum Defined_Colors.Black := ⟨Defined_Colors.Black.val⟩

/-! ## Colour categories, families and bounds-checked access

The four category classes `PrimaryColors`, `SecondaryColors`, `TertiaryColors` and
`GrayScaleColors` each declare their own `checkForOutOfRange`; the four bodies differ only in the
class name spelled in the message. The fourteen family classes are the same code up to the
literals recorded in `RangeClass` and `Family`. A data member is identified by its name, and a
pointer to member by the name of the member it points to. -/

/-- The four category classes. -/
inductive Category
  | PrimaryColors
  | SecondaryColors
  | TertiaryColors
  | GrayScaleColors
  deriving DecidableEq

/-- The class name spelled in the message of a failed `at`. -/
def Category.methodText : Category → String
  | Category.PrimaryColors => "PrimaryColors"
  | Category.SecondaryColors => "SecondaryColors"
  | Category.TertiaryColors => "TertiaryColors"
  | Category.GrayScaleColors => "GrayScaleColors"

/-- The class name spelled in the message of a failed `operator[]`. -/
def Category.operatorText : Category → String
  | Category.PrimaryColors => "PrimaryColors"
  | Category.SecondaryColors => "SecondaryColors"
  | Category.TertiaryColors => "TertiaryColors"
  | Category.GrayScaleColors => "GrayScaleColorsColors"

/-- How an accessor can fail: by throwing `std::out_of_range` with a message, or by reading
outside `table`, which is undefined behaviour. -/
inductive Failure
  | out_of_range (what : String)
  | undefined_behaviour
  deriving DecidableEq

/-- The static method `checkForOutOfRange` of the category class `cat`; the parameter `at_` is the
parameter `at` of the source. -/
def checkForOutOfRange (cat : Category) (classInstance : String) (index max_index : Nat)
    (at_ : Bool) : Except Failure Unit :=
  let getOperator : String := if classInstance.length = 1 then "->" else "."
  let getErrorStart : String :=
    if at_ then
      "\nERROR: Illegal index in method \x27" ++ cat.methodText ++ getOperator ++ classInstance
        ++ ".at(" ++ toString index ++ ")\x27"
    else
      "\nERROR: Illegal index in operator \x27" ++ cat.operatorText ++ getOperator ++ classInstance
        ++ "[" ++ toString index ++ "]\x27"
  if index > 0 ∧ index ≤ max_index then Except.ok ()
  else if index = 0 then
    Except.error (Failure.out_of_range (getErrorStart ++
      "\n\n\t-Indexing starts at 1 (corresponding to the first color palette name) and aligns with the member color definition names.\n"))
  else
    Except.error (Failure.out_of_range (getErrorStart ++
      "\n\n\t-Your index exceeds the available color range (1 - " ++ toString max_index ++ ")\n"))

/-- What differs between the classes that hold a `table`: the category whose
`checkForOutOfRange` they call, the two names and the maximum index they pass to it, the index of
`end()`, the data members in declaration order as initialised from the flag `bg_c`, and the
entries of `table`. -/
structure RangeClass where
  category : Category
  name : String
  shortCutName : String
  max_index : Nat
  end_idx : Nat
  members : Bool → List (String × Color)
  table : List String

/-- The expression `this->*(table[idx])`. -/
def RangeClass.memberAt (F : RangeClass) (bg_c : Bool) (idx : Nat) : Except Failure Color :=
  match F.table.get? idx with
  | none => Except.error Failure.undefined_behaviour
  | some m =>
    match (F.members bg_c).lookup m with
    | none => Except.error Failure.undefined_behaviour
    | some c => Except.ok c

/-- The `operator[]` of a range class, on an object constructed with `(bg_c, short_cut)`. -/
def RangeClass.subscript (F : RangeClass) (bg_c short_cut : Bool) (index : Nat) :
    Except Failure Color :=
  match checkForOutOfRange F.category (if short_cut then F.shortCutName else F.name) index
      F.max_index false with
  | Except.error e => Except.error e
  | Except.ok _ => F.memberAt bg_c ((index + 255) % 256)

/-- The method `at` of a range class, on an object constructed with `(bg_c, short_cut)`. -/
def RangeClass.at_ (F : RangeClass) (bg_c short_cut : Bool) (index : Nat) :
    Except Failure Color :=
  match checkForOutOfRange F.category (if short_cut then F.shortCutName else F.name) index
      F.max_index true with
  | Except.error e => Except.error e
  | Except.ok _ => F.memberAt bg_c ((index + 255) % 256)

/-- A family class `_Red`, ..., `_Shades`: the range class whose object it holds (or, for
`_Shades`, that it is itself), its named colours in declaration order as initialised from the
flag `bg_color`, and the name of the member that its `operator<<` streams. -/
structure Family where
  range : RangeClass
  has_range_member : Bool
  named : Bool → List (String × Color)
  streamed : Option String

/-- The `operator[]` of a family object constructed with `(bg_color, short_cut)`: the bounds check
of the family class, then the `operator[]` of its range object. -/
def Family.subscript (F : Family) (bg_color short_cut : Bool) (index : Nat) :
    Except Failure Color :=
  if F.has_range_member then
    match checkForOutOfRange F.range.category
        (if short_cut then F.range.shortCutName else F.range.name) index F.range.max_index
        false with
    | Except.error e => Except.error e
    | Except.ok _ => F.range.subscript bg_color short_cut index
  else F.range.subscript bg_color short_cut index

/-- The method `at` of a family object constructed with `(bg_color, short_cut)`. -/
def Family.at_ (F : Family) (bg_color short_cut : Bool) (index : Nat) :
    Except Failure Color :=
  if F.has_range_member then
    match checkForOutOfRange F.range.category
        (if short_cut then F.range.shortCutName else F.range.name) index F.range.max_index
        true with
    | Except.error e => Except.error e
    | Except.ok _ => F.range.at_ bg_color short_cut index
  else F.range.at_ bg_color short_cut index

open Defined_Colors

/-- The class `RedColorRange` of `PrimaryColors::_Red`: the literals of its bounds checks and of
`end()`, its data members in declaration order as its constructor initialises them, and its
`table`. -/
def RedColorRange : RangeClass where
  category := Category.PrimaryColors
  name := "Red"
  shortCutName := "R"
  max_index := 11
  end_idx := 11
  members := fun bg_c =>
    [("Red1", .ofEnum Red.Red52 bg_c), ("Red2", .ofEnum Red.Red88 bg_c),
      ("Red3", .ofEnum Red.Red124 bg_c), ("Red4", .ofEnum Red.Red1 bg_c),
      ("Red5", .ofEnum Red.Red160 bg_c), ("Red6", .ofEnum Red.Red196 bg_c),
      ("Red7", .ofEnum Red.Red9 bg_c), ("Red8", .ofEnum Red.Red167 bg_c),
      ("Red9", .ofEnum Red.Red203 bg_c), ("Red10", .ofEnum Red.Red210 bg_c),
      ("Red11", .ofEnum Red.Red217 bg_c)]
  table :=
    ["Red1", "Red2", "Red3", "Red4", "Red5", "Red6", "Red7", "Red8", "Red9", "Red10", "Red11"]

/-- The class `PrimaryColors::_Red`: its member `Red_Color_Range`, its named colours in
declaration order, and the member that `operator<<` streams. -/
def _Red : Family where
  range := RedColorRange
  has_range_member := true
  named := fun bg_color =>
    [("std_Red", .ofEnum Red.Red1 bg_color), ("std_Bright_Red", .ofEnum Red.Red9 bg_color),
      ("Dark_Blood_Red", .ofEnum Red.Red52 bg_color), ("Deep_Red", .ofEnum Red.Red88 bg_color),
      ("Dark_Red", .ofEnum Red.Red124 bg_color), ("Bright_Red", .ofEnum Red.Red160 bg_color),
      ("Rust_Red", .ofEnum Red.Red167 bg_color), ("Pure_Red", .ofEnum Red.Red196 bg_color),
      ("Blush_Red", .ofEnum Red.Red203 bg_color), ("Rosy_Red", .ofEnum Red.Red210 bg_color),
      ("Pastel_Red", .ofEnum Red.Red217 bg_color)]
  streamed := some "Pure_Red"

/-- The class `GreenColorRange` of `PrimaryColors::_Green`: the literals of its bounds checks and of
`end()`, its data members in declaration order as its constructor initialises them, and its
`table`. -/
def GreenColorRange : RangeClass where
  category := Category.PrimaryColors
  name := "Green"
  shortCutName := "G"
  max_index := 48
  end_idx := 48
  members := fun bg_c =>
    [("Green1", .ofEnum Green.Green22 bg_c), ("Green2", .ofEnum Green.Green58 bg_c),
      ("Green3", .ofEnum Green.Green28 bg_c), ("Green4", .ofEnum Green.Green29 bg_c),
      ("Green5", .ofEnum Green.Green64 bg_c), ("Green6", .ofEnum Green.Green65 bg_c),
      ("Green7", .ofEnum Green.Green2 bg_c), ("Green8", .ofEnum Green.Green34 bg_c),
      ("Green9", .ofEnum Green.Green35 bg_c), ("Green10", .ofEnum Green.Green101 bg_c),
      ("Green11", .ofEnum Green.Green70 bg_c), ("Green12", .ofEnum Green.Green71 bg_c),
      ("Green13", .ofEnum Green.Green10 bg_c), ("Green14", .ofEnum Green.Green40 bg_c),
      ("Green15", .ofEnum Green.Green106 bg_c), ("Green16", .ofEnum Green.Green72 bg_c),
      ("Green17", .ofEnum Green.Green41 bg_c), ("Green18", .ofEnum Green.Green107 bg_c),
      ("Green19", .ofEnum Green.Green42 bg_c), ("Green20", .ofEnum Green.Green108 bg_c),
      ("Green21", .ofEnum Green.Green76 bg_c), ("Green22", .ofEnum Green.Green77 bg_c),
      ("Green23", .ofEnum Green.Green46 bg_c), ("Green24", .ofEnum Green.Green112 bg_c),
      ("Green25", .ofEnum Green.Green78 bg_c), ("Green26", .ofEnum Green.Green47 bg_c),
      ("Green27", .ofEnum Green.Green113 bg_c), ("Green28", .ofEnum Green.Green148 bg_c),
      ("Green29", .ofEnum Green.Green48 bg_c), ("Green30", .ofEnum Green.Green114 bg_c),
      ("Green31", .ofEnum Green.Green49 bg_c), ("Green32", .ofEnum Green.Green149 bg_c),
      ("Green33", .ofEnum Green.Green150 bg_c), ("Green34", .ofEnum Green.Green82 bg_c),
      ("Green35", .ofEnum Green.Green151 bg_c), ("Green36", .ofEnum Green.Green83 bg_c),
      ("Green37", .ofEnum Green.Green118 bg_c), ("Green38", .ofEnum Green.Green84 bg_c),
      ("Green39", .ofEnum Green.Green85 bg_c), ("Green40", .ofEnum Green.Green119 bg_c),
      ("Green41", .ofEnum Green.Green154 bg_c), ("Green42", .ofEnum Green.Green120 bg_c),
      ("Green43", .ofEnum Green.Green121 bg_c), ("Green44", .ofEnum Green.Green155 bg_c),
      ("Green45", .ofEnum Green.Green156 bg_c), ("Green46", .ofEnum Green.Green157 bg_c),
      ("Green47", .ofEnum Green.Green193 bg_c), ("Green48", .ofEnum Green.Green194 bg_c)]
  table :=
    ["Green1", "Green2", "Green3", "Green4", "Green5", "Green6", "Green7", "Green8", "Green9",
      "Green10", "Green11", "Green12", "Green13", "Green14", "Green15", "Green16", "Green17",
      "Green18", "Green19", "Green20", "Green21", "Green22", "Green23", "Green24", "Green25",
      "Green26", "Green27", "Green28", "Green29", "Green30", "Green31", "Green32", "Green33",
      "Green34", "Green35", "Green36", "Green37", "Green38", "Green39", "Green40", "Green41",
      "Green42", "Green43", "Green44", "Green45", "Green46", "Green47", "Green48"]

/-- The class `PrimaryColors::_Green`: its member `Green_Color_Range`, its named colours in
declaration order, and the member that `operator<<` streams. -/
def _Green : Family where
  range := GreenColorRange
  has_range_member := true
  named := fun bg_color =>
    [("std_Green", .ofEnum Green.Green2 bg_color),
      ("std_Bright_Green", .ofEnum Green.Green10 bg_color),
      ("Dark_Green", .ofEnum Green.Green22 bg_color),
      ("Medium_Green", .ofEnum Green.Green28 bg_color),
      ("Deep_Sea_Green", .ofEnum Green.Green29 bg_color),
      ("Spring_Green", .ofEnum Green.Green34 bg_color),
      ("Jade_Green", .ofEnum Green.Green35 bg_color),
      ("Lime_Green", .ofEnum Green.Green40 bg_color),
      ("Light_Spring_Green", .ofEnum Green.Green41 bg_color),
      ("Caribbean_Green", .ofEnum Green.Green42 bg_color),
      ("Pure_Green", .ofEnum Green.Green46 bg_color),
      ("Vibrant_Spring_Green", .ofEnum Green.Green47 bg_color),
      ("Soft_Spring_Green", .ofEnum Green.Green48 bg_color),
      ("Brilliant_Spring_Green", .ofEnum Green.Green49 bg_color),
      ("Dark_Olive_Green", .ofEnum Green.Green58 bg_color),
      ("Olive_Green", .ofEnum Green.Green64 bg_color),
      ("Glade_Green", .ofEnum Green.Green65 bg_color),
      ("Kelly_Green", .ofEnum Green.Green70 bg_color),
      ("Dark_Sea_Green", .ofEnum Green.Green71 bg_color),
      ("Cadet_Green", .ofEnum Green.Green72 bg_color),
      ("Strong_Green", .ofEnum Green.Green76 bg_color),
      ("Moderate_Lime_Green", .ofEnum Green.Green77 bg_color),
      ("Sea_Green", .ofEnum Green.Green78 bg_color),
      ("Chartreuse", .ofEnum Green.Green82 bg_color),
      ("Light_Lime_Green", .ofEnum Green.Green83 bg_color),
      ("Light_Sea_Green", .ofEnum Green.Green84 bg_color),
      ("Luminous_Spring_Green", .ofEnum Green.Green85 bg_color),
      ("Clay_Creek_Green", .ofEnum Green.Green101 bg_color),
      ("Apple_Green", .ofEnum Green.Green106 bg_color),
      ("Asparagus_Green", .ofEnum Green.Green107 bg_color),
      ("Pistachio_Green", .ofEnum Green.Green112 bg_color),
      ("Mantis_Green", .ofEnum Green.Green113 bg_color),
      ("Pale_Green", .ofEnum Green.Green114 bg_color),
      ("Bright_Chartreuse", .ofEnum Green.Green118 bg_color),
      ("Light_Green", .ofEnum Green.Green119 bg_color),
      ("Soft_Green", .ofEnum Green.Green120 bg_color),
      ("Mint_Green", .ofEnum Green.Green121 bg_color),
      ("Green_Yellow", .ofEnum Green.Green148 bg_color),
      ("June_Bud_Green", .ofEnum Green.Green149 bg_color),
      ("Pastel_Lime", .ofEnum Green.Green150 bg_color),
      ("Grayish_Lime_Green", .ofEnum Green.Green151 bg_color),
      ("Spring_Bud_Green", .ofEnum Green.Green154 bg_color),
      ("Pastel_Sea_Green", .ofEnum Green.Green155 bg_color),
      ("Seafoam_Green", .ofEnum Green.Green156 bg_color),
      ("Caladon_Green", .ofEnum Green.Green157 bg_color),
      ("Tea_Green", .ofEnum Green.Green193 bg_color),
      ("Pastel_Green", .ofEnum Green.Green194 bg_color)]
  streamed := some "Pure_Green"

/-- The class `BlueColorRange` of `PrimaryColors::_Blue`: the literals of its bounds checks and of
`end()`, its data members in declaration order as its constructor initialises them, and its
`table`. -/
def BlueColorRange : RangeClass where
  category := Category.PrimaryColors
  name := "Blue"
  shortCutName := "B"
  max_index := 34
  end_idx := 34
  members := fun bg_c =>
    [("Blue1", .ofEnum Blue.Blue17 bg_c), ("Blue2", .ofEnum Blue.Blue18 bg_c),
      ("Blue3", .ofEnum Blue.Blue19 bg_c), ("Blue4", .ofEnum Blue.Blue20 bg_c),
      ("Blue5", .ofEnum Blue.Blue4 bg_c), ("Blue6", .ofEnum Blue.Blue21 bg_c),
      ("Blue7", .ofEnum Blue.Blue25 bg_c), ("Blue8", .ofEnum Blue.Blue26 bg_c),
      ("Blue9", .ofEnum Blue.Blue27 bg_c), ("Blue10", .ofEnum Blue.Blue60 bg_c),
      ("Blue11", .ofEnum Blue.Blue61 bg_c), ("Blue12", .ofEnum Blue.Blue62 bg_c),
      ("Blue13", .ofEnum Blue.Blue63 bg_c), ("Blue14", .ofEnum Blue.Blue32 bg_c),
      ("Blue15", .ofEnum Blue.Blue12 bg_c), ("Blue16", .ofEnum Blue.Blue33 bg_c),
      ("Blue17", .ofEnum Blue.Blue67 bg_c), ("Blue18", .ofEnum Blue.Blue68 bg_c),
      ("Blue19", .ofEnum Blue.Blue69 bg_c), ("Blue20", .ofEnum Blue.Blue103 bg_c),
      ("Blue21", .ofEnum Blue.Blue38 bg_c), ("Blue22", .ofEnum Blue.Blue104 bg_c),
      ("Blue23", .ofEnum Blue.Blue39 bg_c), ("Blue24", .ofEnum Blue.Blue105 bg_c),
      ("Blue25", .ofEnum Blue.Blue74 bg_c), ("Blue26", .ofEnum Blue.Blue75 bg_c),
      ("Blue27", .ofEnum Blue.Blue110 bg_c), ("Blue28", .ofEnum Blue.Blue45 bg_c),
      ("Blue29", .ofEnum Blue.Blue111 bg_c), ("Blue30", .ofEnum Blue.Blue146 bg_c),
      ("Blue31", .ofEnum Blue.Blue147 bg_c), ("Blue32", .ofEnum Blue.Blue81 bg_c),
      ("Blue33", .ofEnum Blue.Blue153 bg_c), ("Blue34", .ofEnum Blue.Blue189 bg_c)]
  table :=
    ["Blue1", "Blue2", "Blue3", "Blue4", "Blue5", "Blue6", "Blue7", "Blue8", "Blue9", "Blue10",
      "Blue11", "Blue12", "Blue13", "Blue14", "Blue15", "Blue16", "Blue17", "Blue18", "Blue19",
      "Blue20", "Blue21", "Blue22", "Blue23", "Blue24", "Blue25", "Blue26", "Blue27", "Blue28",
      "Blue29", "Blue30", "Blue31", "Blue32", "Blue33", "Blue34"]

/-- The class `PrimaryColors::_Blue`: its member `Blue_Color_Range`, its named colours in
declaration order, and the member that `operator<<` streams. -/
def _Blue : Family where
  range := BlueColorRange
  has_range_member := true
  named := fun bg_color =>
    [("std_Blue", .ofEnum Blue.Blue4 bg_color),
      ("std_Bright_Blue", .ofEnum Blue.Blue12 bg_color),
      ("Dark_Navy_Blue", .ofEnum Blue.Blue17 bg_color),
      ("Deep_Navy_Blue", .ofEnum Blue.Blue18 bg_color),
      ("Navy_Blue", .ofEnum Blue.Blue19 bg_color), ("Dark_Blue", .ofEnum Blue.Blue20 bg_color),
      ("Deep_Blue", .ofEnum Blue.Blue21 bg_color),
      ("Deep_Sky_Blue", .ofEnum Blue.Blue25 bg_color),
      ("Science_Blue", .ofEnum Blue.Blue26 bg_color),
      ("Pure_Blue", .ofEnum Blue.Blue27 bg_color), ("Ocean_Blue", .ofEnum Blue.Blue32 bg_color),
      ("Vivid_Blue", .ofEnum Blue.Blue33 bg_color),
      ("Cerulean_Blue", .ofEnum Blue.Blue38 bg_color),
      ("Azure_Blue", .ofEnum Blue.Blue39 bg_color),
      ("Vivid_Sky_Blue", .ofEnum Blue.Blue45 bg_color),
      ("Misty_Slate_Blue", .ofEnum Blue.Blue60 bg_color),
      ("Comet_Blue", .ofEnum Blue.Blue61 bg_color), ("Slate_Blue", .ofEnum Blue.Blue62 bg_color),
      ("Bright_Blue", .ofEnum Blue.Blue63 bg_color),
      ("Lochmara_Blue", .ofEnum Blue.Blue67 bg_color),
      ("Steel_Blue", .ofEnum Blue.Blue68 bg_color),
      ("Light_Slate_Blue", .ofEnum Blue.Blue69 bg_color),
      ("Aegean_Blue", .ofEnum Blue.Blue74 bg_color),
      ("Iceberg_Blue", .ofEnum Blue.Blue75 bg_color),
      ("Dusky_Sky_Blue", .ofEnum Blue.Blue81 bg_color),
      ("Dusky_Cobalt_Blue", .ofEnum Blue.Blue103 bg_color),
      ("Soft_Indigo_Blue", .ofEnum Blue.Blue104 bg_color),
      ("Misty_Cornflower_Blue", .ofEnum Blue.Blue105 bg_color),
      ("Horizon_Blue", .ofEnum Blue.Blue110 bg_color),
      ("Soft_Sky_Blue", .ofEnum Blue.Blue111 bg_color),
      ("Light_Pearl_Blue", .ofEnum Blue.Blue146 bg_color),
      ("Light_Steel_Blue", .ofEnum Blue.Blue147 bg_color),
      ("Pastel_Blue", .ofEnum Blue.Blue153 bg_color),
      ("Pale_Blue", .ofEnum Blue.Blue189 bg_color)]
  streamed := some "Pure_Blue"

/-- The class `CyanColorRange` of `SecondaryColors::_Cyan`: the literals of its bounds checks and of
`end()`, its data members in declaration order as its constructor initialises them, and its
`table`. -/
def CyanColorRange : RangeClass where
  category := Category.SecondaryColors
  name := "Cyan"
  shortCutName := "C"
  max_index := 28
  end_idx := 28
  members := fun bg_c =>
    [("Cyan1", .ofEnum Cyan.Cyan23 bg_c), ("Cyan2", .ofEnum Cyan.Cyan24 bg_c),
      ("Cyan3", .ofEnum Cyan.Cyan6 bg_c), ("Cyan4", .ofEnum Cyan.Cyan30 bg_c),
      ("Cyan5", .ofEnum Cyan.Cyan31 bg_c), ("Cyan6", .ofEnum Cyan.Cyan66 bg_c),
      ("Cyan7", .ofEnum Cyan.Cyan36 bg_c), ("Cyan8", .ofEnum Cyan.Cyan37 bg_c),
      ("Cyan9", .ofEnum Cyan.Cyan73 bg_c), ("Cyan10", .ofEnum Cyan.Cyan43 bg_c),
      ("Cyan11", .ofEnum Cyan.Cyan109 bg_c), ("Cyan12", .ofEnum Cyan.Cyan44 bg_c),
      ("Cyan13", .ofEnum Cyan.Cyan79 bg_c), ("Cyan14", .ofEnum Cyan.Cyan14 bg_c),
      ("Cyan15", .ofEnum Cyan.Cyan80 bg_c), ("Cyan16", .ofEnum Cyan.Cyan115 bg_c),
      ("Cyan17", .ofEnum Cyan.Cyan50 bg_c), ("Cyan18", .ofEnum Cyan.Cyan116 bg_c),
      ("Cyan19", .ofEnum Cyan.Cyan51 bg_c), ("Cyan20", .ofEnum Cyan.Cyan117 bg_c),
      ("Cyan21", .ofEnum Cyan.Cyan152 bg_c), ("Cyan22", .ofEnum Cyan.Cyan86 bg_c),
      ("Cyan23", .ofEnum Cyan.Cyan87 bg_c), ("Cyan24", .ofEnum Cyan.Cyan122 bg_c),
      ("Cyan25", .ofEnum Cyan.Cyan123 bg_c), ("Cyan26", .ofEnum Cyan.Cyan158 bg_c),
      ("Cyan27", .ofEnum Cyan.Cyan159 bg_c), ("Cyan28", .ofEnum Cyan.Cyan195 bg_c)]
  table :=
    ["Cyan1", "Cyan2", "Cyan3", "Cyan4", "Cyan5", "Cyan6", "Cyan7", "Cyan8", "Cyan9", "Cyan10",
      "Cyan11", "Cyan12", "Cyan13", "Cyan14", "Cyan15", "Cyan16", "Cyan17", "Cyan18", "Cyan19",
      "Cyan20", "Cyan21", "Cyan22", "Cyan23", "Cyan24", "Cyan25", "Cyan26", "Cyan27", "Cyan28"]

/-- The class `SecondaryColors::_Cyan`: its member `Cyan_Color_Range`, its named colours in
declaration order, and the member that `operator<<` streams. -/
def _Cyan : Family where
  range := CyanColorRange
  has_range_member := true
  named := fun bg_color =>
    [("std_Cyan", .ofEnum Cyan.Cyan6 bg_color),
      ("std_Bright_Cyan", .ofEnum Cyan.Cyan14 bg_color),
      ("Dark_Cyan", .ofEnum Cyan.Cyan23 bg_color), ("Deep_Cyan", .ofEnum Cyan.Cyan24 bg_color),
      ("Dark_Turquoise", .ofEnum Cyan.Cyan30 bg_color),
      ("Medium_Turquoise", .ofEnum Cyan.Cyan31 bg_color),
      ("Rich_Cyan", .ofEnum Cyan.Cyan36 bg_color),
      ("Tiffany_Cyan", .ofEnum Cyan.Cyan37 bg_color),
      ("Lagoon_Cyan", .ofEnum Cyan.Cyan43 bg_color),
      ("Vibrant_Turquoise", .ofEnum Cyan.Cyan44 bg_color),
      ("Pure_Cyan", .ofEnum Cyan.Cyan50 bg_color), ("Aqua_Cyan", .ofEnum Cyan.Cyan51 bg_color),
      ("Juniper_Cyan", .ofEnum Cyan.Cyan66 bg_color),
      ("Harbor_Cyan", .ofEnum Cyan.Cyan73 bg_color),
      ("Myrtle_Cyan", .ofEnum Cyan.Cyan79 bg_color),
      ("Tidewater_Cyan", .ofEnum Cyan.Cyan80 bg_color),
      ("Reef_Cyan", .ofEnum Cyan.Cyan86 bg_color), ("Frost_Cyan", .ofEnum Cyan.Cyan87 bg_color),
      ("Pewter_Cyan", .ofEnum Cyan.Cyan109 bg_color),
      ("Sage_Cyan", .ofEnum Cyan.Cyan115 bg_color),
      ("Bermuda_Cyan", .ofEnum Cyan.Cyan116 bg_color),
      ("Morning_Mist_Cyan", .ofEnum Cyan.Cyan117 bg_color),
      ("Aquamarine_Cyan", .ofEnum Cyan.Cyan122 bg_color),
      ("Opal_Cyan", .ofEnum Cyan.Cyan123 bg_color),
      ("Shallows_Cyan", .ofEnum Cyan.Cyan152 bg_color),
      ("Algae_Cyan", .ofEnum Cyan.Cyan158 bg_color),
      ("Glacier_Cyan", .ofEnum Cyan.Cyan159 bg_color),
      ("Ebb_Tide_Cyan", .ofEnum Cyan.Cyan195 bg_color)]
  streamed := some "Pure_Cyan"

/-- The class `YellowColorRange` of `SecondaryColors::_Yellow`: the literals of its bounds checks and of
`end()`, its data members in declaration order as its constructor initialises them, and its
`table`. -/
def YellowColorRange : RangeClass where
  category := Category.SecondaryColors
  name := "Yellow"
  shortCutName := "Y"
  max_index := 22
  end_idx := 22
  members := fun bg_c =>
    [("Yellow1", .ofEnum Yellow.Yellow100 bg_c), ("Yellow2", .ofEnum Yellow.Yellow3 bg_c),
      ("Yellow3", .ofEnum Yellow.Yellow142 bg_c), ("Yellow4", .ofEnum Yellow.Yellow143 bg_c),
      ("Yellow5", .ofEnum Yellow.Yellow178 bg_c), ("Yellow6", .ofEnum Yellow.Yellow144 bg_c),
      ("Yellow7", .ofEnum Yellow.Yellow184 bg_c), ("Yellow8", .ofEnum Yellow.Yellow185 bg_c),
      ("Yellow9", .ofEnum Yellow.Yellow220 bg_c), ("Yellow10", .ofEnum Yellow.Yellow186 bg_c),
      ("Yellow11", .ofEnum Yellow.Yellow187 bg_c), ("Yellow12", .ofEnum Yellow.Yellow221 bg_c),
      ("Yellow13", .ofEnum Yellow.Yellow222 bg_c), ("Yellow14", .ofEnum Yellow.Yellow190 bg_c),
      ("Yellow15", .ofEnum Yellow.Yellow191 bg_c), ("Yellow16", .ofEnum Yellow.Yellow11 bg_c),
      ("Yellow17", .ofEnum Yellow.Yellow226 bg_c), ("Yellow18", .ofEnum Yellow.Yellow192 bg_c),
      ("Yellow19", .ofEnum Yellow.Yellow227 bg_c), ("Yellow20", .ofEnum Yellow.Yellow228 bg_c),
      ("Yellow21", .ofEnum Yellow.Yellow229 bg_c), ("Yellow22", .ofEnum Yellow.Yellow230 bg_c)]
  table :=
    ["Yellow1", "Yellow2", "Yellow3", "Yellow4", "Yellow5", "Yellow6", "Yellow7", "Yellow8",
      "Yellow9", "Yellow10", "Yellow11", "Yellow12", "Yellow13", "Yellow14", "Yellow15",
      "Yellow16", "Yellow17", "Yellow18", "Yellow19", "Yellow20", "Yellow21", "Yellow22"]

/-- The class `SecondaryColors::_Yellow`: its member `Yellow_Color_Range`, its named colours in
declaration order, and the member that `operator<<` streams. -/
def _Yellow : Family where
  range := YellowColorRange
  has_range_member := true
  named := fun bg_color =>
    [("std_Yellow", .ofEnum Yellow.Yellow3 bg_color),
      ("std_Bright_Yellow", .ofEnum Yellow.Yellow11 bg_color),
      ("Mustard_Yellow", .ofEnum Yellow.Yellow100 bg_color),
      ("Light_Gold", .ofEnum Yellow.Yellow142 bg_color),
      ("Dark_Khaki", .ofEnum Yellow.Yellow143 bg_color),
      ("Light_Khaki", .ofEnum Yellow.Yellow144 bg_color),
      ("Deep_Yellow", .ofEnum Yellow.Yellow178 bg_color),
      ("Strong_Yellow", .ofEnum Yellow.Yellow184 bg_color),
      ("Mellow_Yellow", .ofEnum Yellow.Yellow185 bg_color),
      ("Muted_Yellow", .ofEnum Yellow.Yellow186 bg_color),
      ("Soft_Yellow", .ofEnum Yellow.Yellow187 bg_color),
      ("Neon_Yellow", .ofEnum Yellow.Yellow190 bg_color),
      ("Bright_Lemon", .ofEnum Yellow.Yellow191 bg_color),
      ("Lemon_Lime", .ofEnum Yellow.Yellow192 bg_color),
      ("Amber", .ofEnum Yellow.Yellow220 bg_color),
      ("Honey_Yellow", .ofEnum Yellow.Yellow221 bg_color),
      ("Marigold_Yellow", .ofEnum Yellow.Yellow222 bg_color),
      ("Pure_Yellow", .ofEnum Yellow.Yellow226 bg_color),
      ("Golden_Yellow", .ofEnum Yellow.Yellow227 bg_color),
      ("Pastel_Yellow", .ofEnum Yellow.Yellow228 bg_color),
      ("Light_Yellow", .ofEnum Yellow.Yellow229 bg_color),
      ("Pale_Yellow", .ofEnum Yellow.Yellow230 bg_color)]
  streamed := some "Pure_Yellow"

/-- The class `PurpleColorRange` of `SecondaryColors::_Purple`: the literals of its bounds checks and of
`end()`, its data members in declaration order as its constructor initialises them, and its
`table`. -/
def PurpleColorRange : RangeClass where
  category := Category.SecondaryColors
  name := "Purple"
  shortCutName := "P"
  max_index := 22
  end_idx := 22
  members := fun bg_c =>
    [("Purple1", .ofEnum Purple.Purple53 bg_c), ("Purple2", .ofEnum Purple.Purple90 bg_c),
      ("Purple3", .ofEnum Purple.Purple5 bg_c), ("Purple4", .ofEnum Purple.Purple91 bg_c),
      ("Purple5", .ofEnum Purple.Purple126 bg_c), ("Purple6", .ofEnum Purple.Purple127 bg_c),
      ("Purple7", .ofEnum Purple.Purple128 bg_c), ("Purple8", .ofEnum Purple.Purple129 bg_c),
      ("Purple9", .ofEnum Purple.Purple164 bg_c), ("Purple10", .ofEnum Purple.Purple165 bg_c),
      ("Purple11", .ofEnum Purple.Purple201 bg_c), ("Purple12", .ofEnum Purple.Purple96 bg_c),
      ("Purple13", .ofEnum Purple.Purple133 bg_c), ("Purple14", .ofEnum Purple.Purple134 bg_c),
      ("Purple15", .ofEnum Purple.Purple170 bg_c), ("Purple16", .ofEnum Purple.Purple171 bg_c),
      ("Purple17", .ofEnum Purple.Purple207 bg_c), ("Purple18", .ofEnum Purple.Purple139 bg_c),
      ("Purple19", .ofEnum Purple.Purple176 bg_c), ("Purple20", .ofEnum Purple.Purple213 bg_c),
      ("Purple21", .ofEnum Purple.Purple219 bg_c), ("Purple22", .ofEnum Purple.Purple225 bg_c)]
  table :=
    ["Purple1", "Purple2", "Purple3", "Purple4", "Purple5", "Purple6", "Purple7", "Purple8",
      "Purple9", "Purple10", "Purple11", "Purple12", "Purple13", "Purple14", "Purple15",
      "Purple16", "Purple17", "Purple18", "Purple19", "Purple20", "Purple21", "Purple22"]

/-- The class `SecondaryColors::_Purple`: its member `Purple_Color_Range`, its named colours in
declaration order, and the member that `operator<<` streams. -/
def _Purple : Family where
  range := PurpleColorRange
  has_range_member := true
  named := fun bg_color =>
    [("std_Purple", .ofEnum Purple.Purple5 bg_color),
      ("Imperial_Purple", .ofEnum Purple.Purple53 bg_color),
      ("Velvet_Plum_Purple", .ofEnum Purple.Purple90 bg_color),
      ("Mystic_Amethyst_Purple", .ofEnum Purple.Purple91 bg_color),
      ("Smokey_Orchid_Purple", .ofEnum Purple.Purple96 bg_color),
      ("Velvet_Magenta_Purple", .ofEnum Purple.Purple126 bg_color),
      ("Heliotrope_Purple", .ofEnum Purple.Purple127 bg_color),
      ("Orchid_Purple", .ofEnum Purple.Purple128 bg_color),
      ("Fuchsia_Purple", .ofEnum Purple.Purple129 bg_color),
      ("Lilac_Purple", .ofEnum Purple.Purple133 bg_color),
      ("Heather_Purple", .ofEnum Purple.Purple134 bg_color),
      ("Mauve_Purple", .ofEnum Purple.Purple139 bg_color),
      ("Electric_Fuchsia_Purple", .ofEnum Purple.Purple164 bg_color),
      ("Orchid_Magenta_Purple", .ofEnum Purple.Purple165 bg_color),
      ("Light_Magenta_Purple", .ofEnum Purple.Purple170 bg_color),
      ("Haze_Purple", .ofEnum Purple.Purple171 bg_color),
      ("Pastel_Orchid_Purple", .ofEnum Purple.Purple176 bg_color),
      ("Radiant_Amethyst_Purple", .ofEnum Purple.Purple201 bg_color),
      ("Pastel_Fuchsia_Purple", .ofEnum Purple.Purple207 bg_color),
      ("Cotton_Candy_Purple", .ofEnum Purple.Purple213 bg_color),
      ("Pastel_Plum_Purple", .ofEnum Purple.Purple219 bg_color)]
  streamed := some "Fuchsia_Purple"

/-- The class `OrangeColorRange` of `TertiaryColors::_Orange`: the literals of its bounds checks and of
`end()`, its data members in declaration order as its constructor initialises them, and its
`table`. -/
def OrangeColorRange : RangeClass where
  category := Category.TertiaryColors
  name := "Orange"
  shortCutName := "O"
  max_index := 9
  end_idx := 9
  members := fun bg_c =>
    [("Orange1", .ofEnum Orange.Orange130 bg_c), ("Orange2", .ofEnum Orange.Orange166 bg_c),
      ("Orange3", .ofEnum Orange.Orange202 bg_c), ("Orange4", .ofEnum Orange.Orange172 bg_c),
      ("Orange5", .ofEnum Orange.Orange208 bg_c), ("Orange6", .ofEnum Orange.Orange209 bg_c),
      ("Orange7", .ofEnum Orange.Orange214 bg_c), ("Orange8", .ofEnum Orange.Orange215 bg_c),
      ("Orange9", .ofEnum Orange.Orange216 bg_c)]
  table :=
    ["Orange1", "Orange2", "Orange3", "Orange4", "Orange5", "Orange6", "Orange7", "Orange8",
      "Orange9"]

/-- The class `TertiaryColors::_Orange`: its member `Orange_Color_Range`, its named colours in
declaration order, and the member that `operator<<` streams. -/
def _Orange : Family where
  range := OrangeColorRange
  has_range_member := true
  named := fun bg_color =>
    [("Dark_Orange", .ofEnum Orange.Orange130 bg_color),
      ("Strong_Orange", .ofEnum Orange.Orange166 bg_color),
      ("Burnt_Orange", .ofEnum Orange.Orange172 bg_color),
      ("Pure_Orange", .ofEnum Orange.Orange202 bg_color),
      ("Amber", .ofEnum Orange.Orange208 bg_color),
      ("Coral_Orange", .ofEnum Orange.Orange209 bg_color),
      ("Golden_Orange", .ofEnum Orange.Orange214 bg_color),
      ("Sandy_Orange", .ofEnum Orange.Orange215 bg_color)]
  streamed := some "Pure_Orange"

/-- The class `BrownColorRange` of `TertiaryColors::_Brown`: the literals of its bounds checks and of
`end()`, its data members in declaration order as its constructor initialises them, and its
`table`. -/
def BrownColorRange : RangeClass where
  category := Category.TertiaryColors
  name := "Brown"
  shortCutName := "B"
  max_index := 11
  end_idx := 11
  members := fun bg_c =>
    [("Brown1", .ofEnum Brown.Brown94 bg_c), ("Brown2", .ofEnum Brown.Brown95 bg_c),
      ("Brown3", .ofEnum Brown.Brown131 bg_c), ("Brown4", .ofEnum Brown.Brown136 bg_c),
      ("Brown5", .ofEnum Brown.Brown137 bg_c), ("Brown6", .ofEnum Brown.Brown138 bg_c),
      ("Brown7", .ofEnum Brown.Brown173 bg_c), ("Brown8", .ofEnum Brown.Brown179 bg_c),
      ("Brown9", .ofEnum Brown.Brown180 bg_c), ("Brown10", .ofEnum Brown.Brown181 bg_c),
      ("Brown11", .ofEnum Brown.Brown223 bg_c)]
  table :=
    ["Brown1", "Brown2", "Brown3", "Brown4", "Brown5", "Brown6", "Brown7", "Brown8", "Brown9",
      "Brown10", "Brown11"]

/-- The class `TertiaryColors::_Brown`: its member `Brown_Color_Range`, its named colours in
declaration order, and the member that `operator<<` streams. -/
def _Brown : Family where
  range := BrownColorRange
  has_range_member := true
  named := fun bg_color =>
    [("Russet_Brown", .ofEnum Brown.Brown94 bg_color),
      ("Brick_Rose_Brown", .ofEnum Brown.Brown95 bg_color),
      ("Chestnut_Brown", .ofEnum Brown.Brown131 bg_color),
      ("Dark_Goldenrod_Brown", .ofEnum Brown.Brown136 bg_color),
      ("Desert_Sand_Brown", .ofEnum Brown.Brown137 bg_color),
      ("Dusty_Taupe_Brown", .ofEnum Brown.Brown138 bg_color),
      ("Copperfield_Brown", .ofEnum Brown.Brown173 bg_color),
      ("Sandstone_Brown", .ofEnum Brown.Brown179 bg_color),
      ("Light_Sandstone_Brown", .ofEnum Brown.Brown180 bg_color),
      ("Pale_Chestnut_Brown", .ofEnum Brown.Brown181 bg_color),
      ("Pastel_Moccasin_Brown", .ofEnum Brown.Brown223 bg_color)]
  streamed := some "Russet_Brown"

/-- The class `VioletColorRange` of `TertiaryColors::_Violet`: the literals of its bounds checks and of
`end()`, its data members in declaration order as its constructor initialises them, and its
`table`. -/
def VioletColorRange : RangeClass where
  category := Category.TertiaryColors
  name := "Violet"
  shortCutName := "V"
  max_index := 15
  end_idx := 15
  members := fun bg_c =>
    [("Violet1", .ofEnum Violet.Violet54 bg_c), ("Violet2", .ofEnum Violet.Violet55 bg_c),
      ("Violet3", .ofEnum Violet.Violet56 bg_c), ("Violet4", .ofEnum Violet.Violet57 bg_c),
      ("Violet5", .ofEnum Violet.Violet92 bg_c), ("Violet6", .ofEnum Violet.Violet93 bg_c),
      ("Violet7", .ofEnum Violet.Violet97 bg_c), ("Violet8", .ofEnum Violet.Violet98 bg_c),
      ("Violet9", .ofEnum Violet.Violet99 bg_c), ("Violet10", .ofEnum Violet.Violet135 bg_c),
      ("Violet11", .ofEnum Violet.Violet140 bg_c), ("Violet12", .ofEnum Violet.Violet141 bg_c),
      ("Violet13", .ofEnum Violet.Violet177 bg_c), ("Violet14", .ofEnum Violet.Violet182 bg_c),
      ("Violet15", .ofEnum Violet.Violet183 bg_c)]
  table :=
    ["Violet1", "Violet2", "Violet3", "Violet4", "Violet5", "Violet6", "Violet7", "Violet8",
      "Violet9", "Violet10", "Violet11", "Violet12", "Violet13", "Violet14", "Violet15"]

/-- The class `TertiaryColors::_Violet`: its member `Violet_Color_Range`, its named colours in
declaration order, and the member that `operator<<` streams. -/
def _Violet : Family where
  range := VioletColorRange
  has_range_member := true
  named := fun bg_color =>
    [("Deep_Orchid_Violet", .ofEnum Violet.Violet54 bg_color),
      ("Amethyst_Violet", .ofEnum Violet.Violet55 bg_color),
      ("Orchid_Violet", .ofEnum Violet.Violet56 bg_color),
      ("Blue_Violet", .ofEnum Violet.Violet57 bg_color),
      ("Strong_Violet", .ofEnum Violet.Violet92 bg_color),
      ("Electric_Violet", .ofEnum Violet.Violet93 bg_color),
      ("Smokey_Amethyst_Violet", .ofEnum Violet.Violet97 bg_color),
      ("Dusty_Lavender_Violet", .ofEnum Violet.Violet98 bg_color),
      ("Munstead_Violet", .ofEnum Violet.Violet99 bg_color),
      ("Light_Violet", .ofEnum Violet.Violet135 bg_color),
      ("Hazy_Lilac_Violet", .ofEnum Violet.Violet140 bg_color),
      ("Lavender_Violet", .ofEnum Violet.Violet141 bg_color),
      ("Misty_Lavender_Violet", .ofEnum Violet.Violet177 bg_color),
      ("Frosted_Lavender_Violet", .ofEnum Violet.Violet182 bg_color),
      ("Pearl_Violet", .ofEnum Violet.Violet183 bg_color)]
  streamed := some "Blue_Violet"

/-- The class `PinkColorRange` of `TertiaryColors::_Pink`: the literals of its bounds checks and of
`end()`, its data members in declaration order as its constructor initialises them, and its
`table`. -/
def PinkColorRange : RangeClass where
  category := Category.TertiaryColors
  name := "Pink"
  shortCutName := "P"
  max_index := 22
  end_idx := 22
  members := fun bg_c =>
    [("Pink1", .ofEnum Pink.Pink89 bg_c), ("Pink2", .ofEnum Pink.Pink125 bg_c),
      ("Pink3", .ofEnum Pink.Pink13 bg_c), ("Pink4", .ofEnum Pink.Pink161 bg_c),
      ("Pink5", .ofEnum Pink.Pink162 bg_c), ("Pink6", .ofEnum Pink.Pink163 bg_c),
      ("Pink7", .ofEnum Pink.Pink197 bg_c), ("Pink8", .ofEnum Pink.Pink198 bg_c),
      ("Pink9", .ofEnum Pink.Pink199 bg_c), ("Pink10", .ofEnum Pink.Pink200 bg_c),
      ("Pink11", .ofEnum Pink.Pink132 bg_c), ("Pink12", .ofEnum Pink.Pink168 bg_c),
      ("Pink13", .ofEnum Pink.Pink169 bg_c), ("Pink14", .ofEnum Pink.Pink204 bg_c),
      ("Pink15", .ofEnum Pink.Pink205 bg_c), ("Pink16", .ofEnum Pink.Pink206 bg_c),
      ("Pink17", .ofEnum Pink.Pink174 bg_c), ("Pink18", .ofEnum Pink.Pink175 bg_c),
      ("Pink19", .ofEnum Pink.Pink211 bg_c), ("Pink20", .ofEnum Pink.Pink212 bg_c),
      ("Pink21", .ofEnum Pink.Pink218 bg_c), ("Pink22", .ofEnum Pink.Pink224 bg_c)]
  table :=
    ["Pink1", "Pink2", "Pink3", "Pink4", "Pink5", "Pink6", "Pink7", "Pink8", "Pink9", "Pink10",
      "Pink11", "Pink12", "Pink13", "Pink14", "Pink15", "Pink16", "Pink17", "Pink18", "Pink19",
      "Pink20", "Pink21", "Pink22"]

/-- The class `TertiaryColors::_Pink`: its member `Pink_Color_Range`, its named colours in
declaration order, and the member that `operator<<` streams. -/
def _Pink : Family where
  range := PinkColorRange
  has_range_member := true
  named := fun bg_color =>
    [("std_Pink", .ofEnum Pink.Pink13 bg_color), ("Dark_Pink", .ofEnum Pink.Pink89 bg_color),
      ("Raspberry_Rose_Pink", .ofEnum Pink.Pink125 bg_color),
      ("Peony_Pink", .ofEnum Pink.Pink132 bg_color),
      ("Vivid_Pink", .ofEnum Pink.Pink161 bg_color),
      ("Deep_Fuchsia_Pink", .ofEnum Pink.Pink162 bg_color),
      ("Fuchsia_Pink", .ofEnum Pink.Pink163 bg_color),
      ("Rosebud_Pink", .ofEnum Pink.Pink168 bg_color),
      ("Dreamy_Raspberry_Pink", .ofEnum Pink.Pink169 bg_color),
      ("Blush_Rose_Pink", .ofEnum Pink.Pink174 bg_color),
      ("Rose_Quartz_Pink", .ofEnum Pink.Pink175 bg_color),
      ("Vivid_Raspberry_Pink", .ofEnum Pink.Pink197 bg_color),
      ("Neon_Rose_Pink", .ofEnum Pink.Pink198 bg_color),
      ("Dragonfruit_Pink", .ofEnum Pink.Pink199 bg_color),
      ("Electric_Magenta_Pink", .ofEnum Pink.Pink200 bg_color),
      ("Watermelon_Candy_Pink", .ofEnum Pink.Pink204 bg_color),
      ("Cherry_Blossom_Pink", .ofEnum Pink.Pink205 bg_color),
      ("Silk_Rose_Pink", .ofEnum Pink.Pink206 bg_color),
      ("Tickle_Me_Pink", .ofEnum Pink.Pink211 bg_color),
      ("Princess_Perfume_Pink", .ofEnum Pink.Pink212 bg_color),
      ("Rosewater_Pink", .ofEnum Pink.Pink218 bg_color),
      ("Powder_Pink", .ofEnum Pink.Pink224 bg_color)]
  streamed := some "Neon_Rose_Pink"

/-- The class `BlackColorRange` of `GrayScaleColors::_Black`: the literals of its bounds checks and of
`end()`, its data members in declaration order as its constructor initialises them, and its
`table`. -/
def BlackColorRange : RangeClass where
  category := Category.GrayScaleColors
  name := "Black"
  shortCutName := "B"
  max_index := 4
  end_idx := 4
  members := fun bg_c =>
    [("Black1", .ofEnum Black.Black16 bg_c), ("Black2", .ofEnum Black.Black232 bg_c),
      ("Black3", .ofEnum Black.Black0 bg_c), ("Black4", .ofEnum Black.Black233 bg_c)]
  table :=
    ["Black1", "Black2", "Black3", "Black4"]

/-- The class `GrayScaleColors::_Black`: its member `Black_Color_Range`, its named colours in
declaration order, and the member that `operator<<` streams. -/
def _Black : Family where
  range := BlackColorRange
  has_range_member := true
  named := fun bg_color =>
    [("std_Black", .ofEnum Black.Black0 bg_color),
      ("Extended_Black", .ofEnum Black.Black16 bg_color),
      ("Vampire_Black", .ofEnum Black.Black232 bg_color),
      ("Nightshade_Black", .ofEnum Black.Black233 bg_color)]
  streamed := some "Extended_Black"

/-- The class `GrayColorRange` of `GrayScaleColors::_Gray`: the literals of its bounds checks and of
`end()`, its data members in declaration order as its constructor initialises them, and its
`table`. -/
def GrayColorRange : RangeClass where
  category := Category.GrayScaleColors
  name := "Gray"
  shortCutName := "G"
  max_index := 26
  end_idx := 26
  members := fun bg_c =>
    [("Gray1", .ofEnum Gray.Gray234 bg_c), ("Gray2", .ofEnum Gray.Gray235 bg_c),
      ("Gray3", .ofEnum Gray.Gray236 bg_c), ("Gray4", .ofEnum Gray.Gray237 bg_c),
      ("Gray5", .ofEnum Gray.Gray238 bg_c), ("Gray6", .ofEnum Gray.Gray239 bg_c),
      ("Gray7", .ofEnum Gray.Gray240 bg_c), ("Gray8", .ofEnum Gray.Gray59 bg_c),
      ("Gray9", .ofEnum Gray.Gray241 bg_c), ("Gray10", .ofEnum Gray.Gray242 bg_c),
      ("Gray11", .ofEnum Gray.Gray243 bg_c), ("Gray12", .ofEnum Gray.Gray8 bg_c),
      ("Gray13", .ofEnum Gray.Gray244 bg_c), ("Gray14", .ofEnum Gray.Gray102 bg_c),
      ("Gray15", .ofEnum Gray.Gray245 bg_c), ("Gray16", .ofEnum Gray.Gray246 bg_c),
      ("Gray17", .ofEnum Gray.Gray247 bg_c), ("Gray18", .ofEnum Gray.Gray248 bg_c),
      ("Gray19", .ofEnum Gray.Gray145 bg_c), ("Gray20", .ofEnum Gray.Gray249 bg_c),
      ("Gray21", .ofEnum Gray.Gray250 bg_c), ("Gray22", .ofEnum Gray.Gray251 bg_c),
      ("Gray23", .ofEnum Gray.Gray252 bg_c), ("Gray24", .ofEnum Gray.Gray188 bg_c),
      ("Gray25", .ofEnum Gray.Gray253 bg_c), ("Gray26", .ofEnum Gray.Gray254 bg_c)]
  table :=
    ["Gray1", "Gray2", "Gray3", "Gray4", "Gray5", "Gray6", "Gray7", "Gray8", "Gray9", "Gray10",
      "Gray11", "Gray12", "Gray13", "Gray14", "Gray15", "Gray16", "Gray17", "Gray18", "Gray19",
      "Gray20", "Gray21", "Gray22", "Gray23", "Gray24", "Gray25", "Gray26"]

/-- The class `GrayScaleColors::_Gray`: its member `Gray_Color_Range`, its named colours in
declaration order, and the member that `operator<<` streams. -/
def _Gray : Family where
  range := GrayColorRange
  has_range_member := true
  named := fun bg_color =>
    [("std_Gray", .ofEnum Gray.Gray8 bg_color), ("Granite_Gray", .ofEnum Gray.Gray59 bg_color),
      ("Smoke_Gray", .ofEnum Gray.Gray102 bg_color), ("Fog_Gray", .ofEnum Gray.Gray145 bg_color),
      ("Frosted_Gray", .ofEnum Gray.Gray188 bg_color),
      ("Soot_Gray", .ofEnum Gray.Gray234 bg_color),
      ("Graphite_Gray", .ofEnum Gray.Gray235 bg_color),
      ("Charcoal_Gray", .ofEnum Gray.Gray236 bg_color),
      ("Dusty_Charcoal_Gray", .ofEnum Gray.Gray237 bg_color),
      ("Slate_Gray", .ofEnum Gray.Gray238 bg_color),
      ("Gravel_Gray", .ofEnum Gray.Gray239 bg_color),
      ("Shadow_Gray", .ofEnum Gray.Gray240 bg_color),
      ("Nickel_Gray", .ofEnum Gray.Gray241 bg_color),
      ("Mercury_Gray", .ofEnum Gray.Gray242 bg_color),
      ("Dove_Gray", .ofEnum Gray.Gray243 bg_color),
      ("Flint_Gray", .ofEnum Gray.Gray244 bg_color),
      ("Driftwood_Gray", .ofEnum Gray.Gray245 bg_color),
      ("Stone_Gray", .ofEnum Gray.Gray246 bg_color),
      ("Silver_Gray", .ofEnum Gray.Gray247 bg_color),
      ("Concrete_Gray", .ofEnum Gray.Gray248 bg_color),
      ("Aluminum_Gray", .ofEnum Gray.Gray249 bg_color),
      ("Silver_Foil_Gray", .ofEnum Gray.Gray250 bg_color),
      ("Chalk_Gray", .ofEnum Gray.Gray251 bg_color),
      ("Marble_Gray", .ofEnum Gray.Gray252 bg_color),
      ("Porcelain_Gray", .ofEnum Gray.Gray253 bg_color),
      ("Snow_Gray", .ofEnum Gray.Gray254 bg_color)]
  streamed := some "Mercury_Gray"

/-- The class `WhiteColorRange` of `GrayScaleColors::_White`: the literals of its bounds checks and of
`end()`, its data members in declaration order as its constructor initialises them, and its
`table`. -/
def WhiteColorRange : RangeClass where
  category := Category.GrayScaleColors
  name := "White"
  shortCutName := "W"
  max_index := 4
  end_idx := 4
  members := fun bg_c =>
    [("White1", .ofEnum White.White7 bg_c), ("White2", .ofEnum White.White255 bg_c),
      ("White3", .ofEnum White.White15 bg_c), ("White4", .ofEnum White.White231 bg_c)]
  table :=
    ["White1", "White2", "White3", "White4"]

/-- The class `GrayScaleColors::_White`: its member `White_Color_Range`, its named colours in
declaration order, and the member that `operator<<` streams. -/
def _White : Family where
  range := WhiteColorRange
  has_range_member := true
  named := fun bg_color =>
    [("std_White", .ofEnum White.White7 bg_color),
      ("Snowflake_White", .ofEnum White.White15 bg_color),
      ("Pure_White", .ofEnum White.White231 bg_color),
      ("Pearl_White", .ofEnum White.White255 bg_color)]
  streamed := some "Pure_White"

/-- The members and the `table` of the class `GrayScaleColors::_Shades`, which has no inner range
class: the literals of its `checkForOutOfRange` calls and of `end()`, its data members in
declaration order with their default member initialisers, and its `table`. -/
def ShadesRange : RangeClass where
  category := Category.GrayScaleColors
  name := "Shades"
  shortCutName := "S"
  max_index := 24
  end_idx := 24
  members := fun bg_c =>
    [("Shade1", .ofEnum GrayScale.Black232 bg_c), ("Shade2", .ofEnum GrayScale.Black233 bg_c),
      ("Shade3", .ofEnum GrayScale.Gray234 bg_c), ("Shade4", .ofEnum GrayScale.Gray235 bg_c),
      ("Shade5", .ofEnum GrayScale.Gray236 bg_c), ("Shade6", .ofEnum GrayScale.Gray237 bg_c),
      ("Shade7", .ofEnum GrayScale.Gray238 bg_c), ("Shade8", .ofEnum GrayScale.Gray239 bg_c),
      ("Shade9", .ofEnum GrayScale.Gray240 bg_c), ("Shade10", .ofEnum GrayScale.Gray241 bg_c),
      ("Shade11", .ofEnum GrayScale.Gray242 bg_c), ("Shade12", .ofEnum GrayScale.Gray243 bg_c),
      ("Shade13", .ofEnum GrayScale.Gray244 bg_c), ("Shade14", .ofEnum GrayScale.Gray245 bg_c),
      ("Shade15", .ofEnum GrayScale.Gray246 bg_c), ("Shade16", .ofEnum GrayScale.Gray247 bg_c),
      ("Shade17", .ofEnum GrayScale.Gray248 bg_c), ("Shade18", .ofEnum GrayScale.Gray249 bg_c),
      ("Shade19", .ofEnum GrayScale.Gray250 bg_c), ("Shade20", .ofEnum GrayScale.Gray251 bg_c),
      ("Shade21", .ofEnum GrayScale.Gray252 bg_c), ("Shade22", .ofEnum GrayScale.Gray253 bg_c),
      ("Shade23", .ofEnum GrayScale.Gray254 bg_c), ("Shade24", .ofEnum GrayScale.White255 bg_c)]
  table :=
    ["Shade1", "Shade2", "Shade3", "Shade4", "Shade5", "Shade6", "Shade7", "Shade8", "Shade9",
      "Shade10", "Shade11", "Shade12", "Shade13", "Shade14", "Shade15", "Shade16", "Shade17",
      "Shade18", "Shade19", "Shade20", "Shade21", "Shade22", "Shade23", "Shade24"]

/-- The class `GrayScaleColors::_Shades` as a family: it has no inner range object, no further named
colours and no `operator<<`. -/
def _Shades : Family where
  range := ShadesRange
  has_range_member := false
  named := fun _ => []
  streamed := none

/-- The fourteen families, in the order of the source. -/
def allFamilies : List Family :=
  [_Red, _Green, _Blue, _Cyan, _Yellow, _Purple, _Orange, _Brown, _Violet, _Pink,
    _Black, _Gray, _White, _Shades]

/-- The `p`-th data member, counted from 1, that a range class declares. -/
def RangeClass.declared (F : RangeClass) (bg_c : Bool) (p : Nat) : Option Color :=
  ((F.members bg_c).get? (p - 1)).map Prod.snd

/-- A message carries a text when the text occurs in it as a contiguous run of characters. -/
def carries (msg part : String) : Prop := part.data <:+: msg.data

instance (msg part : String) : Decidable (carries msg part) :=
  inferInstanceAs (Decidable (part.data <:+: msg.data))

deriving instance DecidableEq for Except

/-- The start of an error message, the lambda `getErrorStart` of `checkForOutOfRange`. -/
def errorStart (cat : Category) (classInstance : String) (index : Nat) (at_ : Bool) : String :=
  if at_ then
    "\nERROR: Illegal index in method \x27" ++ cat.methodText
      ++ (if classInstance.length = 1 then "->" else ".") ++ classInstance
      ++ ".at(" ++ toString index ++ ")\x27"
  else
    "\nERROR: Illegal index in operator \x27" ++ cat.operatorText
      ++ (if classInstance.length = 1 then "->" else ".") ++ classInstance
      ++ "[" ++ toString index ++ "]\x27"

/-- The message thrown by `checkForOutOfRange` for an index that is 0 or above `max_index`. -/
def failMessage (cat : Category) (classInstance : String) (index max_index : Nat) (at_ : Bool) :
    String :=
  if index = 0 then
    errorStart cat classInstance index at_ ++
      "\n\n\t-Indexing starts at 1 (corresponding to the first color palette name) and aligns with the member color definition names.\n"
  else
    errorStart cat classInstance index at_ ++
      "\n\n\t-Your index exceeds the available color range (1 - " ++ toString max_index ++ ")\n"

/-- The name a family object passes to `checkForOutOfRange`. -/
def Family.instanceName (F : Family) (short_cut : Bool) : String :=
  if short_cut then F.range.shortCutName else F.range.name

/-- The value of a member that is absent from a list of members; never read. -/
def noMember : String × Color := ("", { color_code := 0, bg_color := false })

/-- The escape sequence of the SGR parameter `n`: the character 0x1B, `[`, the decimal numeral of
`n`, and `m`. -/
def sgr (n : Nat) : String := String.singleton (Char.ofNat 0x1B) ++ "[" ++ toString n ++ "m"

/-! ## Iteration, shortcuts and streaming -/

/-- The class template `const_Color_iterator`: the data member `uint8_t idx`; the pointer `self`
is the range object iterated over, a parameter of the operations below. -/
structure const_Color_iterator where
  idx : Nat
  deriving DecidableEq

/-- The `operator*` of `const_Color_iterator`: `self->*(classType::table[idx])`. -/
def const_Color_iterator.deref (F : RangeClass) (bg_c : Bool) (it : const_Color_iterator) :
    Except Failure Color :=
  F.memberAt bg_c it.idx

/-- The `operator++` of `const_Color_iterator`, on a `uint8_t`. -/
def const_Color_iterator.incr (it : const_Color_iterator) : const_Color_iterator :=
  { idx := (it.idx + 1) % 256 }

/-- The `operator!=` of `const_Color_iterator`. -/
def const_Color_iterator.ne (a o : const_Color_iterator) : Bool := a.idx != o.idx

/-- The method `begin` of a range class, to which `begin` of the family class delegates. -/
def RangeClass.begin_ (_F : RangeClass) : const_Color_iterator := { idx := 0 }

/-- The method `end` of a range class, to which `end` of the family class delegates. -/
def RangeClass.end_ (F : RangeClass) : const_Color_iterator := { idx := F.end_idx }

/-- The loop `for (; it != last; ++it) visit(*it)`, run for at most `fuel` evaluations of the
condition: the index and the value of every dereference, in order, or `none` when the loop has
not ended within the fuel. -/
def iterateFrom (F : RangeClass) (bg_c : Bool) (last : const_Color_iterator) :
    Nat → const_Color_iterator → Option (List (Nat × Except Failure Color))
  | 0, _ => none
  | fuel + 1, it =>
    if it.ne last then
      (iterateFrom F bg_c last fuel it.incr).map (fun rest => (it.idx, it.deref F bg_c) :: rest)
    else some []

/-- The range-based loop over a family object constructed with flag `bg_color`, from `begin()`
to `end()`. -/
def Family.iterate (F : Family) (bg_color : Bool) (fuel : Nat) :
    Option (List (Nat × Except Failure Color)) :=
  iterateFrom F.range bg_color F.range.end_ fuel F.range.begin_

/-- The `operator->` of a family class: its range object; `_Shades` declares none. -/
def Family.arrow (F : Family) : Option RangeClass :=
  if F.has_range_member then some F.range else none

/-- The text that follows the start of an error message. -/
def failTail (index max_index : Nat) : String :=
  if index = 0 then
    "\n\n\t-Indexing starts at 1 (corresponding to the first color palette name) and aligns with the member color definition names.\n"
  else
    "\n\n\t-Your index exceeds the available color range (1 - " ++ (toString max_index ++ ")\n")

/-- A family object: its class and the arguments `(bg_color, short_cut)` of its constructor. -/
structure FamilyObject where
  cls : Family
  bg_color : Bool
  short_cut : Bool

/-- The `operator[]` of a family object. -/
def FamilyObject.subscript (o : FamilyObject) (index : Nat) : Except Failure Color :=
  o.cls.subscript o.bg_color o.short_cut index

/-- The method `at` of a family object. -/
def FamilyObject.at_ (o : FamilyObject) (index : Nat) : Except Failure Color :=
  o.cls.at_ o.bg_color o.short_cut index

/-- The named colours of a family object. -/
def FamilyObject.named (o : FamilyObject) : List (String × Color) := o.cls.named o.bg_color

/-- A category class: the data members of its `struct ShortCut` and its public data members, each
with its name and its family class, in declaration order. -/
structure CategoryClass where
  category : Category
  shortCutMembers : List (String × Family)
  members : List (String × Family)

/-- The class `PrimaryColors`. -/
def PrimaryColors : CategoryClass where
  category := Category.PrimaryColors
  shortCutMembers := [("R", _Red), ("G", _Green), ("B", _Blue)]
  members := [("Red", _Red), ("Green", _Green), ("Blue", _Blue)]

/-- The class `SecondaryColors`. -/
def SecondaryColors : CategoryClass where
  category := Category.SecondaryColors
  shortCutMembers := [("C", _Cyan), ("Y", _Yellow), ("P", _Purple)]
  members := [("Cyan", _Cyan), ("Yellow", _Yellow), ("Purple", _Purple)]

/-- The class `TertiaryColors`. -/
def TertiaryColors : CategoryClass where
  category := Category.TertiaryColors
  shortCutMembers := [("O", _Orange), ("B", _Brown), ("V", _Violet), ("P", _Pink)]
  members := [("Orange", _Orange), ("Brown", _Brown), ("Violet", _Violet), ("Pink", _Pink)]

/-- The class `GrayScaleColors`. -/
def GrayScaleColors : CategoryClass where
  category := Category.GrayScaleColors
  shortCutMembers := [("B", _Black), ("G", _Gray), ("W", _White), ("S", _Shades)]
  members := [("Black", _Black), ("Gray", _Gray), ("White", _White), ("Shades", _Shades)]

/-- The four category classes, in the order of the source. -/
def allCategories : List CategoryClass :=
  [PrimaryColors, SecondaryColors, TertiaryColors, GrayScaleColors]

/-- The constructor `ShortCut(bool bg_color)`, which constructs every member with
`(bg_color, true)`: the objects reached through `operator->` of a category object. -/
def CategoryClass.short_cut (C : CategoryClass) (bg_color : Bool) :
    List (String × FamilyObject) :=
  C.shortCutMembers.map
    (fun m => (m.1, { cls := m.2, bg_color := bg_color, short_cut := true }))

/-- The public members of a category object, which its constructor constructs with `(bg_color)`,
the parameter `short_cut` taking its default `false`. -/
def CategoryClass.families (C : CategoryClass) (bg_color : Bool) :
    List (String × FamilyObject) :=
  C.members.map
    (fun m => (m.1, { cls := m.2, bg_color := bg_color, short_cut := false }))

/-- The name of a category class, as the source declares it. -/
def Category.className : Category → String
  | Category.PrimaryColors => "PrimaryColors"
  | Category.SecondaryColors => "SecondaryColors"
  | Category.TertiaryColors => "TertiaryColors"
  | Category.GrayScaleColors => "GrayScaleColors"

/-- The start of the message that the specification gives for a failed access: the class name,
`->` for a one-letter shortcut name and `.` otherwise, the family name and the position. -/
def expectedStart (cat : Category) (name : String) (index : Nat) (at_ : Bool) : String :=
  if at_ then
    "\nERROR: Illegal index in method \x27" ++ cat.className
      ++ (if name.length = 1 then "->" else ".") ++ name ++ ".at(" ++ toString index ++ ")\x27"
  else
    "\nERROR: Illegal index in operator \x27" ++ cat.className
      ++ (if name.length = 1 then "->" else ".") ++ name ++ "[" ++ toString index ++ "]\x27"

/-- A message begins with a text. -/
def beginsWith (msg start : String) : Prop := start.data <+: msg.data

instance (msg start : String) : Decidable (beginsWith msg start) :=
  inferInstanceAs (Decidable (start.data <+: msg.data))

/-- The colour codes of the positions 1, 2, ... of a family, from the initialiser list of its
range. -/
def Family.codes (F : Family) : List Nat :=
  (F.range.members false).map (fun m => m.2.colorCode)

/-- The brightness `R + G + B` of the palette colour of a code. -/
def brightness (code : Nat) : Int :=
  let p := paletteRgb code
  p.1 + p.2.1 + p.2.2

/-- The `operator<<` of `Color`, as the text of the stream after the insertion into a stream that
holds `os`. -/
def Color.insert (os : String) (color : Color) : String :=
  os ++ (if color.bg_color then Reset.BgColor else Reset.FgColor)
    ++ getAnsi256Code color.color_code color.bg_color

/-- The `operator<<` of a family class on an object constructed with flag `bg_color`: the named
member it names is inserted; `none` for a class that declares no `operator<<`. -/
def Family.insert (F : Family) (bg_color : Bool) (os : String) : Option String :=
  match F.streamed with
  | none => none
  | some name => ((F.named bg_color).lookup name).map (fun c => Color.insert os c)

/-- The named colour that `operator<<` of a family class streams. -/
def Family.defaultColor (F : Family) (bg_color : Bool) : Option Color :=
  F.streamed.bind (fun name => (F.named bg_color).lookup name)

/-- The range of a family is sorted by brightness: for every pair of consecutive positions
`p`, `p + 1` in `1..N` the brightness at `p` is at most the brightness at `p + 1`. -/
def Family.sortedByBrightness (F : Family) : Prop :=
  ∀ p, p < F.codes.length → 1 ≤ p →
    brightness (F.codes.getD (p - 1) 0) ≤ brightness (F.codes.getD p 0)

instance (F : Family) : Decidable F.sortedByBrightness :=
  inferInstanceAs (Decidable (∀ p, p < F.codes.length → 1 ≤ p →
    brightness (F.codes.getD (p - 1) 0) ≤ brightness (F.codes.getD p 0)))

/-- The channels of a colour are all 0 or 255. -/
def isCorner (r g b : Int) : Prop := (r = 0 ∨ r = 255) ∧ (g = 0 ∨ g = 255) ∧ (b = 0 ∨ b = 255)

instance (r g b : Int) : Decidable (isCorner r g b) :=
  inferInstanceAs (Decidable ((r = 0 ∨ r = 255) ∧ (g = 0 ∨ g = 255) ∧ (b = 0 ∨ b = 255)))

/-! ## Enumerators, namespaces `fg` and `bg`, formatting -/

/-- The enumerators of `Defined_Colors::Red`, in declaration order. -/
def Defined_Colors.Red.all : List Defined_Colors.Red :=
  [.Red1, .Red9, .Red52, .Red88, .Red124, .Red160, .Red167, .Red196, .Red203, .Red210,
    .Red217]

/-- The enumerators of `Defined_Colors::Orange`, in declaration order. -/
def Defined_Colors.Orange.all : List Defined_Colors.Orange :=
  [.Orange130, .Orange166, .Orange172, .Orange202, .Orange208, .Orange209, .Orange214,
    .Orange215, .Orange216, .Orange217]

/-- The enumerators of `Defined_Colors::Yellow`, in declaration order. -/
def Defined_Colors.Yellow.all : List Defined_Colors.Yellow :=
  [.Yellow3, .Yellow11, .Yellow100, .Yellow142, .Yellow143, .Yellow144, .Yellow178,
    .Yellow184, .Yellow185, .Yellow186, .Yellow187, .Yellow190, .Yellow191, .Yellow192,
    .Yellow220, .Yellow221, .Yellow222, .Yellow226, .Yellow227, .Yellow228, .Yellow229,
    .Yellow230]

/-- The enumerators of `Defined_Colors::Green`, in declaration order. -/
def Defined_Colors.Green.all : List Defined_Colors.Green :=
  [.Green2, .Green10, .Green22, .Green28, .Green29, .Green34, .Green35, .Green40, .Green41,
    .Green42, .Green46, .Green47, .Green48, .Green49, .Green58, .Green64, .Green65, .Green70,
    .Green71, .Green72, .Green76, .Green77, .Green78, .Green82, .Green83, .Green84, .Green85,
    .Green101, .Green106, .Green107, .Green108, .Green112, .Green113, .Green114, .Green118,
    .Green119, .Green120, .Green121, .Green148, .Green149, .Green150, .Green151, .Green154,
    .Green155, .Green156, .Green157, .Green193, .Green194]

/-- The enumerators of `Defined_Colors::Cyan`, in declaration order. -/
def Defined_Colors.Cyan.all : List Defined_Colors.Cyan :=
  [.Cyan6, .Cyan14, .Cyan23, .Cyan24, .Cyan30, .Cyan31, .Cyan36, .Cyan37, .Cyan43, .Cyan44,
    .Cyan50, .Cyan51, .Cyan66, .Cyan73, .Cyan79, .Cyan80, .Cyan86, .Cyan87, .Cyan109, .Cyan115,
    .Cyan116, .Cyan117, .Cyan122, .Cyan123, .Cyan152, .Cyan158, .Cyan159, .Cyan195]

/-- The enumerators of `Defined_Colors::Blue`, in declaration order. -/
def Defined_Colors.Blue.all : List Defined_Colors.Blue :=
  [.Blue4, .Blue12, .Blue17, .Blue18, .Blue19, .Blue20, .Blue21, .Blue25, .Blue26, .Blue27,
    .Blue32, .Blue33, .Blue38, .Blue39, .Blue45, .Blue60, .Blue61, .Blue62, .Blue63, .Blue67,
    .Blue68, .Blue69, .Blue74, .Blue75, .Blue81, .Blue103, .Blue104, .Blue105, .Blue110,
    .Blue111, .Blue146, .Blue147, .Blue153, .Blue189]

/-- The enumerators of `Defined_Colors::Violet`, in declaration order. -/
def Defined_Colors.Violet.all : List Defined_Colors.Violet :=
  [.Violet54, .Violet55, .Violet56, .Violet57, .Violet92, .Violet93, .Violet97, .Violet98,
    .Violet99, .Violet135, .Violet140, .Violet141, .Violet177, .Violet182, .Violet183]

/-- The enumerators of `Defined_Colors::Pink`, in declaration order. -/
def Defined_Colors.Pink.all : List Defined_Colors.Pink :=
  [.Pink13, .Pink89, .Pink125, .Pink132, .Pink161, .Pink162, .Pink163, .Pink168, .Pink169,
    .Pink174, .Pink175, .Pink197, .Pink198, .Pink199, .Pink200, .Pink204, .Pink205, .Pink206,
    .Pink211, .Pink212, .Pink218, .Pink224]

/-- The enumerators of `Defined_Colors::Purple`, in declaration order. -/
def Defined_Colors.Purple.all : List Defined_Colors.Purple :=
  [.Purple5, .Purple53, .Purple90, .Purple91, .Purple96, .Purple126, .Purple127, .Purple128,
    .Purple129, .Purple133, .Purple134, .Purple139, .Purple164, .Purple165, .Purple170,
    .Purple171, .Purple176, .Purple201, .Purple207, .Purple213, .Purple219, .Purple225]

/-- The enumerators of `Defined_Colors::Brown`, in declaration order. -/
def Defined_Colors.Brown.all : List Defined_Colors.Brown :=
  [.Brown94, .Brown95, .Brown131, .Brown136, .Brown137, .Brown138, .Brown173, .Brown179,
    .Brown180, .Brown181, .Brown223]

/-- The enumerators of `Defined_Colors::GrayScale`, in declaration order. -/
def Defined_Colors.GrayScale.all : List Defined_Colors.GrayScale :=
  [.Black232, .Black233, .Gray234, .Gray235, .Gray236, .Gray237, .Gray238, .Gray239, .Gray240,
    .Gray241, .Gray242, .Gray243, .Gray244, .Gray245, .Gray246, .Gray247, .Gray248, .Gray249,
    .Gray250, .Gray251, .Gray252, .Gray253, .Gray254, .White255]

/-- The enumerators of `Defined_Colors::Gray`, in declaration order. -/
def Defined_Colors.Gray.all : List Defined_Colors.Gray :=
  [.Gray8, .Gray59, .Gray102, .Gray145, .Gray188, .Gray234, .Gray235, .Gray236, .Gray237,
    .Gray238, .Gray239, .Gray240, .Gray241, .Gray242, .Gray243, .Gray244, .Gray245, .Gray246,
    .Gray247, .Gray248, .Gray249, .Gray250, .Gray251, .Gray252, .Gray253, .Gray254]

/-- The enumerators of `Defined_Colors::White`, in declaration order. -/
def Defined_Colors.White.all : List Defined_Colors.White :=
  [.White7, .White15, .White231, .White255]

/-- The enumerators of `Defined_Colors::Black`, in declaration order. -/
def Defined_Colors.Black.all : List Defined_Colors.Black :=
  [.Black0, .Black16, .Black232, .Black233]

/-- The values of the enumeration that the members of each family are initialised from: the
enumeration of the `typedef` of its range class, and `Defined_Colors::GrayScale` for `_Shades`. -/
def rangeEnums : List (Family × List Nat) :=
  [(_Red, Defined_Colors.Red.all.map Defined_Colors.Red.val),
    (_Green, Defined_Colors.Green.all.map Defined_Colors.Green.val),
    (_Blue, Defined_Colors.Blue.all.map Defined_Colors.Blue.val),
    (_Cyan, Defined_Colors.Cyan.all.map Defined_Colors.Cyan.val),
    (_Yellow, Defined_Colors.Yellow.all.map Defined_Colors.Yellow.val),
    (_Purple, Defined_Colors.Purple.all.map Defined_Colors.Purple.val),
    (_Orange, Defined_Colors.Orange.all.map Defined_Colors.Orange.val),
    (_Brown, Defined_Colors.Brown.all.map Defined_Colors.Brown.val),
    (_Violet, Defined_Colors.Violet.all.map Defined_Colors.Violet.val),
    (_Pink, Defined_Colors.Pink.all.map Defined_Colors.Pink.val),
    (_Black, Defined_Colors.Black.all.map Defined_Colors.Black.val),
    (_Gray, Defined_Colors.Gray.all.map Defined_Colors.Gray.val),
    (_White, Defined_Colors.White.all.map Defined_Colors.White.val),
    (_Shades, Defined_Colors.GrayScale.all.map Defined_Colors.GrayScale.val)]

/-- A category object: its class and the argument `bg_color` of its constructor. -/
structure CategoryObject where
  cls : CategoryClass
  bg_color : Bool

/-- The object `ansi_colors::fg::PrimaryColors`. -/
def fg.PrimaryColors : CategoryObject := { cls := ansi_colors.PrimaryColors, bg_color := false }

/-- The object `ansi_colors::fg::SecondaryColors`. -/
def fg.SecondaryColors : CategoryObject := { cls := ansi_colors.SecondaryColors, bg_color := false }

/-- The object `ansi_colors::fg::TertiaryColors`. -/
def fg.TertiaryColors : CategoryObject := { cls := ansi_colors.TertiaryColors, bg_color := false }

/-- The object `ansi_colors::fg::GrayScaleColors`. -/
def fg.GrayScaleColors : CategoryObject := { cls := ansi_colors.GrayScaleColors, bg_color := false }

/-- The object `ansi_colors::bg::PrimaryColors`. -/
def bg.PrimaryColors : CategoryObject := { cls := ansi_colors.PrimaryColors, bg_color := true }

/-- The object `ansi_colors::bg::SecondaryColors`. -/
def bg.SecondaryColors : CategoryObject := { cls := ansi_colors.SecondaryColors, bg_color := true }

/-- The object `ansi_colors::bg::TertiaryColors`. -/
def bg.TertiaryColors : CategoryObject := { cls := ansi_colors.TertiaryColors, bg_color := true }

/-- The object `ansi_colors::bg::GrayScaleColors`. -/
def bg.GrayScaleColors : CategoryObject := { cls := ansi_colors.GrayScaleColors, bg_color := true }

/-- The objects of the namespace `ansi_colors::fg`. -/
def fg.objects : List CategoryObject :=
  [fg.PrimaryColors, fg.SecondaryColors, fg.TertiaryColors, fg.GrayScaleColors]

/-- The objects of the namespace `ansi_colors::bg`. -/
def bg.objects : List CategoryObject :=
  [bg.PrimaryColors, bg.SecondaryColors, bg.TertiaryColors, bg.GrayScaleColors]

/-- The family objects of a category object: its public members, then the members of its
`short_cut`, reached through `operator->`. -/
def CategoryObject.familyObjects (o : CategoryObject) : List FamilyObject :=
  ((o.cls.families o.bg_color).map Prod.snd) ++ ((o.cls.short_cut o.bg_color).map Prod.snd)

/-- The colours held by a family object: its named colours, then the members of its range. -/
def FamilyObject.colors (o : FamilyObject) : List Color :=
  (o.named.map Prod.snd) ++ ((o.cls.range.members o.bg_color).map Prod.snd)

/-- The colours reachable from a category object, through its families and its shortcuts. -/
def CategoryObject.colors (o : CategoryObject) : List Color :=
  (o.familyObjects.map FamilyObject.colors).flatten

/-- The palette index read back from an escape sequence: the decimal digits between the seventh
character and the last one. -/
def sequenceIndex (s : String) : Nat :=
  ((s.data.drop 7).dropLast).foldl (fun acc ch => 10 * acc + (ch.toNat - 48)) 0

/-- The flag read back from an escape sequence: whether its third character is the digit 4. -/
def sequenceIsBackground (s : String) : Bool :=
  (s.data.getD 2 (Char.ofNat 0)).toNat == 52

/-- The method `format` of `std::formatter<ansi_colors::Color, CharT>`: the colour is inserted in
an empty string stream and the text of the stream is handed to the formatter of strings,
`base_fmt`, a parameter here. -/
def Color.format (base_fmt : String → String) (col : Color) : String :=
  let oss := Color.insert "" col
  base_fmt oss

/-! ## Auxiliary lemmas -/

theorem scanStep_eq (r g b : Int) (st : Int × Int) (i : Nat) :
    scanStep r g b st i
      = if dist16 r g b i < st.2 then ((i : Int), dist16 r g b i) else st := rfl

theorem scanUpTo_succ (n : Nat) (r g b : Int) :
    scanUpTo (n + 1) r g b = scanStep r g b (scanUpTo n r g b) n := by
  simp [scanUpTo, List.range_succ, List.foldl_append]

theorem scanUpTo_zero (r g b : Int) : scanUpTo 0 r g b = (0, INT_MAX) := rfl

/-- Loop invariant of the scan: after the iterations `0, ..., n` the state holds the least index
of a minimal distance among those seen, together with that distance. -/
theorem scan_invariant (r g b : Int) (h0 : dist16 r g b 0 < INT_MAX) (n : Nat) :
    ∃ k : Nat, k ≤ n ∧ scanUpTo (n + 1) r g b = ((k : Int), dist16 r g b k) ∧
      (∀ j, j ≤ n → dist16 r g b k ≤ dist16 r g b j) ∧
      (∀ j, j < k → dist16 r g b k < dist16 r g b j) := by
  induction n with
  | zero =>
    refine ⟨0, le_refl _, ?_, ?_, ?_⟩
    · rw [scanUpTo_succ, scanUpTo_zero, scanStep_eq]
      simp [h0]
    · intro j hj
      have : j = 0 := by omega
      subst this
      exact le_refl _
    · intro j hj
      omega
  | succ n ih =>
    obtain ⟨k, hk, hst, hmin, hfirst⟩ := ih
    rw [scanUpTo_succ (n + 1), hst, scanStep_eq]
    by_cases hlt : dist16 r g b (n + 1) < dist16 r g b k
    · refine ⟨n + 1, le_refl _, ?_, ?_, ?_⟩
      · simp [hlt]
      · intro j hj
        rcases Nat.lt_or_eq_of_le hj with hj1 | hj1
        · have := hmin j (by omega)
          omega
        · subst hj1
          exact le_refl _
      · intro j hj
        have := hmin j (by omega)
        omega
    · refine ⟨k, by omega, ?_, ?_, ?_⟩
      · simp [hlt]
      · intro j hj
        rcases Nat.lt_or_eq_of_le hj with hj1 | hj1
        · exact hmin j (by omega)
        · subst hj1
          omega
      · exact hfirst

theorem dist16_zero_eq (r g b : Int) : dist16 r g b 0 = r * r + g * g + b * b := by
  show (r - 0) * (r - 0) + (g - 0) * (g - 0) + (b - 0) * (b - 0) = _
  simp only [sub_zero]

theorem sq_le_of_uint8 (v : Nat) (hv : v < 256) : (v : Int) * v ≤ 65025 := by
  have : v * v ≤ 255 * 255 := Nat.mul_le_mul (by omega) (by omega)
  have h : ((v * v : Nat) : Int) ≤ ((255 * 255 : Nat) : Int) := Int.ofNat_le.mpr this
  simpa using h

theorem dist16_zero_lt (R G B : Nat) (hR : R < 256) (hG : G < 256) (hB : B < 256) :
    dist16 R G B 0 < INT_MAX := by
  have h1 := sq_le_of_uint8 R hR
  have h2 := sq_le_of_uint8 G hG
  have h3 := sq_le_of_uint8 B hB
  rw [dist16_zero_eq]
  have : INT_MAX = 2147483647 := rfl
  omega

theorem best16_eq (r g b : Int) : best16 r g b = (scanUpTo 16 r g b).1 := rfl

theorem best16d_eq (r g b : Int) : best16d r g b = (scanUpTo 16 r g b).2 := rfl

/-- What the scan computes for a `uint8_t` triple. -/
theorem scan16_spec (R G B : Nat) (hR : R < 256) (hG : G < 256) (hB : B < 256) :
    ∃ k : Nat, k < 16 ∧ best16 R G B = (k : Int) ∧ best16d R G B = dist16 R G B k ∧
      (∀ j, j < 16 → dist16 R G B k ≤ dist16 R G B j) ∧
      (∀ j, j < k → dist16 R G B k < dist16 R G B j) := by
  obtain ⟨k, hk, hst, hmin, hfirst⟩ :=
    scan_invariant R G B (dist16_zero_lt R G B hR hG hB) 15
  have hst16 : scanUpTo 16 R G B = ((k : Int), dist16 R G B k) := hst
  refine ⟨k, by omega, ?_, ?_, fun j hj => hmin j (by omega), hfirst⟩
  · rw [best16_eq, hst16]
  · rw [best16d_eq, hst16]

theorem to_level_eq (v : Nat) :
    to_level v = if (v : Int) = 255 then 5 else (v : Int) / 51 := by
  unfold to_level
  rw [Int.tdiv_eq_ediv (by omega) (by omega)]

theorem to_level_range (v : Nat) (hv : v < 256) : 0 ≤ to_level v ∧ to_level v ≤ 5 := by
  rw [to_level_eq]
  split_ifs <;> omega

theorem gray_mean_eq (R G B : Nat) :
    gray_mean R G B = ((R : Int) + G + B) / 3 := by
  unfold gray_mean
  rw [Int.tdiv_eq_ediv (by omega) (by omega)]

/-- The branch taken determines the value returned. -/
theorem rgb_to_ansi256_eq_selected (R G B : Nat) :
    rgb_to_ansi256 R G B = narrow (candidateIndex (selected R G B) R G B) := by
  unfold rgb_to_ansi256 selected
  simp only []
  split_ifs <;> rfl

/-- The branch taken has the least of the three candidate distances. -/
theorem selected_dist_le (R G B : Nat) :
    candidateDist (selected R G B) R G B ≤ best16d R G B ∧
    candidateDist (selected R G B) R G B ≤ dc R G B ∧
    candidateDist (selected R G B) R G B ≤ dg2 R G B := by
  unfold selected
  simp only []
  split_ifs with h1 h2 <;> simp only [candidateDist] <;> omega

theorem narrow_natCast (n : Nat) (hn : n < 256) : narrow (n : Int) = n := by
  unfold narrow
  omega

theorem narrow_cast (x : Int) (h0 : 0 ≤ x) (h1 : x < 256) : ((narrow x : Nat) : Int) = x := by
  unfold narrow
  omega

theorem to_level_nat (v : Nat) (hv : v < 256) : ∃ a : Nat, a < 6 ∧ to_level v = (a : Int) := by
  obtain ⟨h0, h5⟩ := to_level_range v hv
  exact ⟨(to_level v).toNat, by omega, by omega⟩

theorem gray_level_nat (R G B : Nat) (hmean : gray_mean R G B ≠ 248) :
    ∃ s : Nat, s < 24 ∧ gray_level R G B = (s : Int) := by
  have hm := gray_mean_eq R G B
  have hlv : gray_level R G B
      = if gray_mean R G B < 8 then 0
        else if gray_mean R G B > 248 then 23 else (gray_mean R G B - 8) / 10 := by
    unfold gray_level
    simp only []
    split_ifs with h1 h2
    · rfl
    · rfl
    · exact Int.tdiv_eq_ediv (by omega) (by omega)
  refine ⟨(gray_level R G B).toNat, ?_, ?_⟩ <;> rw [hlv] <;> split_ifs <;> omega

theorem paletteDist_std (R G B k : Nat) (hk : k < 16) :
    paletteDist R G B k = dist16 R G B k := by
  simp only [paletteDist, paletteRgb, dist16, if_pos hk]

theorem paletteRgb_cube :
    ∀ a b c : Fin 6, paletteRgb (16 + 36 * a.val + 6 * b.val + c.val)
      = (cubeLevelAt (a.val : Int), cubeLevelAt (b.val : Int), cubeLevelAt (c.val : Int)) := by
  decide

theorem paletteRgb_gray :
    ∀ s : Fin 24, paletteRgb (232 + s.val)
      = (8 + (s.val : Int) * 10, 8 + (s.val : Int) * 10, 8 + (s.val : Int) * 10) := by
  decide

theorem cube_index_nat (R G B : Nat) (hR : R < 256) (hG : G < 256) (hB : B < 256) :
    ∃ a b c : Fin 6, cube_index R G B = ((16 + 36 * a.val + 6 * b.val + c.val : Nat) : Int) ∧
      to_level R = (a.val : Int) ∧ to_level G = (b.val : Int) ∧ to_level B = (c.val : Int) := by
  obtain ⟨a, ha, hla⟩ := to_level_nat R hR
  obtain ⟨b, hb, hlb⟩ := to_level_nat G hG
  obtain ⟨c, hc, hlc⟩ := to_level_nat B hB
  refine ⟨⟨a, ha⟩, ⟨b, hb⟩, ⟨c, hc⟩, ?_, hla, hlb, hlc⟩
  simp only [cube_index, hla, hlb, hlc]
  push_cast
  ring

/-- The palette colour of the narrowed index of a candidate is the colour whose distance the
matcher computed for it, as long as the grayscale step is in range. -/
theorem paletteDist_candidate (c : Candidate) (R G B : Nat)
    (hR : R < 256) (hG : G < 256) (hB : B < 256) (hmean : gray_mean R G B ≠ 248) :
    paletteDist R G B (narrow (candidateIndex c R G B)) = candidateDist c R G B := by
  cases c with
  | standard16 =>
    obtain ⟨k, hk, hbest, hd, -, -⟩ := scan16_spec R G B hR hG hB
    simp only [candidateIndex, candidateDist]
    rw [hbest, narrow_natCast k (by omega), paletteDist_std R G B k hk, hd]
  | cube =>
    obtain ⟨a, b, c, hidx, hla, hlb, hlc⟩ := cube_index_nat R G B hR hG hB
    simp only [candidateIndex, candidateDist]
    rw [hidx, narrow_natCast _ (by omega)]
    simp only [paletteDist, paletteRgb_cube a b c, dc, hla, hlb, hlc]
  | grayscale =>
    obtain ⟨s, hs, hlv⟩ := gray_level_nat R G B hmean
    simp only [candidateIndex, candidateDist, gray_index, hlv]
    have hcast : (232 : Int) + (s : Int) = ((232 + s : Nat) : Int) := by push_cast; ring
    rw [hcast, narrow_natCast _ (by omega)]
    have hp := paletteRgb_gray ⟨s, hs⟩
    simp only [] at hp
    simp only [paletteDist, hp, dg2, gray_val, hlv]

/-! ## The claims -/

/-- C1 (counterexample): the claim that the result is the nearest of all 256 palette entries
fails at `(0, 0, 105)`, whose channel mean is 35: the matcher returns index 4, the colour
`(0, 0, 128)` at squared distance 529, while palette index 17, the cube colour `(0, 0, 95)`,
is at squared distance 100. -/
theorem C1_counterexample_not_nearest_of_256 :
    rgb_to_ansi256 0 0 105 = 4 ∧ gray_mean 0 0 105 = 35 ∧
    paletteDist 0 0 105 (rgb_to_ansi256 0 0 105) = 529 ∧ paletteDist 0 0 105 17 = 100 ∧
    ¬ (paletteDist 0 0 105 (rgb_to_ansi256 0 0 105) ≤ paletteDist 0 0 105 17) := by
  decide

/-- C1 (amended): for every uint8 triple whose channel mean is not 248, the squared distance
from the triple to the palette colour of `rgb_to_ansi256 R G B` is at most its distance to the
palette colour of `j`, for every `j` that is a standard-16 index, the index of the cube
candidate, or the index of the grayscale candidate. -/
theorem C1_nearest_among_candidates (R G B j : Nat)
    (hR : R < 256) (hG : G < 256) (hB : B < 256) (hmean : gray_mean R G B ≠ 248)
    (hj : j < 16 ∨ (j : Int) = cube_index R G B ∨ (j : Int) = gray_index R G B) :
    paletteDist R G B (rgb_to_ansi256 R G B) ≤ paletteDist R G B j := by
  rw [rgb_to_ansi256_eq_selected, paletteDist_candidate _ R G B hR hG hB hmean]
  obtain ⟨h16, hcube, hgray⟩ := selected_dist_le R G B
  rcases hj with hj | hj | hj
  · obtain ⟨k, -, -, hd, hmin, -⟩ := scan16_spec R G B hR hG hB
    rw [paletteDist_std R G B j hj]
    have := hmin j hj
    omega
  · have hn : j = narrow (candidateIndex Candidate.cube R G B) := by
      obtain ⟨a, b, c, hidx, -, -, -⟩ := cube_index_nat R G B hR hG hB
      have hjv : j = 16 + 36 * a.val + 6 * b.val + c.val := by
        rw [hidx] at hj
        exact_mod_cast hj
      simp only [candidateIndex]
      rw [← hj, narrow_natCast j (by omega)]
    rw [hn, paletteDist_candidate _ R G B hR hG hB hmean]
    exact hcube
  · have hn : j = narrow (candidateIndex Candidate.grayscale R G B) := by
      obtain ⟨s, hs, hlv⟩ := gray_level_nat R G B hmean
      have hjv : (j : Int) = 232 + (s : Int) := by rw [hj, gray_index, hlv]
      simp only [candidateIndex]
      rw [← hj, narrow_natCast j (by omega)]
    rw [hn, paletteDist_candidate _ R G B hR hG hB hmean]
    exact hgray

/-- C1 (witness): the amended claim at `(0, 0, 105)` against the cube candidate, index 18. -/
theorem C1_nearest_among_candidates_witness :
    paletteDist 0 0 105 (rgb_to_ansi256 0 0 105) ≤ paletteDist 0 0 105 18 :=
  C1_nearest_among_candidates 0 0 105 18 (by decide) (by decide) (by decide) (by decide)
    (Or.inr (Or.inl (by decide)))

/-- C2 (failing input): at `(248, 248, 248)` the grayscale candidate is selected, its integer
index is 256, outside `[232, 255]`, and the narrowing to 8 bits turns it into 0. -/
theorem C2_gray_index_out_of_partition :
    selected 248 248 248 = Candidate.grayscale ∧
    candidateIndex Candidate.grayscale 248 248 248 = 256 ∧
    rgb_to_ansi256 248 248 248 = 0 := by
  decide

/-- C3: the final chain gives priority to the standard-16 candidate, then to the cube candidate:
when `best16d ≤ dc` and `best16d ≤ dg2` the result is `best16`, an index in `0..15`; otherwise,
when `dc ≤ dg2` the result is `cube_index = 16 + 36*lr + 6*lg + lb`; the grayscale candidate is
selected only when `dg2` is strictly below both other distances; and `(255, 0, 0)`, at distance 0
from both standard-16 entry 9 and cube entry 196, yields 9. -/
theorem C3_selection_priority (R G B : Nat) (hR : R < 256) (hG : G < 256) (hB : B < 256) :
    rgb_to_ansi256 R G B = narrow (candidateIndex (selected R G B) R G B) ∧
    (best16d R G B ≤ dc R G B ∧ best16d R G B ≤ dg2 R G B →
      selected R G B = Candidate.standard16 ∧
      (rgb_to_ansi256 R G B : Int) = best16 R G B ∧ 0 ≤ best16 R G B ∧ best16 R G B ≤ 15) ∧
    (¬ (best16d R G B ≤ dc R G B ∧ best16d R G B ≤ dg2 R G B) → dc R G B ≤ dg2 R G B →
      selected R G B = Candidate.cube ∧
      (rgb_to_ansi256 R G B : Int) = cube_index R G B ∧
      cube_index R G B = 16 + 36 * to_level R + 6 * to_level G + to_level B) ∧
    (selected R G B = Candidate.grayscale →
      dg2 R G B < best16d R G B ∧ dg2 R G B < dc R G B) ∧
    (best16d 255 0 0 = 0 ∧ best16 255 0 0 = 9 ∧ dc 255 0 0 = 0 ∧ cube_index 255 0 0 = 196 ∧
      rgb_to_ansi256 255 0 0 = 9) := by
  refine ⟨rgb_to_ansi256_eq_selected R G B, ?_, ?_, ?_, by decide⟩
  · intro h
    obtain ⟨k, hk, hbest, -, -, -⟩ := scan16_spec R G B hR hG hB
    have hsel : selected R G B = Candidate.standard16 := by
      unfold selected
      simp only []
      rw [if_pos h]
    refine ⟨hsel, ?_, by omega, by omega⟩
    rw [rgb_to_ansi256_eq_selected, hsel]
    simp only [candidateIndex]
    exact narrow_cast _ (by omega) (by omega)
  · intro h hle
    have h2 : dc R G B ≤ best16d R G B ∧ dc R G B ≤ dg2 R G B := by omega
    have hsel : selected R G B = Candidate.cube := by
      unfold selected
      simp only []
      rw [if_neg h, if_pos h2]
    obtain ⟨a, b, c, hidx, -, -, -⟩ := cube_index_nat R G B hR hG hB
    refine ⟨hsel, ?_, rfl⟩
    rw [rgb_to_ansi256_eq_selected, hsel]
    simp only [candidateIndex]
    exact narrow_cast _ (by omega) (by omega)
  · intro hsel
    unfold selected at hsel
    simp only [] at hsel
    split_ifs at hsel with h1 h2
    omega

/-- C3 (witness): the theorem at `(255, 0, 0)`, where the first branch is taken. -/
theorem C3_selection_priority_witness :
    (255 < 256 ∧ best16d 255 0 0 ≤ dc 255 0 0 ∧ best16d 255 0 0 ≤ dg2 255 0 0) ∧
    selected 255 0 0 = Candidate.standard16 ∧
    (rgb_to_ansi256 255 0 0 : Int) = best16 255 0 0 :=
  ⟨by decide,
    ((C3_selection_priority 255 0 0 (by decide) (by decide) (by decide)).2.1 (by decide)).1,
    ((C3_selection_priority 255 0 0 (by decide) (by decide) (by decide)).2.1 (by decide)).2.1⟩

/-- C4: the candidate selected by the final chain has squared distance
`min(best16d, dc, dg2)`, and the value returned is the narrowed index of that candidate. -/
theorem C4_selected_has_min_distance (R G B : Nat) :
    candidateDist (selected R G B) R G B
      = min (best16d R G B) (min (dc R G B) (dg2 R G B)) ∧
    rgb_to_ansi256 R G B = narrow (candidateIndex (selected R G B) R G B) := by
  refine ⟨?_, rgb_to_ansi256_eq_selected R G B⟩
  obtain ⟨h16, hcube, hgray⟩ := selected_dist_le R G B
  have hmem : candidateDist (selected R G B) R G B = best16d R G B ∨
      candidateDist (selected R G B) R G B = dc R G B ∨
      candidateDist (selected R G B) R G B = dg2 R G B := by
    cases selected R G B <;> simp [candidateDist]
  omega

/-- C5: for every uint8 triple, the index `best16` left by the linear scan lies in `0..15`,
`best16d` is the squared distance to `ansi16_rgb[best16]`, that distance is at most the distance
to every entry `j` in `0..15`, and strictly below the distance to every entry `j < best16`:
`best16` is the smallest index of a nearest entry. -/
theorem C5_scan_first_minimum (R G B : Nat) (hR : R < 256) (hG : G < 256) (hB : B < 256) :
    0 ≤ best16 R G B ∧ best16 R G B ≤ 15 ∧
    best16d R G B = dist16 R G B (best16 R G B).toNat ∧
    (∀ j : Nat, j < 16 → best16d R G B ≤ dist16 R G B j) ∧
    (∀ j : Nat, (j : Int) < best16 R G B → best16d R G B < dist16 R G B j) := by
  obtain ⟨k, hk, hbest, hd, hmin, hfirst⟩ := scan16_spec R G B hR hG hB
  refine ⟨by omega, by omega, ?_, ?_, ?_⟩
  · rw [hd, hbest, Int.toNat_ofNat]
  · intro j hj
    rw [hd]
    exact hmin j hj
  · intro j hj
    rw [hd]
    exact hfirst j (by omega)

/-- C5 (witness): the scan at `(200, 200, 200)`, nearest to entry 7, `(192, 192, 192)`. -/
theorem C5_scan_first_minimum_witness :
    best16 200 200 200 = 7 ∧ best16d 200 200 200 = 192 ∧
    (0 ≤ best16 200 200 200 ∧ best16 200 200 200 ≤ 15 ∧
      best16d 200 200 200 = dist16 200 200 200 (best16 200 200 200).toNat ∧
      (∀ j : Nat, j < 16 → best16d 200 200 200 ≤ dist16 200 200 200 j) ∧
      (∀ j : Nat, (j : Int) < best16 200 200 200 →
        best16d 200 200 200 < dist16 200 200 200 j)) :=
  ⟨by decide, by decide,
    C5_scan_first_minimum 200 200 200 (by decide) (by decide) (by decide)⟩

/-- C6 (counterexample): converting `(0, 0, 0)` does not return 16. -/
theorem C6_counterexample_black_is_not_16 : rgb_to_ansi256 0 0 0 ≠ 16 := by
  decide

/-- C6 (amended): converting `(0, 0, 0)` returns palette index 0, the standard-16 black: the
standard-16 candidate 0 and the cube candidate 16 are both at distance 0 and the standard-16
candidate wins the tie. -/
theorem C6_black_is_standard16_black :
    rgb_to_ansi256 0 0 0 = 0 ∧ selected 0 0 0 = Candidate.standard16 ∧
    best16 0 0 0 = 0 ∧ best16d 0 0 0 = 0 ∧ cube_index 0 0 0 = 16 ∧ dc 0 0 0 = 0 := by
  decide

/-- C7: converting `(255, 255, 255)` returns 15: the standard-16 white and the cube white,
index 231, are both at distance 0 and the standard-16 candidate is selected. -/
theorem C7_white_is_standard16_white :
    rgb_to_ansi256 255 255 255 = 15 ∧ selected 255 255 255 = Candidate.standard16 ∧
    best16 255 255 255 = 15 ∧ best16d 255 255 255 = 0 ∧
    cube_index 255 255 255 = 231 ∧ dc 255 255 255 = 0 := by
  decide

/-- C8 (failing input): at `(248, 248, 248)` the channel mean is 248 and the grayscale step
computed by the code is 24, not 23; the grayscale index is 256. -/
theorem C8_mean_248_gives_step_24 :
    gray_mean 248 248 248 = 248 ∧ gray_level 248 248 248 = 24 ∧
    gray_index 248 248 248 = 256 := by
  decide

/-- C9: for every triple whose channel mean is 7 or 8 the grayscale step is 0, the grayscale
index 232 and the reconstructed gray 8; for every triple whose mean is 249 the step is 23, the
index 255 and the reconstructed gray 238. -/
theorem C9_gray_boundaries (R G B : Nat) :
    (gray_mean R G B = 7 ∨ gray_mean R G B = 8 →
      gray_level R G B = 0 ∧ gray_index R G B = 232 ∧ gray_val R G B = 8) ∧
    (gray_mean R G B = 249 →
      gray_level R G B = 23 ∧ gray_index R G B = 255 ∧ gray_val R G B = 238) := by
  constructor
  · intro h
    have hl : gray_level R G B = 0 := by
      unfold gray_level
      rcases h with h | h <;> rw [h] <;> decide
    simp only [gray_index, gray_val, hl]
    decide
  · intro h
    have hl : gray_level R G B = 23 := by
      unfold gray_level
      rw [h]
      decide
    simp only [gray_index, gray_val, hl]
    decide

/-- C9 (witness): the boundaries at `(7, 7, 7)`, `(8, 8, 8)`, `(6, 8, 10)` and
`(249, 249, 249)`. -/
theorem C9_gray_boundaries_witness :
    (gray_mean 7 7 7 = 7 ∧ gray_level 7 7 7 = 0 ∧ gray_index 7 7 7 = 232 ∧
      gray_val 7 7 7 = 8) ∧
    (gray_mean 6 8 10 = 8 ∧ gray_level 6 8 10 = 0 ∧ gray_index 6 8 10 = 232 ∧
      gray_val 6 8 10 = 8) ∧
    (gray_mean 249 249 249 = 249 ∧ gray_level 249 249 249 = 23 ∧
      gray_index 249 249 249 = 255 ∧ gray_val 249 249 249 = 238) :=
  ⟨⟨by decide, (C9_gray_boundaries 7 7 7).1
      (Or.inl (by decide))⟩,
    ⟨by decide, (C9_gray_boundaries 6 8 10).1
      (Or.inr (by decide))⟩,
    ⟨by decide, (C9_gray_boundaries 249 249 249).2
      (by decide)⟩⟩

/-- C10: for every ramp step `s` in `0..23`, with `g = 8 + 10*s`: if neither the standard-16
candidate nor the cube candidate of `(g, g, g)` has squared distance at most that of the
grayscale candidate, then `rgb_to_ansi256 g g g = 232 + s`. -/
theorem C10_gray_round_trip (s : Nat) (hs : s < 24)
    (h16 : ¬ best16d (8 + 10 * s : Nat) (8 + 10 * s : Nat) (8 + 10 * s : Nat)
      ≤ dg2 (8 + 10 * s : Nat) (8 + 10 * s : Nat) (8 + 10 * s : Nat))
    (hc : ¬ dc (8 + 10 * s : Nat) (8 + 10 * s : Nat) (8 + 10 * s : Nat)
      ≤ dg2 (8 + 10 * s : Nat) (8 + 10 * s : Nat) (8 + 10 * s : Nat)) :
    rgb_to_ansi256 (8 + 10 * s) (8 + 10 * s) (8 + 10 * s) = 232 + s := by
  have key : ∀ t : Fin 24,
      ¬ best16d (8 + 10 * t.val : Nat) (8 + 10 * t.val : Nat) (8 + 10 * t.val : Nat)
        ≤ dg2 (8 + 10 * t.val : Nat) (8 + 10 * t.val : Nat) (8 + 10 * t.val : Nat) →
      ¬ dc (8 + 10 * t.val : Nat) (8 + 10 * t.val : Nat) (8 + 10 * t.val : Nat)
        ≤ dg2 (8 + 10 * t.val : Nat) (8 + 10 * t.val : Nat) (8 + 10 * t.val : Nat) →
      rgb_to_ansi256 (8 + 10 * t.val) (8 + 10 * t.val) (8 + 10 * t.val) = 232 + t.val := by
    decide
  exact key ⟨s, hs⟩ h16 hc

/-- C10 (witness): step 5, gray value 58, where the standard-16 candidate is at distance
10092 and the cube candidate at 4107. -/
theorem C10_gray_round_trip_witness : rgb_to_ansi256 58 58 58 = 237 :=
  C10_gray_round_trip 5 (by decide) (by decide) (by decide)


theorem checkForOutOfRange_ok (cat : Category) (ci : String) (i m : Nat) (at_ : Bool)
    (h : 0 < i ∧ i ≤ m) : checkForOutOfRange cat ci i m at_ = Except.ok () := by
  simp [checkForOutOfRange, h]

theorem checkForOutOfRange_fail (cat : Category) (ci : String) (i m : Nat) (at_ : Bool)
    (h : i = 0 ∨ m < i) :
    checkForOutOfRange cat ci i m at_
      = Except.error (Failure.out_of_range (failMessage cat ci i m at_)) := by
  have hn : ¬ (i > 0 ∧ i ≤ m) := by omega
  unfold checkForOutOfRange failMessage errorStart
  simp only [hn, if_false]
  by_cases h0 : i = 0
  · simp only [h0, if_true]
  · simp only [h0, if_false]

theorem families_wf :
    ∀ F ∈ allFamilies, F.range.table.length = F.range.max_index ∧ 0 < F.range.max_index ∧
      F.range.max_index < 256 ∧ F.range.end_idx = F.range.max_index ∧
      ∀ bg : Bool, (F.range.members bg).length = F.range.max_index := by
  decide

theorem families_aligned :
    ∀ F ∈ allFamilies, ∀ bg : Bool, ∀ k, k < F.range.max_index →
      F.range.memberAt bg k = Except.ok ((F.range.members bg).getD k noMember).2 := by
  decide

theorem families_code :
    ∀ F ∈ allFamilies, ∀ bg : Bool, ∀ k, k < F.range.max_index →
      ((F.range.members bg).getD k noMember).2.colorCode
        = ((F.range.members false).map (fun m => m.2.colorCode)).getD k 0 := by
  decide

theorem families_flag :
    ∀ F ∈ allFamilies, ∀ bg : Bool, ∀ k, k < F.range.max_index →
      ((F.range.members bg).getD k noMember).2.bg_color = bg := by
  decide

/-- Every accessor fails with the message of `checkForOutOfRange` outside `1..max_index`. -/
theorem access_fail (F : Family) (bg sc : Bool) (p : Nat)
    (h : p = 0 ∨ F.range.max_index < p) :
    F.subscript bg sc p = Except.error (Failure.out_of_range
        (failMessage F.range.category (F.instanceName sc) p F.range.max_index false)) ∧
    F.at_ bg sc p = Except.error (Failure.out_of_range
        (failMessage F.range.category (F.instanceName sc) p F.range.max_index true)) := by
  unfold Family.subscript Family.at_ RangeClass.subscript RangeClass.at_ Family.instanceName
  simp only [checkForOutOfRange_fail _ _ _ _ _ h]
  constructor <;> split_ifs <;> rfl

/-- Every accessor of a family of the source succeeds inside `1..max_index`, with the member that
the range declares at that position. -/
theorem access_ok (F : Family) (hF : F ∈ allFamilies) (bg sc : Bool) (p : Nat)
    (h1 : 1 ≤ p) (h2 : p ≤ F.range.max_index) :
    F.subscript bg sc p = Except.ok ((F.range.members bg).getD (p - 1) noMember).2 ∧
    F.at_ bg sc p = Except.ok ((F.range.members bg).getD (p - 1) noMember).2 := by
  obtain ⟨-, -, hlt, -, -⟩ := families_wf F hF
  have hidx : (p + 255) % 256 = p - 1 := by omega
  have hmem := families_aligned F hF bg (p - 1) (by omega)
  unfold Family.subscript Family.at_ RangeClass.subscript RangeClass.at_
  simp only [checkForOutOfRange_ok _ _ _ _ _ ⟨h1, h2⟩, hidx, hmem]
  constructor <;> split_ifs <;> rfl

theorem carries_self (p : String) : carries p p := List.infix_refl _

theorem carries_append_left (a b p : String) (h : carries a p) : carries (a ++ b) p := by
  unfold carries at *
  rw [String.data_append]
  exact List.IsInfix.trans h (List.infix_append' [] a.data b.data)

theorem carries_append_right (a b p : String) (h : carries b p) : carries (a ++ b) p := by
  unfold carries at *
  rw [String.data_append]
  exact List.IsInfix.trans h (List.suffix_append a.data b.data).isInfix

theorem errorStart_carries (cat : Category) (ci : String) (i : Nat) (at_ : Bool) :
    carries (errorStart cat ci i at_) ci ∧ carries (errorStart cat ci i at_) (toString i) := by
  unfold errorStart
  cases at_
  · simp only [Bool.false_eq_true, if_false]
    exact ⟨carries_append_left _ _ _ (carries_append_left _ _ _ (carries_append_left _ _ _
        (carries_append_right _ _ _ (carries_self _)))),
      carries_append_left _ _ _ (carries_append_right _ _ _ (carries_self _))⟩
  · simp only [if_true]
    exact ⟨carries_append_left _ _ _ (carries_append_left _ _ _ (carries_append_left _ _ _
        (carries_append_right _ _ _ (carries_self _)))),
      carries_append_left _ _ _ (carries_append_right _ _ _ (carries_self _))⟩

theorem failMessage_carries (cat : Category) (ci : String) (i m : Nat) (at_ : Bool) :
    carries (failMessage cat ci i m at_) ci ∧
    carries (failMessage cat ci i m at_) (toString i) ∧
    (i = 0 → carries (failMessage cat ci i m at_) "Indexing starts at 1") ∧
    (i ≠ 0 → carries (failMessage cat ci i m at_) ("(1 - " ++ toString m ++ ")")) := by
  obtain ⟨hci, hi⟩ := errorStart_carries cat ci i at_
  unfold failMessage
  by_cases h0 : i = 0
  · simp only [h0, if_true] at *
    refine ⟨carries_append_left _ _ _ hci, carries_append_left _ _ _ hi, ?_, ?_⟩
    · intro _
      apply carries_append_right
      decide
    · intro h
      exact absurd rfl h
  · simp only [h0, if_false]
    refine ⟨carries_append_left _ _ _ (carries_append_left _ _ _ (carries_append_left _ _ _ hci)),
      carries_append_left _ _ _ (carries_append_left _ _ _ (carries_append_left _ _ _ hi)),
      ?_, ?_⟩
    · intro h
      exact False.elim h
    · intro _
      have hsplit : ("\n\n\t-Your index exceeds the available color range (1 - " : String)
          = "\n\n\t-Your index exceeds the available color range " ++ "(1 - " := by decide
      rw [hsplit]
      have h1 : carries ("(1 - " ++ toString m ++ ")") ("(1 - " ++ toString m ++ ")") :=
        carries_self _
      have h2 : errorStart cat ci i at_ ++
            ("\n\n\t-Your index exceeds the available color range " ++ "(1 - ") ++ toString m ++ ")\n"
          = (errorStart cat ci i at_ ++ "\n\n\t-Your index exceeds the available color range ")
            ++ (("(1 - " ++ toString m ++ ")") ++ "\n") := by
        simp only [String.append_assoc]
        rfl
      rw [h2]
      exact carries_append_right _ _ _ (carries_append_left _ _ _ h1)

theorem declared_eq (F : RangeClass) (bg : Bool) (p : Nat)
    (h : p - 1 < (F.members bg).length) :
    F.declared bg p = some ((F.members bg).getD (p - 1) noMember).2 := by
  unfold RangeClass.declared
  rw [List.getD_eq_getElem _ _ h, List.get?_eq_getElem?, List.getElem?_eq_getElem h]
  rfl

set_option maxRecDepth 100000 in
theorem getAnsi256Code_table :
    ∀ i : Fin 256,
      getAnsi256Code i.val false
        = String.singleton (Char.ofNat 0x1B) ++ "[38;5;" ++ toString i.val ++ "m" ∧
      getAnsi256Code i.val true
        = String.singleton (Char.ofNat 0x1B) ++ "[48;5;" ++ toString i.val ++ "m" := by
  decide

set_option maxRecDepth 100000 in
theorem code_tables_length : fg_color_code.length = 256 ∧ bg_color_code.length = 256 := by
  decide

theorem shades_members :
    ∀ bg : Bool, ∀ k, k < 24 →
      ((ShadesRange.members bg).getD k noMember).2 = { color_code := 232 + k, bg_color := bg } := by
  decide

/-! ## The claims, continued -/

/-- C11: for every channel value `v` in `0..255` the cube level `to_level v` is 5 when `v = 255`
and `v / 51` otherwise, it lies in `0..5`, so the lookup `cube_levels[to_level v]` is inside the
six entries of the array; and for every uint8 triple the cube candidate index
`16 + 36*lr + 6*lg + lb` lies in `16..231`. -/
theorem C11_cube_level_and_index_in_range (v R G B : Nat)
    (hv : v < 256) (hR : R < 256) (hG : G < 256) (hB : B < 256) :
    (to_level v = if v = 255 then 5 else ((v / 51 : Nat) : Int)) ∧
    (0 ≤ to_level v ∧ to_level v ≤ 5) ∧
    (to_level v).toNat < cube_levels.length ∧
    cube_index R G B = 16 + 36 * to_level R + 6 * to_level G + to_level B ∧
    (16 ≤ cube_index R G B ∧ cube_index R G B ≤ 231) := by
  obtain ⟨h0, h5⟩ := to_level_range v hv
  obtain ⟨a, b, c, hidx, -, -, -⟩ := cube_index_nat R G B hR hG hB
  refine ⟨?_, ⟨h0, h5⟩, ?_, rfl, ?_⟩
  · rw [to_level_eq]
    split_ifs <;> omega
  · have : cube_levels.length = 6 := rfl
    omega
  · omega

/-- C11 (witness): the level of 254 is 4, and the cube index of `(255, 255, 255)` is 231. -/
theorem C11_cube_level_and_index_in_range_witness :
    to_level (254 : Nat) = 4 ∧ cube_index (255 : Nat) (255 : Nat) (255 : Nat) = 231 ∧
    (16 ≤ cube_index (255 : Nat) (255 : Nat) (255 : Nat) ∧
      cube_index (255 : Nat) (255 : Nat) (255 : Nat) ≤ 231) :=
  ⟨by decide, by decide,
    (C11_cube_level_and_index_in_range 254 255 255 255 (by decide) (by decide) (by decide)
      (by decide)).2.2.2.2⟩

/-- C12: both arrays have exactly 256 entries, and for every palette index `i` in `0..255`,
`getAnsi256Code i false` is the character 0x1B followed by `[38;5;`, the decimal numeral of `i`
and `m`, and `getAnsi256Code i true` is the same with `[48;5;`. -/
theorem C12_escape_sequence_tables (i : Nat) (hi : i < 256) :
    fg_color_code.length = 256 ∧ bg_color_code.length = 256 ∧
    getAnsi256Code i false
      = String.singleton (Char.ofNat 0x1B) ++ "[38;5;" ++ toString i ++ "m" ∧
    getAnsi256Code i true
      = String.singleton (Char.ofNat 0x1B) ++ "[48;5;" ++ toString i ++ "m" :=
  ⟨code_tables_length.1, code_tables_length.2, getAnsi256Code_table ⟨i, hi⟩⟩

/-- C12 (witness): the two escape sequences of palette index 196. -/
theorem C12_escape_sequence_tables_witness :
    getAnsi256Code 196 false = "\x1b[38;5;196m" ∧ getAnsi256Code 196 true = "\x1b[48;5;196m" :=
  ⟨(C12_escape_sequence_tables 196 (by decide)).2.2.1,
    (C12_escape_sequence_tables 196 (by decide)).2.2.2⟩

/-- C13: the fourteen families have the sizes Red 11, Green 48, Blue 34, Cyan 28, Yellow 22,
Purple 22, Orange 9, Brown 11, Violet 15, Pink 22, Black 4, Gray 26, White 4, Shades 24; for every
family of size `N` and every uint8 position `p`, `F[p]` throws `std::out_of_range` if and only if
`p = 0` or `p > N`, and so does `F.at(p)`; for every `p` in `1..N` the index `p - 1` is inside
`table` and both accessors return a colour. -/
theorem C13_family_bounds_check :
    allFamilies.map (fun F => (F.range.name, F.range.max_index))
      = [("Red", 11), ("Green", 48), ("Blue", 34), ("Cyan", 28), ("Yellow", 22), ("Purple", 22),
          ("Orange", 9), ("Brown", 11), ("Violet", 15), ("Pink", 22), ("Black", 4), ("Gray", 26),
          ("White", 4), ("Shades", 24)] ∧
    ∀ F ∈ allFamilies, ∀ (bg sc : Bool) (p : Nat), p < 256 →
      ((∃ msg, F.subscript bg sc p = Except.error (Failure.out_of_range msg))
        ↔ (p = 0 ∨ p > F.range.max_index)) ∧
      ((∃ msg, F.at_ bg sc p = Except.error (Failure.out_of_range msg))
        ↔ (p = 0 ∨ p > F.range.max_index)) ∧
      (1 ≤ p ∧ p ≤ F.range.max_index →
        p - 1 < F.range.table.length ∧ (∃ c, F.subscript bg sc p = Except.ok c) ∧
        (∃ c, F.at_ bg sc p = Except.ok c)) := by
  refine ⟨by decide, ?_⟩
  intro F hF bg sc p _
  obtain ⟨hlen, -, -, -, -⟩ := families_wf F hF
  by_cases hp : p = 0 ∨ F.range.max_index < p
  · obtain ⟨hs, ha⟩ := access_fail F bg sc p hp
    refine ⟨⟨fun _ => hp, fun _ => ⟨_, hs⟩⟩, ⟨fun _ => hp, fun _ => ⟨_, ha⟩⟩, ?_⟩
    intro h
    omega
  · obtain ⟨hs, ha⟩ := access_ok F hF bg sc p (by omega) (by omega)
    refine ⟨⟨?_, fun h => absurd h hp⟩, ⟨?_, fun h => absurd h hp⟩, ?_⟩
    · rintro ⟨msg, hmsg⟩
      rw [hs] at hmsg
      exact absurd hmsg (by simp)
    · rintro ⟨msg, hmsg⟩
      rw [ha] at hmsg
      exact absurd hmsg (by simp)
    · intro _
      exact ⟨by omega, ⟨_, hs⟩, ⟨_, ha⟩⟩

/-- C13 (witness): the family Red at the positions 0, 11 and 12. -/
theorem C13_family_bounds_check_witness :
    ((∃ msg, _Red.subscript false false 0 = Except.error (Failure.out_of_range msg))
      ↔ ((0 : Nat) = 0 ∨ 0 > _Red.range.max_index)) ∧
    (∃ c, _Red.subscript false false 11 = Except.ok c) ∧
    ((∃ msg, _Red.at_ false false 12 = Except.error (Failure.out_of_range msg))
      ↔ ((12 : Nat) = 0 ∨ 12 > _Red.range.max_index)) :=
  ⟨(C13_family_bounds_check.2 _Red (List.mem_cons_self _ _) false false 0 (by decide)).1,
    ((C13_family_bounds_check.2 _Red (List.mem_cons_self _ _) false false 11 (by decide)).2.2
      (by decide)).2.1,
    (C13_family_bounds_check.2 _Red (List.mem_cons_self _ _) false false 12 (by decide)).2.1⟩

/-- C14: for every family and every valid position `p` in `1..N`, `F[p]` and `F.at(p)` return the
colour that the range declares as its `p`-th member: its code is the `p`-th code of the
initialiser list of the constructor, listed here for every family (Red: 52, 88, 124, 1, 160, 196,
9, 167, 203, 210, 217), and its flag is the flag the family was constructed with. -/
theorem C14_family_position_returns_declared_member :
    allFamilies.map (fun F => (F.range.members false).map (fun m => m.2.colorCode))
      = [
      [52, 88, 124, 1, 160, 196, 9, 167, 203, 210, 217],
      [22, 58, 28, 29, 64, 65, 2, 34, 35, 101, 70, 71, 10, 40, 106, 72, 41, 107, 42, 108, 76,
        77, 46, 112, 78, 47, 113, 148, 48, 114, 49, 149, 150, 82, 151, 83, 118, 84, 85, 119,
        154, 120, 121, 155, 156, 157, 193, 194],
      [17, 18, 19, 20, 4, 21, 25, 26, 27, 60, 61, 62, 63, 32, 12, 33, 67, 68, 69, 103, 38, 104,
        39, 105, 74, 75, 110, 45, 111, 146, 147, 81, 153, 189],
      [23, 24, 6, 30, 31, 66, 36, 37, 73, 43, 109, 44, 79, 14, 80, 115, 50, 116, 51, 117, 152,
        86, 87, 122, 123, 158, 159, 195],
      [100, 3, 142, 143, 178, 144, 184, 185, 220, 186, 187, 221, 222, 190, 191, 11, 226, 192,
        227, 228, 229, 230],
      [53, 90, 5, 91, 126, 127, 128, 129, 164, 165, 201, 96, 133, 134, 170, 171, 207, 139, 176,
        213, 219, 225],
      [130, 166, 202, 172, 208, 209, 214, 215, 216],
      [94, 95, 131, 136, 137, 138, 173, 179, 180, 181, 223],
      [54, 55, 56, 57, 92, 93, 97, 98, 99, 135, 140, 141, 177, 182, 183],
      [89, 125, 13, 161, 162, 163, 197, 198, 199, 200, 132, 168, 169, 204, 205, 206, 174, 175,
        211, 212, 218, 224],
      [16, 232, 0, 233],
      [234, 235, 236, 237, 238, 239, 240, 59, 241, 242, 243, 8, 244, 102, 245, 246, 247, 248,
        145, 249, 250, 251, 252, 188, 253, 254],
      [7, 255, 15, 231],
      [232, 233, 234, 235, 236, 237, 238, 239, 240, 241, 242, 243, 244, 245, 246, 247, 248,
        249, 250, 251, 252, 253, 254, 255]] ∧
    ∀ F ∈ allFamilies, ∀ (bg sc : Bool) (p : Nat), 1 ≤ p → p ≤ F.range.max_index →
      ∃ c, F.range.declared bg p = some c ∧
        F.subscript bg sc p = Except.ok c ∧ F.at_ bg sc p = Except.ok c ∧
        c.isBackgroundColor = bg ∧
        c.colorCode = ((F.range.members false).map (fun m => m.2.colorCode)).getD (p - 1) 0 := by
  refine ⟨by decide, ?_⟩
  intro F hF bg sc p h1 h2
  obtain ⟨-, -, -, -, hmem⟩ := families_wf F hF
  obtain ⟨hs, ha⟩ := access_ok F hF bg sc p h1 h2
  refine ⟨_, declared_eq F.range bg p (by rw [hmem bg]; omega), hs, ha,
    families_flag F hF bg (p - 1) (by omega), ?_⟩
  exact families_code F hF bg (p - 1) (by omega)

/-- C14 (witness): position 4 of Red is the colour with code 1. -/
theorem C14_family_position_returns_declared_member_witness :
    ∃ c, _Red.range.declared true 4 = some c ∧
      _Red.subscript true false 4 = Except.ok c ∧ _Red.at_ true false 4 = Except.ok c ∧
      c.isBackgroundColor = true ∧
      c.colorCode = ((_Red.range.members false).map (fun m => m.2.colorCode)).getD (4 - 1) 0 :=
  C14_family_position_returns_declared_member.2 _Red (List.mem_cons_self _ _) true false 4 (by decide)
    (by decide)

set_option maxRecDepth 100000 in
/-- C15 (counterexample): `Red[0]` fails with a message that names the family and the position
but not the valid range: the number 11 does not occur in it. -/
theorem C15_counterexample_no_range_at_position_zero :
    _Red.subscript false false 0 = Except.error (Failure.out_of_range
      "\nERROR: Illegal index in operator \x27PrimaryColors.Red[0]\x27\n\n\t-Indexing starts at 1 (corresponding to the first color palette name) and aligns with the member color definition names.\n") ∧
    ¬ carries
      "\nERROR: Illegal index in operator \x27PrimaryColors.Red[0]\x27\n\n\t-Indexing starts at 1 (corresponding to the first color palette name) and aligns with the member color definition names.\n"
      (toString _Red.range.max_index) := by
  decide

set_option maxRecDepth 100000 in
theorem zero_message_without_range :
    ∀ F ∈ allFamilies, ∀ sc at_ : Bool,
      ¬ carries (failMessage F.range.category (F.instanceName sc) 0 F.range.max_index at_)
        (toString F.range.max_index) := by
  decide

/-- C15 (amended): whenever a family accessor (`operator[]` or `at`) fails, for position 0 as well
as for a position above `N`, the message carries the family name and the requested position; for
a position above `N` it also carries the valid range `(1 - N)`; for position 0 it says instead
that indexing starts at 1 and, in each of the fourteen families, does not mention `N`: the
numeral of `N` does not occur in it. -/
theorem C15_error_message_content (F : Family) (bg sc : Bool) (p : Nat)
    (hp : p = 0 ∨ F.range.max_index < p) :
    ∃ m1 m2, F.subscript bg sc p = Except.error (Failure.out_of_range m1) ∧
      F.at_ bg sc p = Except.error (Failure.out_of_range m2) ∧
      (carries m1 (F.instanceName sc) ∧ carries m1 (toString p) ∧
        (F.range.max_index < p → carries m1 ("(1 - " ++ toString F.range.max_index ++ ")")) ∧
        (p = 0 → carries m1 "Indexing starts at 1") ∧
        (F ∈ allFamilies → p = 0 → ¬ carries m1 (toString F.range.max_index))) ∧
      (carries m2 (F.instanceName sc) ∧ carries m2 (toString p) ∧
        (F.range.max_index < p → carries m2 ("(1 - " ++ toString F.range.max_index ++ ")")) ∧
        (p = 0 → carries m2 "Indexing starts at 1") ∧
        (F ∈ allFamilies → p = 0 → ¬ carries m2 (toString F.range.max_index))) := by
  obtain ⟨hs, ha⟩ := access_fail F bg sc p hp
  obtain ⟨a1, a2, a3, a4⟩ :=
    failMessage_carries F.range.category (F.instanceName sc) p F.range.max_index false
  obtain ⟨b1, b2, b3, b4⟩ :=
    failMessage_carries F.range.category (F.instanceName sc) p F.range.max_index true
  refine ⟨_, _, hs, ha, ⟨a1, a2, fun h => a4 (by omega), a3, ?_⟩,
    ⟨b1, b2, fun h => b4 (by omega), b3, ?_⟩⟩
  · intro hF h0
    subst h0
    exact zero_message_without_range F hF sc false
  · intro hF h0
    subst h0
    exact zero_message_without_range F hF sc true

/-- C15 (witness): the messages of `Gray[27]` and `Gray.at(27)`, which carry `(1 - 26)`, and the
message of `Gray[0]`, in which 26 does not occur. -/
theorem C15_error_message_content_witness :
    (∃ m1 m2, _Gray.subscript false false 27 = Except.error (Failure.out_of_range m1) ∧
      _Gray.at_ false false 27 = Except.error (Failure.out_of_range m2) ∧
      carries m1 ("(1 - " ++ toString _Gray.range.max_index ++ ")") ∧
      carries m2 ("(1 - " ++ toString _Gray.range.max_index ++ ")")) ∧
    (∃ m1 m2, _Gray.subscript false false 0 = Except.error (Failure.out_of_range m1) ∧
      _Gray.at_ false false 0 = Except.error (Failure.out_of_range m2) ∧
      carries m1 "Indexing starts at 1" ∧ ¬ carries m1 (toString _Gray.range.max_index) ∧
      carries m2 "Indexing starts at 1" ∧ ¬ carries m2 (toString _Gray.range.max_index)) :=
  ⟨(C15_error_message_content _Gray false false 27 (Or.inr (by decide))).elim
      (fun m1 h1 => h1.elim (fun m2 h =>
        ⟨m1, m2, h.1, h.2.1, h.2.2.1.2.2.1 (by decide), h.2.2.2.2.2.1 (by decide)⟩)),
    (C15_error_message_content _Gray false false 0 (Or.inl rfl)).elim
      (fun m1 h1 => h1.elim (fun m2 h =>
        ⟨m1, m2, h.1, h.2.1, h.2.2.1.2.2.2.1 rfl,
          h.2.2.1.2.2.2.2 (by simp [allFamilies]) rfl,
          h.2.2.2.2.2.2.1 rfl, h.2.2.2.2.2.2.2 (by simp [allFamilies]) rfl⟩))⟩

/-- C16 (counterexample): constructing a colour from the integer 256, outside `0..255`, does not
fail: it gives the colour with code 0. -/
theorem C16_counterexample_256_is_accepted :
    Color.fromInt 256 false = Except.ok { color_code := 0, bg_color := false } ∧
    ∀ e, Color.fromInt 256 false ≠ Except.error e := by
  refine ⟨by decide, ?_⟩
  intro e h
  simp [Color.fromInt] at h

/-- C16 (amended): constructing a colour from a raw integer never fails and validates nothing: the
parameter is a `uint8_t`, so the integer is reduced modulo 256; an integer in `0..255` gives that
colour code, and every colour so constructed has a code in `0..255`. -/
theorem C16_raw_construction_never_fails (n : Int) (b : Bool) :
    ∃ c, Color.fromInt n b = Except.ok c ∧ c.colorCode = narrow n ∧ c.colorCode < 256 ∧
      (c.colorCode : Int) = n % 256 ∧ c.isBackgroundColor = b ∧
      (0 ≤ n ∧ n < 256 → (c.colorCode : Int) = n) := by
  refine ⟨_, rfl, rfl, ?_, ?_, rfl, ?_⟩
  · show narrow n < 256
    unfold narrow
    omega
  · show ((narrow n : Nat) : Int) = n % 256
    unfold narrow
    omega
  · intro h
    exact narrow_cast n h.1 h.2

/-- C16 (witness): the integers 200 and 300. -/
theorem C16_raw_construction_never_fails_witness :
    (∃ c, Color.fromInt 200 true = Except.ok c ∧ (c.colorCode : Int) = 200) ∧
    (∃ c, Color.fromInt 300 true = Except.ok c ∧ (c.colorCode : Int) = 300 % 256) :=
  ⟨(C16_raw_construction_never_fails 200 true).elim
      (fun c h => ⟨c, h.1, h.2.2.2.2.2 (by decide)⟩),
    (C16_raw_construction_never_fails 300 true).elim
      (fun c h => ⟨c, h.1, h.2.2.2.1⟩)⟩

/-- C17: for every index `i` in `0..255` and flag `b`, the colour constructed from `(i, b)` has
`colorCode() = i`, `isBackgroundColor() = b` and `c_str() = getAnsi256Code(i, b)`; and constructing
from an enumerator `e` of any enumeration of `Defined_Colors` gives `colorCode()` equal to the
numeric value of `e`. -/
theorem C17_color_accessors (i : Nat) (hi : i < 256) (b : Bool) :
    (∃ c, Color.fromInt i b = Except.ok c ∧ c.colorCode = i ∧ c.isBackgroundColor = b ∧
      c.c_str = getAnsi256Code i b) ∧
    (∀ e : Defined_Colors.Red, (Color.ofEnum e b).colorCode = e.val) ∧
    (∀ e : Defined_Colors.Orange, (Color.ofEnum e b).colorCode = e.val) ∧
    (∀ e : Defined_Colors.Yellow, (Color.ofEnum e b).colorCode = e.val) ∧
    (∀ e : Defined_Colors.Green, (Color.ofEnum e b).colorCode = e.val) ∧
    (∀ e : Defined_Colors.Cyan, (Color.ofEnum e b).colorCode = e.val) ∧
    (∀ e : Defined_Colors.Blue, (Color.ofEnum e b).colorCode = e.val) ∧
    (∀ e : Defined_Colors.Violet, (Color.ofEnum e b).colorCode = e.val) ∧
    (∀ e : Defined_Colors.Pink, (Color.ofEnum e b).colorCode = e.val) ∧
    (∀ e : Defined_Colors.Purple, (Color.ofEnum e b).colorCode = e.val) ∧
    (∀ e : Defined_Colors.Brown, (Color.ofEnum e b).colorCode = e.val) ∧
    (∀ e : Defined_Colors.GrayScale, (Color.ofEnum e b).colorCode = e.val) ∧
    (∀ e : Defined_Colors.Gray, (Color.ofEnum e b).colorCode = e.val) ∧
    (∀ e : Defined_Colors.White, (Color.ofEnum e b).colorCode = e.val) ∧
    (∀ e : Defined_Colors.Black, (Color.ofEnum e b).colorCode = e.val) := by
  refine ⟨⟨_, rfl, ?_, rfl, ?_⟩, ?_, ?_, ?_, ?_, ?_, ?_, ?_, ?_, ?_, ?_, ?_, ?_, ?_, ?_⟩
  · exact narrow_natCast i hi
  · show getAnsi256Code (narrow (i : Int)) b = getAnsi256Code i b
    rw [narrow_natCast i hi]
  · intro e
    cases e <;> rfl
  · intro e
    cases e <;> rfl
  · intro e
    cases e <;> rfl
  · intro e
    cases e <;> rfl
  · intro e
    cases e <;> rfl
  · intro e
    cases e <;> rfl
  · intro e
    cases e <;> rfl
  · intro e
    cases e <;> rfl
  · intro e
    cases e <;> rfl
  · intro e
    cases e <;> rfl
  · intro e
    cases e <;> rfl
  · intro e
    cases e <;> rfl
  · intro e
    cases e <;> rfl
  · intro e
    cases e <;> rfl

/-- C17 (witness): the colour constructed from `(196, false)`. -/
theorem C17_color_accessors_witness :
    ∃ c, Color.fromInt 196 false = Except.ok c ∧ c.colorCode = 196 ∧
      c.isBackgroundColor = false ∧ c.c_str = getAnsi256Code 196 false :=
  (C17_color_accessors 196 (by decide) false).1

/-- C18: `Reset::All` and `Back_To_Default_Terminal_State` are exactly ESC `[0m`, `Reset::FgColor`
is exactly ESC `[39m` and `Reset::BgColor` is exactly ESC `[49m`. -/
theorem C18_reset_sequences :
    Reset.All = String.singleton (Char.ofNat 0x1B) ++ "[0m" ∧
    Back_To_Default_Terminal_State = String.singleton (Char.ofNat 0x1B) ++ "[0m" ∧
    Reset.FgColor = String.singleton (Char.ofNat 0x1B) ++ "[39m" ∧
    Reset.BgColor = String.singleton (Char.ofNat 0x1B) ++ "[49m" := by
  decide

/-- C19: every `TextStyle` constant is exactly ESC `[` n `m` with n its SGR code in `1..9` (Bold
1, Faint 2, Italic 3, Underline 4, Blink 5, Inverse 7, Hidden 8, Strikethrough 9), and the `Reset`
constant of the same name is exactly ESC `[` 20+n `m`, except `Reset::Bold`, which is ESC `[22m`,
the same sequence as `Reset::Faint`. -/
theorem C19_text_style_sequences :
    (TextStyle.Bold = sgr 1 ∧ TextStyle.Faint = sgr 2 ∧ TextStyle.Italic = sgr 3 ∧
      TextStyle.Underline = sgr 4 ∧ TextStyle.Blink = sgr 5 ∧ TextStyle.Inverse = sgr 7 ∧
      TextStyle.Hidden = sgr 8 ∧ TextStyle.Strikethrough = sgr 9) ∧
    (Reset.Faint = sgr (20 + 2) ∧ Reset.Italic = sgr (20 + 3) ∧
      Reset.Underline = sgr (20 + 4) ∧ Reset.Blink = sgr (20 + 5) ∧
      Reset.Inverse = sgr (20 + 7) ∧ Reset.Hidden = sgr (20 + 8) ∧
      Reset.Strikethrough = sgr (20 + 9)) ∧
    (Reset.Bold = sgr 22 ∧ Reset.Bold = Reset.Faint ∧ Reset.Bold ≠ sgr (20 + 1)) := by
  decide

/-- C20: for every position `p` in `1..24`, `Shades[p]` and `Shades.at(p)` return the colour with
code `231 + p`, so the Shades family lists the grayscale ramp 232..255 in increasing order, one
step for each position. -/
theorem C20_shades_enumerate_gray_ramp (bg sc : Bool) (p : Nat) (h1 : 1 ≤ p) (h2 : p ≤ 24) :
    _Shades.range.max_index = 24 ∧
    _Shades.subscript bg sc p = Except.ok { color_code := 231 + p, bg_color := bg } ∧
    _Shades.at_ bg sc p = Except.ok { color_code := 231 + p, bg_color := bg } := by
  have hF : _Shades ∈ allFamilies := by simp [allFamilies]
  obtain ⟨hs, ha⟩ := access_ok _Shades hF bg sc p h1 h2
  have hm := shades_members bg (p - 1) (by omega)
  have hm2 : ((_Shades.range.members bg).getD (p - 1) noMember).2
      = { color_code := 231 + p, bg_color := bg } := by
    rw [show _Shades.range = ShadesRange from rfl, hm]
    have : 232 + (p - 1) = 231 + p := by omega
    rw [this]
  rw [hm2] at hs ha
  exact ⟨rfl, hs, ha⟩

/-- C20 (witness): the first and the last position of Shades. -/
theorem C20_shades_enumerate_gray_ramp_witness :
    _Shades.subscript false false 1 = Except.ok { color_code := 232, bg_color := false } ∧
    _Shades.at_ true true 24 = Except.ok { color_code := 255, bg_color := true } :=
  ⟨(C20_shades_enumerate_gray_ramp false false 1 (by decide) (by decide)).2.1,
    (C20_shades_enumerate_gray_ramp true true 24 (by decide) (by decide)).2.2⟩

/-! ## Iteration, access paths, ordering and round trips -/

theorem iterateFrom_spec (F : RangeClass) (bg : Bool) (e : Nat) (he : e < 256) :
    ∀ (fuel i : Nat), i ≤ e →
      iterateFrom F bg { idx := e } fuel { idx := i }
        = if e - i < fuel then
            some ((List.range' i (e - i)).map (fun k => (k, F.memberAt bg k)))
          else none := by
  intro fuel
  induction fuel with
  | zero =>
    intro i _
    simp [iterateFrom]
  | succ fuel ih =>
    intro i hi
    by_cases hie : i = e
    · subst hie
      simp [iterateFrom, const_Color_iterator.ne]
    · have hlt : i < e := by omega
      have hne : (const_Color_iterator.ne { idx := i } { idx := e }) = true := by
        simp [const_Color_iterator.ne, hie]
      have hinc : const_Color_iterator.incr { idx := i } = { idx := i + 1 } := by
        simp only [const_Color_iterator.incr]
        congr 1
        omega
      rw [iterateFrom, if_pos hne, hinc, ih (i + 1) (by omega)]
      have hsplit : e - i = (e - (i + 1)) + 1 := by omega
      by_cases hf : e - (i + 1) < fuel
      · have hf2 : e - i < fuel + 1 := by omega
        rw [if_pos hf, if_pos hf2]
        conv_rhs => rw [hsplit, List.range'_succ]
        simp [const_Color_iterator.deref]
      · have hf2 : ¬ e - i < fuel + 1 := by omega
        rw [if_neg hf, if_neg hf2]
        rfl

/-- The loop over a family of the source ends after `max_index` dereferences, which are those of
`table[0]`, ..., `table[max_index - 1]`. -/
theorem iterate_spec (F : Family) (hF : F ∈ allFamilies) (bg : Bool) (fuel : Nat) :
    F.iterate bg fuel
      = if F.range.max_index < fuel then
          some ((List.range F.range.max_index).map (fun k => (k, F.range.memberAt bg k)))
        else none := by
  obtain ⟨-, -, hlt, hend, -⟩ := families_wf F hF
  unfold Family.iterate RangeClass.begin_ RangeClass.end_
  rw [hend, iterateFrom_spec F.range bg F.range.max_index hlt fuel 0 (Nat.zero_le _)]
  simp [List.range_eq_range']

theorem memberAt_eq_subscript (F : Family) (hF : F ∈ allFamilies) (bg sc : Bool) (k : Nat)
    (hk : k < F.range.max_index) :
    F.range.memberAt bg k = F.subscript bg sc (k + 1) ∧
    ∃ c, F.range.memberAt bg k = Except.ok c := by
  have h1 := families_aligned F hF bg k hk
  have h2 := (access_ok F hF bg sc (k + 1) (by omega) (by omega)).1
  rw [Nat.add_sub_cancel] at h2
  exact ⟨by rw [h1, h2], _, h1⟩

/-- C21: for every family of size `N`, the loop from `begin()` to `end()`, incrementing while the
iterators differ, ends after exactly `N` increments (it has not ended within `N` evaluations of
the condition and has ended within any larger number), dereferences the positions `0, ..., N-1`
of `table` in that order and no other, and yields `F[1], F[2], ..., F[N]` in that order, each of
them a colour. -/
theorem C21_iteration_yields_range (F : Family) (hF : F ∈ allFamilies) (bg sc : Bool)
    (fuel : Nat) :
    (F.range.max_index < fuel →
      ∃ l, F.iterate bg fuel = some l ∧ l.length = F.range.max_index ∧
        l.map Prod.fst = List.range F.range.max_index ∧
        l.map Prod.snd
          = (List.range F.range.max_index).map (fun k => F.subscript bg sc (k + 1)) ∧
        ∀ x ∈ l, x.1 < F.range.max_index ∧ x.1 < F.range.table.length ∧
          ∃ c, x.2 = Except.ok c) ∧
    (fuel ≤ F.range.max_index → F.iterate bg fuel = none) := by
  obtain ⟨hlen, -, -, -, -⟩ := families_wf F hF
  rw [iterate_spec F hF bg fuel]
  constructor
  · intro hfuel
    rw [if_pos hfuel]
    refine ⟨_, rfl, by simp, ?_, ?_, ?_⟩
    · rw [List.map_map]
      exact List.map_id'' (fun _ => rfl) _
    · rw [List.map_map]
      apply List.map_congr_left
      intro k hk
      exact (memberAt_eq_subscript F hF bg sc k (List.mem_range.mp hk)).1
    · intro x hx
      obtain ⟨k, hk, rfl⟩ := List.mem_map.mp hx
      have hk2 := List.mem_range.mp hk
      exact ⟨hk2, by omega, (memberAt_eq_subscript F hF bg sc k hk2).2⟩
  · intro hfuel
    rw [if_neg (by omega)]

/-- C21 (witness): the loop over the family Black, of size 4, with fuel 5. -/
theorem C21_iteration_yields_range_witness :
    ∃ l, _Black.iterate false 5 = some l ∧ l.length = _Black.range.max_index ∧
      l.map Prod.fst = List.range _Black.range.max_index ∧
      l.map Prod.snd
        = (List.range _Black.range.max_index).map
            (fun k => _Black.subscript false false (k + 1)) ∧
      ∀ x ∈ l, x.1 < _Black.range.max_index ∧ x.1 < _Black.range.table.length ∧
        ∃ c, x.2 = Except.ok c :=
  (C21_iteration_yields_range _Black (by simp [allFamilies]) false false 5).1 (by decide)

theorem failMessage_eq_tail (cat : Category) (ci : String) (i m : Nat) (at_ : Bool) :
    failMessage cat ci i m at_ = errorStart cat ci i at_ ++ failTail i m := by
  unfold failMessage failTail
  split_ifs
  · rfl
  · simp only [String.append_assoc]

theorem range_eq_family (F : Family) (bg sc : Bool) (p : Nat) :
    F.range.subscript bg sc p = F.subscript bg sc p ∧ F.range.at_ bg sc p = F.at_ bg sc p := by
  unfold Family.subscript Family.at_ RangeClass.subscript RangeClass.at_
  constructor <;> split_ifs <;> split <;> simp_all

theorem families_arrow :
    ∀ F ∈ allFamilies, F.range.name ≠ "Shades" → F.has_range_member = true := by
  decide

/-- The outcome of an access does not depend on whether the object is a shortcut, except for
the name in the message of a failure. -/
theorem short_cut_irrelevant (F : Family) (bg : Bool) (p : Nat) :
    ((∃ msg, F.subscript bg true p = Except.error (Failure.out_of_range msg))
      ↔ (∃ msg, F.subscript bg false p = Except.error (Failure.out_of_range msg))) ∧
    ((∃ msg, F.at_ bg true p = Except.error (Failure.out_of_range msg))
      ↔ (∃ msg, F.at_ bg false p = Except.error (Failure.out_of_range msg))) ∧
    (∀ c, F.subscript bg true p = Except.ok c ↔ F.subscript bg false p = Except.ok c) ∧
    (∀ c, F.at_ bg true p = Except.ok c ↔ F.at_ bg false p = Except.ok c) := by
  by_cases hp : p = 0 ∨ F.range.max_index < p
  · obtain ⟨hs1, ha1⟩ := access_fail F bg true p hp
    obtain ⟨hs2, ha2⟩ := access_fail F bg false p hp
    rw [hs1, hs2, ha1, ha2]
    simp
  · have hok : 0 < p ∧ p ≤ F.range.max_index := by omega
    have hs : F.subscript bg true p = F.subscript bg false p := by
      unfold Family.subscript RangeClass.subscript
      simp only [checkForOutOfRange_ok _ _ _ _ _ hok]
    have ha : F.at_ bg true p = F.at_ bg false p := by
      unfold Family.at_ RangeClass.at_
      simp only [checkForOutOfRange_ok _ _ _ _ _ hok]
    rw [hs, ha]
    simp

/-- C23: in every category class the members of `ShortCut` (R, G, B / C, Y, P / O, B, V, P /
B, G, W, S) have the same family classes, in the same order, as the full-name members; for every
category, every flag and every pair of a shortcut object and the full-name object of the same
family, for every position `p` the two objects fail on the same positions, with `operator[]` and
with `at`, and return the same colour when they succeed, and their named colours are the same. -/
theorem C23_shortcut_equivalent_to_full_name :
    allCategories.map (fun C => (C.shortCutMembers.map Prod.fst, C.members.map Prod.fst))
      = [(["R", "G", "B"], ["Red", "Green", "Blue"]),
          (["C", "Y", "P"], ["Cyan", "Yellow", "Purple"]),
          (["O", "B", "V", "P"], ["Orange", "Brown", "Violet", "Pink"]),
          (["B", "G", "W", "S"], ["Black", "Gray", "White", "Shades"])] ∧
    ∀ C ∈ allCategories, ∀ bg : Bool,
      (C.short_cut bg).length = (C.families bg).length ∧
      ∀ x ∈ (C.short_cut bg).zip (C.families bg),
        x.1.2.cls = x.2.2.cls ∧ x.1.2.bg_color = x.2.2.bg_color ∧
        x.1.2.named = x.2.2.named ∧
        ∀ p : Nat, p < 256 →
          ((∃ msg, x.1.2.subscript p = Except.error (Failure.out_of_range msg))
            ↔ (∃ msg, x.2.2.subscript p = Except.error (Failure.out_of_range msg))) ∧
          ((∃ msg, x.1.2.at_ p = Except.error (Failure.out_of_range msg))
            ↔ (∃ msg, x.2.2.at_ p = Except.error (Failure.out_of_range msg))) ∧
          (∀ c, x.1.2.subscript p = Except.ok c ↔ x.2.2.subscript p = Except.ok c) ∧
          (∀ c, x.1.2.at_ p = Except.ok c ↔ x.2.2.at_ p = Except.ok c) := by
  refine ⟨by decide, ?_⟩
  intro C hC bg
  have key : ∀ (F : Family) (n1 n2 : String),
      let x : (String × FamilyObject) × (String × FamilyObject) :=
        ((n1, { cls := F, bg_color := bg, short_cut := true }),
          (n2, { cls := F, bg_color := bg, short_cut := false }))
      x.1.2.cls = x.2.2.cls ∧ x.1.2.bg_color = x.2.2.bg_color ∧
        x.1.2.named = x.2.2.named ∧
        ∀ p : Nat, p < 256 →
          ((∃ msg, x.1.2.subscript p = Except.error (Failure.out_of_range msg))
            ↔ (∃ msg, x.2.2.subscript p = Except.error (Failure.out_of_range msg))) ∧
          ((∃ msg, x.1.2.at_ p = Except.error (Failure.out_of_range msg))
            ↔ (∃ msg, x.2.2.at_ p = Except.error (Failure.out_of_range msg))) ∧
          (∀ c, x.1.2.subscript p = Except.ok c ↔ x.2.2.subscript p = Except.ok c) ∧
          (∀ c, x.1.2.at_ p = Except.ok c ↔ x.2.2.at_ p = Except.ok c) := by
    intro F n1 n2
    exact ⟨rfl, rfl, rfl, fun p _ => short_cut_irrelevant F bg p⟩
  simp only [allCategories, List.mem_cons, List.mem_singleton, List.not_mem_nil, or_false] at hC
  rcases hC with rfl | rfl | rfl | rfl
  all_goals
    refine ⟨rfl, ?_⟩
    intro x hx
    simp only [CategoryClass.short_cut, CategoryClass.families, PrimaryColors, SecondaryColors,
      TertiaryColors, GrayScaleColors, List.map, List.zip_cons_cons, List.zip_nil_right,
      List.mem_cons, List.mem_singleton, List.not_mem_nil, or_false] at hx
    rcases hx with rfl | rfl | rfl | rfl <;> exact key _ _ _

/-- C23 (witness): the shortcut `B` and the member `Brown` of `TertiaryColors`, at position 11. -/
theorem C23_shortcut_equivalent_to_full_name_witness :
    ∀ c, FamilyObject.subscript { cls := _Brown, bg_color := false, short_cut := true } 11
          = Except.ok c
        ↔ FamilyObject.subscript { cls := _Brown, bg_color := false, short_cut := false } 11
          = Except.ok c :=
  ((C23_shortcut_equivalent_to_full_name.2 TertiaryColors (by simp [allCategories]) false).2
    (("B", { cls := _Brown, bg_color := false, short_cut := true }),
      ("Brown", { cls := _Brown, bg_color := false, short_cut := false }))
    (by simp [CategoryClass.short_cut, CategoryClass.families, TertiaryColors])).2.2.2 11
    (by decide) |>.2.2.1

set_option maxRecDepth 100000 in
/-- C24 (failing input): `Gray[0]` on the foreground object fails with a message that starts
`ERROR: Illegal index in operator 'GrayScaleColorsColors.Gray[0]'`, which does not begin with the
start the claim gives for the class `GrayScaleColors`; the message of `Gray.at(0)` does begin with
the start the claim gives. -/
theorem C24_grayscale_operator_message_misspelt :
    _Gray.subscript false false 0 = Except.error (Failure.out_of_range
      "\nERROR: Illegal index in operator \x27GrayScaleColorsColors.Gray[0]\x27\n\n\t-Indexing starts at 1 (corresponding to the first color palette name) and aligns with the member color definition names.\n") ∧
    ¬ beginsWith
      "\nERROR: Illegal index in operator \x27GrayScaleColorsColors.Gray[0]\x27\n\n\t-Indexing starts at 1 (corresponding to the first color palette name) and aligns with the member color definition names.\n"
      (expectedStart Category.GrayScaleColors "Gray" 0 false) ∧
    _Gray.at_ false false 0 = Except.error (Failure.out_of_range
      "\nERROR: Illegal index in method \x27GrayScaleColors.Gray.at(0)\x27\n\n\t-Indexing starts at 1 (corresponding to the first color palette name) and aligns with the member color definition names.\n") ∧
    beginsWith
      "\nERROR: Illegal index in method \x27GrayScaleColors.Gray.at(0)\x27\n\n\t-Indexing starts at 1 (corresponding to the first color palette name) and aligns with the member color definition names.\n"
      (expectedStart Category.GrayScaleColors "Gray" 0 true) := by
  decide

/-- C26 (counterexample): streaming the foreground family Red writes the eleven characters of
`Reset::FgColor` and of the escape sequence of `Pure_Red`, not the escape sequence alone. -/
theorem C26_counterexample_stream_has_reset_prefix :
    _Red.defaultColor false = some { color_code := 196, bg_color := false } ∧
    Color.c_str { color_code := 196, bg_color := false } = "\x1b[38;5;196m" ∧
    _Red.insert false "" = some "\x1b[39m\x1b[38;5;196m" ∧
    _Red.insert false "" ≠ some (Color.c_str { color_code := 196, bg_color := false }) := by
  decide

theorem families_default :
    ∀ F ∈ allFamilies, ∀ bg : Bool,
      (F.defaultColor bg).map Color.isBackgroundColor = F.streamed.map (fun _ => bg) := by
  decide

/-- C26 (amended): streaming a family object writes `Reset::FgColor` on a foreground object, or
`Reset::BgColor` on a background object, followed by the escape sequence (`c_str()`) of its
default colour, after what the stream holds; the default colours are Red: Pure_Red (code 196),
Green: Pure_Green, Blue: Pure_Blue, Cyan: Pure_Cyan, Yellow: Pure_Yellow, Purple:
Fuchsia_Purple, Orange: Pure_Orange, Brown: Russet_Brown, Violet: Blue_Violet, Pink:
Neon_Rose_Pink, Black: Extended_Black, Gray: Mercury_Gray, White: Pure_White. -/
theorem C26_stream_writes_reset_then_default :
    allFamilies.map (fun F => (F.range.name, F.streamed, (F.defaultColor false).map Color.colorCode))
      = [("Red", some "Pure_Red", some 196), ("Green", some "Pure_Green", some 46),
          ("Blue", some "Pure_Blue", some 27), ("Cyan", some "Pure_Cyan", some 50),
          ("Yellow", some "Pure_Yellow", some 226), ("Purple", some "Fuchsia_Purple", some 129),
          ("Orange", some "Pure_Orange", some 202), ("Brown", some "Russet_Brown", some 94),
          ("Violet", some "Blue_Violet", some 57), ("Pink", some "Neon_Rose_Pink", some 198),
          ("Black", some "Extended_Black", some 16), ("Gray", some "Mercury_Gray", some 242),
          ("White", some "Pure_White", some 231), ("Shades", none, none)] ∧
    ∀ F ∈ allFamilies, ∀ (bg : Bool) (os name : String), F.streamed = some name →
      ∃ c, F.defaultColor bg = some c ∧ (F.named bg).lookup name = some c ∧
        c.isBackgroundColor = bg ∧
        F.insert bg os
          = some (os ++ (if bg then Reset.BgColor else Reset.FgColor) ++ c.c_str) := by
  refine ⟨by decide, ?_⟩
  intro F hF bg os name hname
  have h := families_default F hF bg
  have hd : F.defaultColor bg = (F.named bg).lookup name := by
    simp [Family.defaultColor, hname]
  rw [hname, hd] at h
  cases hl : (F.named bg).lookup name with
  | none => simp [hl] at h
  | some c =>
    rw [hl] at h
    have hflag : c.isBackgroundColor = bg := by simpa using h
    refine ⟨c, by rw [hd, hl], rfl, hflag, ?_⟩
    have hflag2 : c.bg_color = bg := hflag
    simp only [Family.insert, hname, hl, Option.map_some', Color.insert, Color.c_str, hflag2]

/-- C26 (witness): streaming the background family Gray. -/
theorem C26_stream_writes_reset_then_default_witness :
    ∃ c, _Gray.defaultColor true = some c ∧
      (_Gray.named true).lookup "Mercury_Gray" = some c ∧ c.isBackgroundColor = true ∧
      _Gray.insert true "abc"
        = some ("abc" ++ (if true then Reset.BgColor else Reset.FgColor) ++ c.c_str) :=
  C26_stream_writes_reset_then_default.2 _Gray (by simp [allFamilies]) true "abc" "Mercury_Gray"
    rfl

/-- C27: for every ramp step `s` in `0..23` other than 12, `rgb_to_ansi256` applied to the gray
`(8+10*s, 8+10*s, 8+10*s)` returns `232 + s`; for `s = 12`, the gray 128, it returns 8, because
the standard-16 entry 8, `(128, 128, 128)`, is at distance 0 like the grayscale candidate and
wins the tie. -/
theorem C27_gray_ramp_round_trip (s : Nat) (hs : s < 24) :
    (s ≠ 12 → rgb_to_ansi256 (8 + 10 * s) (8 + 10 * s) (8 + 10 * s) = 232 + s) ∧
    (s = 12 →
      rgb_to_ansi256 (8 + 10 * s) (8 + 10 * s) (8 + 10 * s) = 8 ∧
      selected (8 + 10 * s) (8 + 10 * s) (8 + 10 * s) = Candidate.standard16 ∧
      best16d (8 + 10 * s : Nat) (8 + 10 * s : Nat) (8 + 10 * s : Nat) = 0 ∧
      dg2 (8 + 10 * s : Nat) (8 + 10 * s : Nat) (8 + 10 * s : Nat) = 0 ∧
      ansi16_rgb.getD 8 (0, 0, 0) = (128, 128, 128)) := by
  have key : ∀ t : Fin 24,
      (t.val ≠ 12 →
        rgb_to_ansi256 (8 + 10 * t.val) (8 + 10 * t.val) (8 + 10 * t.val) = 232 + t.val) ∧
      (t.val = 12 →
        rgb_to_ansi256 (8 + 10 * t.val) (8 + 10 * t.val) (8 + 10 * t.val) = 8 ∧
        selected (8 + 10 * t.val) (8 + 10 * t.val) (8 + 10 * t.val) = Candidate.standard16 ∧
        best16d (8 + 10 * t.val : Nat) (8 + 10 * t.val : Nat) (8 + 10 * t.val : Nat) = 0 ∧
        dg2 (8 + 10 * t.val : Nat) (8 + 10 * t.val : Nat) (8 + 10 * t.val : Nat) = 0 ∧
        ansi16_rgb.getD 8 (0, 0, 0) = (128, 128, 128)) := by
    decide
  exact key ⟨s, hs⟩

/-- C27 (witness): the steps 23 and 12. -/
theorem C27_gray_ramp_round_trip_witness :
    rgb_to_ansi256 238 238 238 = 255 ∧ rgb_to_ansi256 128 128 128 = 8 :=
  ⟨(C27_gray_ramp_round_trip 23 (by decide)).1 (by decide),
    ((C27_gray_ramp_round_trip 12 (by decide)).2 rfl).1⟩

/-- C28: every standard-16 reference colour is a fixed point of the matcher: for every `i` in
`0..15`, `rgb_to_ansi256` applied to `ansi16_rgb[i]` returns `i`. -/
theorem C28_standard16_fixed_points (i : Nat) (hi : i < 16) :
    rgb_to_ansi256 (ansi16_rgb.getD i (0, 0, 0)).1.toNat (ansi16_rgb.getD i (0, 0, 0)).2.1.toNat
      (ansi16_rgb.getD i (0, 0, 0)).2.2.toNat = i := by
  have key : ∀ t : Fin 16,
      rgb_to_ansi256 (ansi16_rgb.getD t.val (0, 0, 0)).1.toNat
        (ansi16_rgb.getD t.val (0, 0, 0)).2.1.toNat
        (ansi16_rgb.getD t.val (0, 0, 0)).2.2.toNat = t.val := by
    decide
  exact key ⟨i, hi⟩

/-- C28 (witness): entry 7, the colour `(192, 192, 192)`. -/
theorem C28_standard16_fixed_points_witness : rgb_to_ansi256 192 192 192 = 7 :=
  C28_standard16_fixed_points 7 (by decide)

set_option maxRecDepth 100000 in
theorem cube_round_trip_fin :
    ∀ a b c : Fin 6,
      to_level (cubeLevelAt a.val) = a.val ∧
      (¬ isCorner (cubeLevelAt a.val) (cubeLevelAt b.val) (cubeLevelAt c.val) →
        rgb_to_ansi256 (cubeLevelAt a.val).toNat (cubeLevelAt b.val).toNat
          (cubeLevelAt c.val).toNat = 16 + 36 * a.val + 6 * b.val + c.val) ∧
      (isCorner (cubeLevelAt a.val) (cubeLevelAt b.val) (cubeLevelAt c.val) →
        (ansi16_rgb.getD (rgb_to_ansi256 (cubeLevelAt a.val).toNat (cubeLevelAt b.val).toNat
            (cubeLevelAt c.val).toNat) (1, 1, 1)
          = (cubeLevelAt a.val, cubeLevelAt b.val, cubeLevelAt c.val)) ∧
        rgb_to_ansi256 (cubeLevelAt a.val).toNat (cubeLevelAt b.val).toNat
            (cubeLevelAt c.val).toNat ∈ [0, 9, 10, 11, 12, 13, 14, 15]) := by
  decide

/-- C29: with `L = {0, 95, 135, 175, 215, 255}`, for all levels `a`, `b`, `c` in `0..5` the level
function maps `L[a]` back to `a`, and `rgb_to_ansi256 (L[a], L[b], L[c])` is
`16 + 36*a + 6*b + c` unless every one of the three channels is 0 or 255, in which case it is
the standard-16 index of that colour, one of 0, 9, 10, 11, 12, 13, 14, 15. -/
theorem C29_cube_round_trip (a b c : Nat) (ha : a < 6) (hb : b < 6) (hc : c < 6) :
    cube_levels = [0, 95, 135, 175, 215, 255] ∧
    to_level (cubeLevelAt a) = a ∧
    (¬ isCorner (cubeLevelAt a) (cubeLevelAt b) (cubeLevelAt c) →
      rgb_to_ansi256 (cubeLevelAt a).toNat (cubeLevelAt b).toNat (cubeLevelAt c).toNat
        = 16 + 36 * a + 6 * b + c) ∧
    (isCorner (cubeLevelAt a) (cubeLevelAt b) (cubeLevelAt c) →
      (ansi16_rgb.getD (rgb_to_ansi256 (cubeLevelAt a).toNat (cubeLevelAt b).toNat
          (cubeLevelAt c).toNat) (1, 1, 1)
        = (cubeLevelAt a, cubeLevelAt b, cubeLevelAt c)) ∧
      rgb_to_ansi256 (cubeLevelAt a).toNat (cubeLevelAt b).toNat (cubeLevelAt c).toNat
        ∈ [0, 9, 10, 11, 12, 13, 14, 15]) :=
  ⟨rfl, cube_round_trip_fin ⟨a, ha⟩ ⟨b, hb⟩ ⟨c, hc⟩⟩

/-- C29 (witness): the cube colour `(95, 0, 255)` and the corner `(255, 0, 255)`. -/
theorem C29_cube_round_trip_witness :
    rgb_to_ansi256 95 0 255 = 16 + 36 * 1 + 6 * 0 + 5 ∧
    rgb_to_ansi256 255 0 255 ∈ [0, 9, 10, 11, 12, 13, 14, 15] :=
  ⟨(C29_cube_round_trip 1 0 5 (by decide) (by decide) (by decide)).2.2.1 (by decide),
    ((C29_cube_round_trip 5 0 5 (by decide) (by decide) (by decide)).2.2.2 (by decide)).2⟩

theorem gray_level_of_mean (R G B : Nat) :
    gray_level R G B
      = if gray_mean R G B < 8 then 0
        else if gray_mean R G B > 248 then 23 else (gray_mean R G B - 8) / 10 := by
  have hm := gray_mean_eq R G B
  unfold gray_level
  simp only []
  split_ifs with h1 h2
  · rfl
  · rfl
  · exact Int.tdiv_eq_ediv (by omega) (by omega)

/-- C30: for every uint8 triple the grayscale step lies in `0..23`, and the grayscale index in
`232..255`, if and only if the channel mean `(R+G+B)/3` is different from 248; the mean is 248
exactly when `R+G+B` is in `744..746`, and then the step is 24 and the integer grayscale index
is 256; at `(248, 248, 248)` the grayscale candidate is selected with distance 0 and the value
returned after the narrowing to 8 bits is 0. -/
theorem C30_gray_step_overflows_at_mean_248 (R G B : Nat) :
    ((0 ≤ gray_level R G B ∧ gray_level R G B ≤ 23) ↔ gray_mean R G B ≠ 248) ∧
    ((232 ≤ gray_index R G B ∧ gray_index R G B ≤ 255) ↔ gray_mean R G B ≠ 248) ∧
    (gray_mean R G B = 248 ↔ (744 ≤ R + G + B ∧ R + G + B ≤ 746)) ∧
    (gray_mean R G B = 248 → gray_level R G B = 24 ∧ gray_index R G B = 256) ∧
    (selected 248 248 248 = Candidate.grayscale ∧ dg2 248 248 248 = 0 ∧
      gray_index 248 248 248 = 256 ∧ rgb_to_ansi256 248 248 248 = 0) := by
  have hm := gray_mean_eq R G B
  have hl := gray_level_of_mean R G B
  have hi : gray_index R G B = 232 + gray_level R G B := rfl
  refine ⟨?_, ?_, ?_, ?_, by decide⟩
  · rw [hl]
    split_ifs <;> omega
  · rw [hi, hl]
    split_ifs <;> omega
  · omega
  · intro h
    rw [hi, hl]
    split_ifs <;> omega

/-- C30 (witness): the triple `(247, 248, 249)`, of mean 248. -/
theorem C30_gray_step_overflows_at_mean_248_witness :
    gray_mean 247 248 249 = 248 ∧ gray_level 247 248 249 = 24 ∧ gray_index 247 248 249 = 256 :=
  ⟨by decide,
    (C30_gray_step_overflows_at_mean_248 247 248 249).2.2.2.1
      (by decide)⟩

/-! ## Arithmetic range, namespaces, enumerations and formatting -/

theorem enumerators_complete :
    (∀ e : Defined_Colors.Red, e ∈ Defined_Colors.Red.all) ∧
    (∀ e : Defined_Colors.Orange, e ∈ Defined_Colors.Orange.all) ∧
    (∀ e : Defined_Colors.Yellow, e ∈ Defined_Colors.Yellow.all) ∧
    (∀ e : Defined_Colors.Green, e ∈ Defined_Colors.Green.all) ∧
    (∀ e : Defined_Colors.Cyan, e ∈ Defined_Colors.Cyan.all) ∧
    (∀ e : Defined_Colors.Blue, e ∈ Defined_Colors.Blue.all) ∧
    (∀ e : Defined_Colors.Violet, e ∈ Defined_Colors.Violet.all) ∧
    (∀ e : Defined_Colors.Pink, e ∈ Defined_Colors.Pink.all) ∧
    (∀ e : Defined_Colors.Purple, e ∈ Defined_Colors.Purple.all) ∧
    (∀ e : Defined_Colors.Brown, e ∈ Defined_Colors.Brown.all) ∧
    (∀ e : Defined_Colors.GrayScale, e ∈ Defined_Colors.GrayScale.all) ∧
    (∀ e : Defined_Colors.Gray, e ∈ Defined_Colors.Gray.all) ∧
    (∀ e : Defined_Colors.White, e ∈ Defined_Colors.White.all) ∧
    (∀ e : Defined_Colors.Black, e ∈ Defined_Colors.Black.all) := by
  refine ⟨?_, ?_, ?_, ?_, ?_, ?_, ?_, ?_, ?_, ?_, ?_, ?_, ?_, ?_⟩ <;> intro e <;> cases e <;> decide

theorem sq_diff_range (x y : Int) (hx0 : 0 ≤ x) (hx : x ≤ 255) (hy0 : 0 ≤ y) (hy : y ≤ 255) :
    0 ≤ (x - y) * (x - y) ∧ (x - y) * (x - y) ≤ 65025 := by
  constructor
  · exact mul_self_nonneg _
  · nlinarith [mul_nonneg (by linarith : (0 : Int) ≤ 255 - (x - y))
      (by linarith : (0 : Int) ≤ 255 + (x - y))]

theorem dist2_range (r1 g1 b1 r2 g2 b2 : Int)
    (h1 : 0 ≤ r1 ∧ r1 ≤ 255) (h2 : 0 ≤ g1 ∧ g1 ≤ 255) (h3 : 0 ≤ b1 ∧ b1 ≤ 255)
    (h4 : 0 ≤ r2 ∧ r2 ≤ 255) (h5 : 0 ≤ g2 ∧ g2 ≤ 255) (h6 : 0 ≤ b2 ∧ b2 ≤ 255) :
    0 ≤ dist2 r1 g1 b1 r2 g2 b2 ∧ dist2 r1 g1 b1 r2 g2 b2 ≤ 195075 := by
  obtain ⟨a0, a1⟩ := sq_diff_range r1 r2 h1.1 h1.2 h4.1 h4.2
  obtain ⟨b0, b1'⟩ := sq_diff_range g1 g2 h2.1 h2.2 h5.1 h5.2
  obtain ⟨c0, c1⟩ := sq_diff_range b1 b2 h3.1 h3.2 h6.1 h6.2
  unfold dist2
  simp only []
  omega

theorem ansi16_rgb_range :
    ∀ i, i < 16 →
      (0 ≤ (ansi16_rgb.getD i (0, 0, 0)).1 ∧ (ansi16_rgb.getD i (0, 0, 0)).1 ≤ 255) ∧
      (0 ≤ (ansi16_rgb.getD i (0, 0, 0)).2.1 ∧ (ansi16_rgb.getD i (0, 0, 0)).2.1 ≤ 255) ∧
      (0 ≤ (ansi16_rgb.getD i (0, 0, 0)).2.2 ∧ (ansi16_rgb.getD i (0, 0, 0)).2.2 ≤ 255) := by
  decide

theorem cubeLevelAt_range : ∀ a : Fin 6, 0 ≤ cubeLevelAt a.val ∧ cubeLevelAt a.val ≤ 255 := by
  decide

theorem cubeLevelAt_to_level_range (v : Nat) (hv : v < 256) :
    0 ≤ cubeLevelAt (to_level v) ∧ cubeLevelAt (to_level v) ≤ 255 := by
  obtain ⟨a, ha, hl⟩ := to_level_nat v hv
  rw [hl]
  exact cubeLevelAt_range ⟨a, ha⟩

theorem gray_val_range (R G B : Nat) :
    8 ≤ gray_val R G B ∧ gray_val R G B ≤ 248 := by
  have hm := gray_mean_eq R G B
  have hl := gray_level_of_mean R G B
  unfold gray_val
  rw [hl]
  split_ifs <;> omega

theorem uint8_cast_range (v : Nat) (hv : v < 256) : 0 ≤ (v : Int) ∧ (v : Int) ≤ 255 := by
  omega

/-- C31: for every uint8 triple every squared distance that `rgb_to_ansi256` computes with `dist2`
(to each of the 16 reference colours, to the cube candidate and to the grayscale candidate) lies
in `0..195075 = 3 * 255^2`, below `INT_MAX = 2^31 - 1`; the first iteration of the scan replaces
the sentinel `INT_MAX` by the distance to entry 0, and `best16d` after the scan is a distance in
`0..195075`. -/
theorem C31_arithmetic_within_int_range (R G B : Nat)
    (hR : R < 256) (hG : G < 256) (hB : B < 256) :
    (∀ i, i < 16 → 0 ≤ dist16 R G B i ∧ dist16 R G B i ≤ 195075) ∧
    (0 ≤ dc R G B ∧ dc R G B ≤ 195075) ∧
    (0 ≤ dg2 R G B ∧ dg2 R G B ≤ 195075) ∧
    (scanUpTo 0 R G B = (0, INT_MAX) ∧ scanUpTo 1 R G B = (0, dist16 R G B 0)) ∧
    (0 ≤ best16d R G B ∧ best16d R G B ≤ 195075) ∧
    ((195075 : Int) = 3 * 255 ^ 2 ∧ (195075 : Int) < INT_MAX ∧ INT_MAX = 2 ^ 31 - 1) := by
  have hr := uint8_cast_range R hR
  have hg := uint8_cast_range G hG
  have hb := uint8_cast_range B hB
  have h16 : ∀ i, i < 16 → 0 ≤ dist16 R G B i ∧ dist16 R G B i ≤ 195075 := by
    intro i hi
    obtain ⟨e1, e2, e3⟩ := ansi16_rgb_range i hi
    exact dist2_range _ _ _ _ _ _ hr hg hb e1 e2 e3
  refine ⟨h16, ?_, ?_, ⟨rfl, ?_⟩, ?_, by decide⟩
  · exact dist2_range _ _ _ _ _ _ hr hg hb (cubeLevelAt_to_level_range R hR)
      (cubeLevelAt_to_level_range G hG) (cubeLevelAt_to_level_range B hB)
  · have hv := gray_val_range R G B
    have hv' : 0 ≤ gray_val R G B ∧ gray_val R G B ≤ 255 := by omega
    exact dist2_range _ _ _ _ _ _ hr hg hb hv' hv' hv'
  · have h0 := dist16_zero_lt R G B hR hG hB
    have hs : scanUpTo (0 + 1) R G B = (0, dist16 R G B 0) := by
      rw [scanUpTo_succ, scanUpTo_zero, scanStep_eq]
      simp [h0]
    exact hs
  · obtain ⟨k, hk, -, hd, -, -⟩ := scan16_spec R G B hR hG hB
    rw [hd]
    exact h16 k hk

/-- C31 (witness): the triple `(255, 255, 255)`, at the largest distance 195075 from entry 0. -/
theorem C31_arithmetic_within_int_range_witness :
    dist16 (255 : Nat) (255 : Nat) (255 : Nat) 0 = 195075 ∧
    (0 ≤ best16d (255 : Nat) (255 : Nat) (255 : Nat) ∧
      best16d (255 : Nat) (255 : Nat) (255 : Nat) ≤ 195075) :=
  ⟨by decide,
    (C31_arithmetic_within_int_range 255 255 255 (by decide) (by decide)
      (by decide)).2.2.2.2.1⟩

theorem access_flag (F : Family) (hF : F ∈ allFamilies) (bg sc : Bool) (p : Nat) (c : Color)
    (h : F.subscript bg sc p = Except.ok c ∨ F.at_ bg sc p = Except.ok c) :
    c.isBackgroundColor = bg ∧ c.colorCode = F.codes.getD (p - 1) 0 ∧
    1 ≤ p ∧ p ≤ F.range.max_index := by
  by_cases hp : p = 0 ∨ F.range.max_index < p
  · obtain ⟨hs, ha⟩ := access_fail F bg sc p hp
    rw [hs, ha] at h
    simp at h
  · obtain ⟨hs, ha⟩ := access_ok F hF bg sc p (by omega) (by omega)
    rw [hs, ha] at h
    have hc : c = ((F.range.members bg).getD (p - 1) noMember).2 := by
      rcases h with h | h <;> exact (Except.ok.inj h).symm
    subst hc
    exact ⟨families_flag F hF bg (p - 1) (by omega), families_code F hF bg (p - 1) (by omega),
      by omega, by omega⟩

theorem familyObjects_mem (o : CategoryObject) (ho : o ∈ fg.objects ++ bg.objects)
    (f : FamilyObject) (hf : f ∈ o.familyObjects) :
    f.cls ∈ allFamilies ∧ f.bg_color = o.bg_color := by
  simp only [fg.objects, bg.objects, List.cons_append, List.nil_append, List.mem_cons,
    List.mem_singleton, List.not_mem_nil, or_false] at ho
  rcases ho with rfl | rfl | rfl | rfl | rfl | rfl | rfl | rfl
  all_goals
    simp only [CategoryObject.familyObjects, CategoryClass.families, CategoryClass.short_cut,
      fg.PrimaryColors, fg.SecondaryColors, fg.TertiaryColors, fg.GrayScaleColors,
      bg.PrimaryColors, bg.SecondaryColors, bg.TertiaryColors, bg.GrayScaleColors,
      PrimaryColors, SecondaryColors, TertiaryColors, GrayScaleColors, List.map,
      List.cons_append, List.nil_append, List.mem_cons, List.mem_singleton, List.not_mem_nil,
      or_false] at hf
    rcases hf with rfl | rfl | rfl | rfl | rfl | rfl | rfl | rfl <;>
      exact ⟨by simp [allFamilies], rfl⟩

set_option maxRecDepth 100000 in
theorem namespace_colors :
    (∀ o ∈ fg.objects, ∀ c ∈ o.colors, c.isBackgroundColor = false) ∧
    (∀ o ∈ bg.objects, ∀ c ∈ o.colors, c.isBackgroundColor = true) ∧
    fg.objects.map (fun o => o.colors.map Color.colorCode)
      = bg.objects.map (fun o => o.colors.map Color.colorCode) ∧
    fg.objects.map (fun o => (o.cls.category, o.bg_color, o.colors.length))
      = [(Category.PrimaryColors, false, 370), (Category.SecondaryColors, false, 286),
          (Category.TertiaryColors, false, 226), (Category.GrayScaleColors, false, 184)] ∧
    bg.objects.map (fun o => (o.cls.category, o.bg_color, o.colors.length))
      = [(Category.PrimaryColors, true, 370), (Category.SecondaryColors, true, 286),
          (Category.TertiaryColors, true, 226), (Category.GrayScaleColors, true, 184)] := by
  decide

/-- C32: every colour reachable from the objects of the namespace `fg` (the named colours and
the range members of every family, Shades included, through the full names and through the `->`
shortcuts) has `isBackgroundColor() = false`, every colour reachable from the objects of `bg` has
`isBackgroundColor() = true`, and the corresponding colours of `fg` and `bg` have the same code;
the same holds of every colour that a positional accessor of these family objects returns. -/
theorem C32_fg_bg_flags :
    (∀ o ∈ fg.objects, ∀ c ∈ o.colors, c.isBackgroundColor = false) ∧
    (∀ o ∈ bg.objects, ∀ c ∈ o.colors, c.isBackgroundColor = true) ∧
    fg.objects.map (fun o => o.colors.map Color.colorCode)
      = bg.objects.map (fun o => o.colors.map Color.colorCode) ∧
    fg.objects.map (fun o => (o.cls.category, o.bg_color, o.colors.length))
      = [(Category.PrimaryColors, false, 370), (Category.SecondaryColors, false, 286),
          (Category.TertiaryColors, false, 226), (Category.GrayScaleColors, false, 184)] ∧
    bg.objects.map (fun o => (o.cls.category, o.bg_color, o.colors.length))
      = [(Category.PrimaryColors, true, 370), (Category.SecondaryColors, true, 286),
          (Category.TertiaryColors, true, 226), (Category.GrayScaleColors, true, 184)] ∧
    (∀ o ∈ fg.objects ++ bg.objects, ∀ f ∈ o.familyObjects, ∀ (p : Nat) (c : Color),
      f.subscript p = Except.ok c ∨ f.at_ p = Except.ok c →
        c.isBackgroundColor = o.bg_color ∧ c.colorCode = f.cls.codes.getD (p - 1) 0) := by
  obtain ⟨h1, h2, h3, h4, h5⟩ := namespace_colors
  refine ⟨h1, h2, h3, h4, h5, ?_⟩
  intro o ho f hf p c h
  obtain ⟨hcls, hbg⟩ := familyObjects_mem o ho f hf
  obtain ⟨hflag, hcode, -, -⟩ := access_flag f.cls hcls f.bg_color f.short_cut p c h
  exact ⟨by rw [hflag, hbg], hcode⟩

/-- C32 (witness): position 6 of the shortcut `R` of `bg::PrimaryColors`, the code 196. -/
theorem C32_fg_bg_flags_witness :
    Color.isBackgroundColor { color_code := 196, bg_color := true } = bg.PrimaryColors.bg_color ∧
    Color.colorCode { color_code := 196, bg_color := true } = _Red.codes.getD (6 - 1) 0 :=
  C32_fg_bg_flags.2.2.2.2.2 bg.PrimaryColors (by simp [fg.objects, bg.objects])
    { cls := _Red, bg_color := true, short_cut := true }
    (by simp [CategoryObject.familyObjects, CategoryClass.families, CategoryClass.short_cut,
      bg.PrimaryColors, PrimaryColors])
    6 { color_code := 196, bg_color := true } (Or.inl (by decide))

/-- C33 (counterexample): the enumeration `Defined_Colors::Orange` has ten values, among them
`Orange217 = 217`, and the range of the family Orange lists nine codes, none of them 217. -/
theorem C33_counterexample_orange217_not_listed :
    Defined_Colors.Orange.val Defined_Colors.Orange.Orange217 = 217 ∧
    217 ∈ Defined_Colors.Orange.all.map Defined_Colors.Orange.val ∧
    217 ∉ _Orange.codes ∧
    (Defined_Colors.Orange.all.map Defined_Colors.Orange.val).length = 10 ∧
    _Orange.codes.length = 9 ∧
    ¬ (∀ v ∈ Defined_Colors.Orange.all.map Defined_Colors.Orange.val, v ∈ _Orange.codes) := by
  decide

set_option maxRecDepth 100000 in
theorem rangeEnums_spec :
    rangeEnums.map (fun x => x.1.range.name)
      = ["Red", "Green", "Blue", "Cyan", "Yellow", "Purple", "Orange", "Brown", "Violet", "Pink",
          "Black", "Gray", "White", "Shades"] ∧
    (∀ x ∈ rangeEnums,
      x.1.codes.Nodup ∧ (∀ v ∈ x.1.codes, v ∈ x.2) ∧
      (∀ v ∈ x.2, v ∈ x.1.codes ∨ (x.1.range.name = "Orange" ∧ v = 217))) := by
  decide

/-- C33 (amended): for every family, the codes at the positions 1..N of its range are pairwise
distinct and are all values of its enumeration in `Defined_Colors` (GrayScale for Shades); for
every family other than Orange they are exactly the values of the enumeration, and for Orange
they are the values of the enumeration other than `Orange217 = 217`. -/
theorem C33_ranges_list_enumerations :
    (rangeEnums.map (fun x => x.1.range.name)
      = ["Red", "Green", "Blue", "Cyan", "Yellow", "Purple", "Orange", "Brown", "Violet", "Pink",
          "Black", "Gray", "White", "Shades"] ∧
    (∀ x ∈ rangeEnums,
      x.1.codes.Nodup ∧ (∀ v ∈ x.1.codes, v ∈ x.2) ∧
      (∀ v ∈ x.2, v ∈ x.1.codes ∨ (x.1.range.name = "Orange" ∧ v = 217)))) ∧
    217 ∉ _Orange.codes ∧
    (∀ e : Defined_Colors.Red, e ∈ Defined_Colors.Red.all) ∧
    (∀ e : Defined_Colors.Orange, e ∈ Defined_Colors.Orange.all) ∧
    (∀ e : Defined_Colors.Yellow, e ∈ Defined_Colors.Yellow.all) ∧
    (∀ e : Defined_Colors.Green, e ∈ Defined_Colors.Green.all) ∧
    (∀ e : Defined_Colors.Cyan, e ∈ Defined_Colors.Cyan.all) ∧
    (∀ e : Defined_Colors.Blue, e ∈ Defined_Colors.Blue.all) ∧
    (∀ e : Defined_Colors.Violet, e ∈ Defined_Colors.Violet.all) ∧
    (∀ e : Defined_Colors.Pink, e ∈ Defined_Colors.Pink.all) ∧
    (∀ e : Defined_Colors.Purple, e ∈ Defined_Colors.Purple.all) ∧
    (∀ e : Defined_Colors.Brown, e ∈ Defined_Colors.Brown.all) ∧
    (∀ e : Defined_Colors.GrayScale, e ∈ Defined_Colors.GrayScale.all) ∧
    (∀ e : Defined_Colors.Gray, e ∈ Defined_Colors.Gray.all) ∧
    (∀ e : Defined_Colors.White, e ∈ Defined_Colors.White.all) ∧
    (∀ e : Defined_Colors.Black, e ∈ Defined_Colors.Black.all) :=
  ⟨rangeEnums_spec, by decide, enumerators_complete⟩

/-- C33 (witness): the family Red and its enumeration. -/
theorem C33_ranges_list_enumerations_witness :
    _Red.codes.Nodup ∧
    (∀ v ∈ _Red.codes, v ∈ Defined_Colors.Red.all.map Defined_Colors.Red.val) ∧
    (∀ v ∈ Defined_Colors.Red.all.map Defined_Colors.Red.val,
      v ∈ _Red.codes ∨ (_Red.range.name = "Orange" ∧ v = 217)) :=
  C33_ranges_list_enumerations.1.2 (_Red, Defined_Colors.Red.all.map Defined_Colors.Red.val)
    (by simp [rangeEnums])

set_option maxRecDepth 100000 in
theorem sequence_decoded :
    ∀ i : Fin 256, ∀ b : Bool,
      sequenceIndex (getAnsi256Code i.val b) = i.val ∧
      sequenceIsBackground (getAnsi256Code i.val b) = b := by
  decide

/-- C34: the escape sequence determines the colour: for all indices `i`, `j` in `0..255` and
flags `b`, `c`, `getAnsi256Code i b` and `getAnsi256Code j c` are equal as strings if and only if
`i = j` and `b = c`. -/
theorem C34_escape_sequence_injective (i j : Nat) (hi : i < 256) (hj : j < 256) (b c : Bool) :
    getAnsi256Code i b = getAnsi256Code j c ↔ (i = j ∧ b = c) := by
  constructor
  · intro h
    obtain ⟨hi1, hi2⟩ := sequence_decoded ⟨i, hi⟩ b
    obtain ⟨hj1, hj2⟩ := sequence_decoded ⟨j, hj⟩ c
    simp only [] at hi1 hi2 hj1 hj2
    rw [h] at hi1 hi2
    exact ⟨hi1.symm.trans hj1, hi2.symm.trans hj2⟩
  · rintro ⟨rfl, rfl⟩
    rfl

/-- C34 (witness): the foreground and the background sequence of index 38 differ, and so do the
foreground sequences of 38 and 48. -/
theorem C34_escape_sequence_injective_witness :
    getAnsi256Code 38 false ≠ getAnsi256Code 38 true ∧
    getAnsi256Code 38 false ≠ getAnsi256Code 48 false :=
  ⟨fun h => absurd ((C34_escape_sequence_injective 38 38 (by decide) (by decide) false true).mp
      h).2 (by decide),
    fun h => absurd ((C34_escape_sequence_injective 38 48 (by decide) (by decide) false
      false).mp h).1 (by decide)⟩

theorem reset_lengths : Reset.FgColor.length = 5 ∧ Reset.BgColor.length = 5 := by
  decide

/-- C35: streaming a colour with `operator<<` appends, to what the stream holds, exactly
`Reset::FgColor` (ESC `[39m`) followed by `c_str()` when the colour is a foreground colour, and
`Reset::BgColor` (ESC `[49m`) followed by `c_str()` when it is a background colour, which is
never `c_str()` alone; and `format` hands to the formatter of strings the text that `operator<<`
writes to an empty stream. -/
theorem C35_color_stream_writes_reset_first (col : Color) (os : String)
    (base_fmt : String → String) :
    (col.isBackgroundColor = false → Color.insert os col = os ++ Reset.FgColor ++ col.c_str) ∧
    (col.isBackgroundColor = true → Color.insert os col = os ++ Reset.BgColor ++ col.c_str) ∧
    Color.insert os col ≠ os ++ col.c_str ∧
    (Reset.FgColor = "\x1b[39m" ∧ Reset.BgColor = "\x1b[49m") ∧
    Color.format base_fmt col
      = base_fmt ((if col.isBackgroundColor then Reset.BgColor else Reset.FgColor)
          ++ col.c_str) := by
  have hins : Color.insert os col
      = os ++ (if col.bg_color then Reset.BgColor else Reset.FgColor) ++ col.c_str := rfl
  refine ⟨?_, ?_, ?_, ⟨rfl, rfl⟩, ?_⟩
  · intro h
    have h' : col.bg_color = false := h
    rw [hins, h']
    rfl
  · intro h
    have h' : col.bg_color = true := h
    rw [hins, h']
    rfl
  · intro h
    have hlen := congrArg String.length h
    rw [hins] at hlen
    simp only [String.length_append] at hlen
    have hr : (if col.bg_color then Reset.BgColor else Reset.FgColor).length = 5 := by
      cases col.bg_color
      · exact reset_lengths.1
      · exact reset_lengths.2
    omega
  · show base_fmt (Color.insert "" col) = _
    rw [show Color.insert "" col
        = "" ++ (if col.bg_color then Reset.BgColor else Reset.FgColor) ++ col.c_str from rfl]
    congr 1

/-- C35 (witness): streaming the foreground colour 196 and the background colour 21. -/
theorem C35_color_stream_writes_reset_first_witness :
    Color.insert "" { color_code := 196, bg_color := false }
      = "" ++ Reset.FgColor ++ Color.c_str { color_code := 196, bg_color := false } ∧
    Color.insert "x" { color_code := 21, bg_color := true }
      = "x" ++ Reset.BgColor ++ Color.c_str { color_code := 21, bg_color := true } :=
  ⟨(C35_color_stream_writes_reset_first { color_code := 196, bg_color := false } "" id).1 rfl,
    (C35_color_stream_writes_reset_first { color_code := 21, bg_color := true } "x" id).2.1 rfl⟩

end ansi_colors
